import Mathlib

/-! # Cydonia render backend: descriptor values, object caches, command buffer

A shallow embedding of the Vulkan backend of the Cydonia engine
(`Engine/Graphics/GraphicsTypes.h`, `Engine/Graphics/Vulkan/*.cpp`).

* 32-bit unsigned fields (`uint32_t`, `Flag`) are natural numbers; no arithmetic
  is performed on them by the code embedded here.
* `float` fields are held as their IEEE-754 binary32 bit pattern.
* Native Vulkan handles are natural numbers, `0` being `VK_NULL_HANDLE`.
* Every call into the Vulkan driver is appended to a chronological trace.
-/

namespace Cydonia

/-! ## GraphicsTypes.h: enums -/

inductive PixelFormat where
  | BGRA8_UNORM
  | D32_SFLOAT
  deriving DecidableEq, Repr

inductive ColorSpace where
  | SRGB_NONLINEAR
  deriving DecidableEq, Repr

inductive PresentMode where
  | IMMEDIATE
  | FIFO
  | FIFO_RELAXED
  | MAILBOX
  deriving DecidableEq, Repr

inductive LoadOp where
  | LOAD
  | CLEAR
  | DONT_CARE
  deriving DecidableEq, Repr

inductive StoreOp where
  | STORE
  | DONT_CARE
  deriving DecidableEq, Repr

inductive AttachmentType where
  | COLOR
  | DEPTH
  | DEPTH_STENCIL
  deriving DecidableEq, Repr

inductive DrawPrimitive where
  | POINTS
  | LINES
  | LINE_STRIPS
  | TRIANGLES
  | TRIANGLE_STRIPS
  deriving DecidableEq, Repr

inductive PolygonMode where
  | FILL
  | LINE
  | POINT
  deriving DecidableEq, Repr

inductive ImageLayout where
  | UNDEFINED
  | GENERAL
  | COLOR
  | PRESENTATION
  | TRANSFER_SRC
  | TRANSFER_DST
  | SHADER_READ
  | DEPTH_STENCIL
  deriving DecidableEq, Repr

inductive ShaderObjectType where
  | UNIFORM
  | COMBINED_IMAGE_SAMPLER
  deriving DecidableEq, Repr

inductive Filter where
  | NEAREST
  | LINEAR
  | CUBIC
  deriving DecidableEq, Repr

inductive AddressMode where
  | REPEAT
  | MIRRORED_REPEAT
  | CLAMP_TO_EDGE
  | CLAMP_TO_BORDER
  | MIRROR_CLAMP_TO_EDGE
  deriving DecidableEq, Repr

/-- Underlying integer of an `enum class` enumerator (declaration order). -/
def PixelFormat.toNat : PixelFormat → Nat
  | .BGRA8_UNORM => 0
  | .D32_SFLOAT => 1

def LoadOp.toNat : LoadOp → Nat
  | .LOAD => 0
  | .CLEAR => 1
  | .DONT_CARE => 2

def StoreOp.toNat : StoreOp → Nat
  | .STORE => 0
  | .DONT_CARE => 1

def AttachmentType.toNat : AttachmentType → Nat
  | .COLOR => 0
  | .DEPTH => 1
  | .DEPTH_STENCIL => 2

def DrawPrimitive.toNat : DrawPrimitive → Nat
  | .POINTS => 0
  | .LINES => 1
  | .LINE_STRIPS => 2
  | .TRIANGLES => 3
  | .TRIANGLE_STRIPS => 4

def PolygonMode.toNat : PolygonMode → Nat
  | .FILL => 0
  | .LINE => 1
  | .POINT => 2

def ImageLayout.toNat : ImageLayout → Nat
  | .UNDEFINED => 0
  | .GENERAL => 1
  | .COLOR => 2
  | .PRESENTATION => 3
  | .TRANSFER_SRC => 4
  | .TRANSFER_DST => 5
  | .SHADER_READ => 6
  | .DEPTH_STENCIL => 7

def ShaderObjectType.toNat : ShaderObjectType → Nat
  | .UNIFORM => 0
  | .COMBINED_IMAGE_SAMPLER => 1

def Filter.toNat : Filter → Nat
  | .NEAREST => 0
  | .LINEAR => 1
  | .CUBIC => 2

def AddressMode.toNat : AddressMode → Nat
  | .REPEAT => 0
  | .MIRRORED_REPEAT => 1
  | .CLAMP_TO_EDGE => 2
  | .CLAMP_TO_BORDER => 3
  | .MIRROR_CLAMP_TO_EDGE => 4

/-! ## `float` as a binary32 bit pattern -/

/-- NaN test on a binary32 bit pattern: exponent all ones, mantissa non-zero. -/
def f32IsNaN (x : Nat) : Bool :=
  (x / 8388608) % 256 == 255 && x % 8388608 != 0

/-- Zero test on a binary32 bit pattern: `+0.0f` or `-0.0f`. -/
def f32IsZero (x : Nat) : Bool :=
  x % 2147483648 == 0

/-- The C++ `==` on two `float`s given by their bit patterns: false as soon as
one side is NaN, true for the two zeros, otherwise equality of the patterns. -/
def f32Eq (a b : Nat) : Bool :=
  !f32IsNaN (a % 4294967296) && !f32IsNaN (b % 4294967296) &&
    (a % 4294967296 == b % 4294967296 || (f32IsZero a && f32IsZero b))

/-! ## GraphicsTypes.h: descriptor value structs -/

structure Extent where
  width : Nat
  height : Nat
  deriving DecidableEq, Repr

structure ShaderObjectInfo where
  type : ShaderObjectType
  stages : Nat
  binding : Nat
  deriving DecidableEq, Repr

structure Attachment where
  format : PixelFormat
  loadOp : LoadOp
  storeOp : StoreOp
  type : AttachmentType
  layout : ImageLayout
  deriving DecidableEq, Repr

structure PushConstantRange where
  stages : Nat
  offset : Nat
  size : Nat
  deriving DecidableEq, Repr

structure SamplerInfo where
  useAnisotropy : Bool := true
  /-- The bit pattern of the `float`; the default is `16.0f`. -/
  maxAnisotropy : Nat := 1098907648
  magFilter : Filter := Filter.NEAREST
  minFilter : Filter := Filter.NEAREST
  addressMode : AddressMode := AddressMode.REPEAT
  deriving DecidableEq, Repr

structure RenderPassInfo where
  attachments : List Attachment
  deriving DecidableEq, Repr

structure DescriptorSetLayoutInfo where
  shaderObjects : List ShaderObjectInfo
  deriving DecidableEq, Repr

structure PipelineLayoutInfo where
  ranges : List PushConstantRange
  descSetLayout : DescriptorSetLayoutInfo
  deriving DecidableEq, Repr

structure PipelineInfo where
  shaders : List String
  renderPass : RenderPassInfo
  pipLayout : PipelineLayoutInfo
  drawPrim : DrawPrimitive
  polyMode : PolygonMode
  extent : Extent
  deriving DecidableEq, Repr

/-! ## `operator==` of the descriptor values

`GraphicsTypes.h` only declares the operators; their bodies are in a file that is
not part of the sources at hand. -/

/-- The `operator==` of `std::vector`: same length and element-wise `==`. -/
def vectorEq {α : Type} (eq : α → α → Bool) : List α → List α → Bool
  | [], [] => true
  | a :: as, b :: bs => eq a b && vectorEq eq as bs
  | _, _ => false

/-- Modelled from the spec: `Extent::operator==` (declared in GraphicsTypes.h, body
absent); "plain immutable value structs with full structural equality". -/
def Extent.opEq (a b : Extent) : Bool :=
  a.width == b.width && a.height == b.height

/-- Modelled from the spec: `ShaderObjectInfo::operator==` (body absent), full
structural equality. -/
def ShaderObjectInfo.opEq (a b : ShaderObjectInfo) : Bool :=
  a.type == b.type && a.stages == b.stages && a.binding == b.binding

/-- Modelled from the spec: `Attachment::operator==` (body absent), full structural
equality. -/
def Attachment.opEq (a b : Attachment) : Bool :=
  a.format == b.format && a.loadOp == b.loadOp && a.storeOp == b.storeOp &&
    a.type == b.type && a.layout == b.layout

/-- Modelled from the spec: `PushConstantRange::operator==` (body absent), full
structural equality. -/
def PushConstantRange.opEq (a b : PushConstantRange) : Bool :=
  a.stages == b.stages && a.offset == b.offset && a.size == b.size

/-- Modelled from the spec: `SamplerInfo::operator==` (body absent), full structural
equality; the `float` field is compared with the C++ `==` on `float`. -/
def SamplerInfo.opEq (a b : SamplerInfo) : Bool :=
  a.useAnisotropy == b.useAnisotropy && f32Eq a.maxAnisotropy b.maxAnisotropy &&
    a.magFilter == b.magFilter && a.minFilter == b.minFilter &&
    a.addressMode == b.addressMode

/-- Modelled from the spec: `RenderPassInfo::operator==` (body absent), full
structural equality. -/
def RenderPassInfo.opEq (a b : RenderPassInfo) : Bool :=
  vectorEq Attachment.opEq a.attachments b.attachments

/-- Modelled from the spec: `DescriptorSetLayoutInfo::operator==` (body absent),
full structural equality. -/
def DescriptorSetLayoutInfo.opEq (a b : DescriptorSetLayoutInfo) : Bool :=
  vectorEq ShaderObjectInfo.opEq a.shaderObjects b.shaderObjects

/-- Modelled from the spec: `PipelineLayoutInfo::operator==` (body absent), full
structural equality. -/
def PipelineLayoutInfo.opEq (a b : PipelineLayoutInfo) : Bool :=
  vectorEq PushConstantRange.opEq a.ranges b.ranges &&
    DescriptorSetLayoutInfo.opEq a.descSetLayout b.descSetLayout

/-- Modelled from the spec: `PipelineInfo::operator==` (body absent), full structural
equality. -/
def PipelineInfo.opEq (a b : PipelineInfo) : Bool :=
  vectorEq (fun (x y : String) => x == y) a.shaders b.shaders &&
    RenderPassInfo.opEq a.renderPass b.renderPass &&
    PipelineLayoutInfo.opEq a.pipLayout b.pipLayout &&
    a.drawPrim == b.drawPrim && a.polyMode == b.polyMode &&
    Extent.opEq a.extent b.extent

/-! ## GraphicsTypes.h: the `std::hash` specialisations -/

/-- The standard-library hashes and the `hash_combine` helper of the absent
`Common/Include.h`, taken as parameters.  `hash_combine( seed, v )` stores
`mix seed (std::hash<T>{}( v ))` into `seed`. -/
structure StdHash where
  /-- What `hash_combine` makes of the seed and of the hash of the value. -/
  mix : Nat → Nat → Nat
  /-- The `std::hash` of integers, `bool` and enumerations (by underlying value). -/
  word : Nat → Nat
  /-- The `std::hash<float>` of a non-zero value, by bit pattern. -/
  flt : Nat → Nat
  /-- The `std::hash<std::string>`. -/
  str : String → Nat

/-- The `std::hash<float>`: both zeros hash alike, as the standard library
implements it (`+0.0f == -0.0f`); other values hash by bit pattern. -/
def StdHash.float (H : StdHash) (x : Nat) : Nat :=
  if f32IsZero x then H.flt 0 else H.flt (x % 4294967296)

/-- A range-for loop of `hash_combine( seed, element )`. -/
def hashLoop {α : Type} (H : StdHash) (h : α → Nat) (seed : Nat) (xs : List α) : Nat :=
  xs.foldl (fun s x => H.mix s (h x)) seed

/-- The `std::hash<cyd::Extent>`. -/
def hashExtent (H : StdHash) (extent : Extent) : Nat :=
  let seed := 0
  let seed := H.mix seed (H.word extent.width)
  let seed := H.mix seed (H.word extent.height)
  seed

/-- The `std::hash<cyd::Attachment>`. -/
def hashAttachment (H : StdHash) (attachment : Attachment) : Nat :=
  let seed := 0
  let seed := H.mix seed (H.word attachment.format.toNat)
  let seed := H.mix seed (H.word attachment.loadOp.toNat)
  let seed := H.mix seed (H.word attachment.storeOp.toNat)
  let seed := H.mix seed (H.word attachment.type.toNat)
  let seed := H.mix seed (H.word attachment.layout.toNat)
  seed

/-- The `std::hash<cyd::ShaderObjectInfo>`. -/
def hashShaderObjectInfo (H : StdHash) (shaderObject : ShaderObjectInfo) : Nat :=
  let seed := 0
  let seed := H.mix seed (H.word shaderObject.type.toNat)
  let seed := H.mix seed (H.word shaderObject.binding)
  let seed := H.mix seed (H.word shaderObject.stages)
  seed

/-- The `std::hash<cyd::PushConstantRange>`. -/
def hashPushConstantRange (H : StdHash) (range : PushConstantRange) : Nat :=
  let seed := 0
  let seed := H.mix seed (H.word range.stages)
  let seed := H.mix seed (H.word range.offset)
  let seed := H.mix seed (H.word range.size)
  seed

/-- The `std::hash<cyd::RenderPassInfo>`. -/
def hashRenderPassInfo (H : StdHash) (renderPass : RenderPassInfo) : Nat :=
  hashLoop H (hashAttachment H) 0 renderPass.attachments

/-- The `std::hash<cyd::DescriptorSetLayoutInfo>`. -/
def hashDescriptorSetLayoutInfo (H : StdHash) (descSetLayoutInfo : DescriptorSetLayoutInfo) :
    Nat :=
  hashLoop H (hashShaderObjectInfo H) 0 descSetLayoutInfo.shaderObjects

/-- The `std::hash<cyd::PipelineLayoutInfo>`: only the ranges are hashed. -/
def hashPipelineLayoutInfo (H : StdHash) (pipLayoutInfo : PipelineLayoutInfo) : Nat :=
  hashLoop H (hashPushConstantRange H) 0 pipLayoutInfo.ranges

/-- The `std::hash<cyd::PipelineInfo>`: the render pass is not hashed. -/
def hashPipelineInfo (H : StdHash) (pipInfo : PipelineInfo) : Nat :=
  let seed := 0
  let seed := H.mix seed (hashPipelineLayoutInfo H pipInfo.pipLayout)
  let seed := H.mix seed (H.word pipInfo.drawPrim.toNat)
  let seed := H.mix seed (H.word pipInfo.polyMode.toNat)
  let seed := H.mix seed (hashExtent H pipInfo.extent)
  hashLoop H H.str seed pipInfo.shaders

/-- The `std::hash<cyd::SamplerInfo>`. -/
def hashSamplerInfo (H : StdHash) (samplerInfo : SamplerInfo) : Nat :=
  let seed := 0
  let seed := H.mix seed (H.word (if samplerInfo.useAnisotropy then 1 else 0))
  let seed := H.mix seed (H.float samplerInfo.maxAnisotropy)
  let seed := H.mix seed (H.word samplerInfo.magFilter.toNat)
  let seed := H.mix seed (H.word samplerInfo.minFilter.toNat)
  let seed := H.mix seed (H.word samplerInfo.addressMode.toNat)
  seed

/-- A concrete instance: the customary `hash_combine` on a 64-bit `size_t`,
identity hashes for integers and floats, the length for strings. -/
def boostHash : StdHash where
  mix := fun seed h =>
    Nat.xor seed ((h + 2654435769 + seed * 64 + seed / 4) % 18446744073709551616)
  word := fun n => n
  flt := fun n => n
  str := fun s => s.length

/-! ## The Vulkan side: handles, creation parameters, the call trace -/

/-- A native Vulkan handle; `0` is `VK_NULL_HANDLE`. -/
abbrev Handle := Nat

inductive VkDescriptorType where
  | UNIFORM_BUFFER
  | COMBINED_IMAGE_SAMPLER
  deriving DecidableEq, Repr

structure VkDescriptorSetLayoutBinding where
  binding : Nat
  descriptorType : VkDescriptorType
  descriptorCount : Nat
  stageFlags : Nat
  pImmutableSamplers : Handle
  deriving DecidableEq, Repr

/-- The `pBindings` array; `bindingCount` is its length. -/
structure VkDescriptorSetLayoutCreateInfo where
  pBindings : List VkDescriptorSetLayoutBinding
  deriving DecidableEq, Repr

structure VkPushConstantRange where
  stageFlags : Nat
  offset : Nat
  size : Nat
  deriving DecidableEq, Repr

/-- The `pSetLayouts` and `pPushConstantRanges` arrays; the two counts are their
lengths. -/
structure VkPipelineLayoutCreateInfo where
  pSetLayouts : List Handle
  pPushConstantRanges : List VkPushConstantRange
  deriving DecidableEq, Repr

/-- `Shader::Type`; `OTHER` stands for any enumerator that is none of the three
named in `shaderTypeToVKShaderStage`. -/
inductive ShaderType where
  | VERTEX
  | FRAGMENT
  | COMPUTE
  | OTHER
  deriving DecidableEq, Repr

/-- What the pipeline creation reads of a `Shader`. -/
structure Shader where
  getType : ShaderType
  getModule : Handle
  deriving DecidableEq, Repr

structure VkPipelineShaderStageCreateInfo where
  stage : Nat
  module : Handle
  pName : String
  deriving DecidableEq, Repr

inductive VkFormat where
  | R32G32B32_SFLOAT
  | R32G32B32A32_SFLOAT
  deriving DecidableEq, Repr

structure VkVertexInputBindingDescription where
  binding : Nat
  stride : Nat
  inputRate : Nat
  deriving DecidableEq, Repr

structure VkVertexInputAttributeDescription where
  binding : Nat
  location : Nat
  format : VkFormat
  offset : Nat
  deriving DecidableEq, Repr

/-- The parts of `VkGraphicsPipelineCreateInfo` and of the state blocks it points to
that `PipelineStash::findOrCreate` fills in. -/
structure VkGraphicsPipelineCreateInfo where
  pStages : List VkPipelineShaderStageCreateInfo
  vertexBindingDesc : VkVertexInputBindingDescription
  attributeDescs : List VkVertexInputAttributeDescription
  topology : Nat
  viewportWidth : Nat
  viewportHeight : Nat
  scissorExtent : Nat × Nat
  polygonMode : Nat
  cullMode : Nat
  frontFace : Nat
  rasterizationSamples : Nat
  blendEnable : Bool
  colorWriteMask : Nat
  dynamicStates : List Nat
  depthTestEnable : Bool
  depthWriteEnable : Bool
  depthCompareOp : Nat
  stencilTestEnable : Bool
  layout : Handle
  renderPass : Handle
  subpass : Nat
  basePipelineHandle : Handle
  deriving DecidableEq, Repr

structure VkSamplerCreateInfo where
  magFilter : Nat
  minFilter : Nat
  addressModeU : Nat
  addressModeV : Nat
  addressModeW : Nat
  anisotropyEnable : Bool
  maxAnisotropy : Nat
  borderColor : Nat
  unnormalizedCoordinates : Bool
  compareEnable : Bool
  compareOp : Nat
  mipmapMode : Nat
  deriving DecidableEq, Repr

structure VkImageMemoryBarrier where
  oldLayout : Nat
  newLayout : Nat
  image : Handle
  srcAccessMask : Nat
  dstAccessMask : Nat
  deriving DecidableEq, Repr

/-- The semaphore arrays of a `VkSubmitInfo`, the wait-stage array and the command
buffer. -/
structure VkSubmitInfo where
  pCommandBuffers : List Handle
  pWaitSemaphores : List Handle
  pWaitDstStageMask : List Nat
  pSignalSemaphores : List Handle
  deriving DecidableEq, Repr

structure VkExtent2D where
  width : Nat
  height : Nat
  deriving DecidableEq, Repr

/-- The `pAttachments` array of a `VkFramebufferCreateInfo` (`attachmentCount` is
its length) with the render pass and the dimensions. -/
structure VkFramebufferCreateInfo where
  renderPass : Handle
  pAttachments : List Handle
  width : Nat
  height : Nat
  layers : Nat
  deriving DecidableEq, Repr

/-- The arrays of a `VkPresentInfoKHR`; the counts are their lengths. -/
structure VkPresentInfoKHR where
  pWaitSemaphores : List Handle
  pSwapchains : List Handle
  pImageIndices : List Nat
  deriving DecidableEq, Repr

/-- A `VkViewport`; `x` and `y` are bit patterns of `float`s, the width and the
height are the integers that were converted to `float`. -/
structure VkViewport where
  x : Nat
  y : Nat
  width : Nat
  height : Nat
  deriving DecidableEq, Repr

structure VkRenderPassBeginInfo where
  renderPass : Handle
  framebuffer : Handle
  renderAreaExtent : VkExtent2D
  clearValueCount : Nat
  deriving DecidableEq, Repr

/-- `VK_PIPELINE_STAGE_ALL_GRAPHICS_BIT`. -/
def VK_PIPELINE_STAGE_ALL_GRAPHICS_BIT : Nat := 32768

/-- `VK_PIPELINE_STAGE_TRANSFER_BIT`. -/
def VK_PIPELINE_STAGE_TRANSFER_BIT : Nat := 4096

/-- `VK_PIPELINE_STAGE_FRAGMENT_SHADER_BIT`. -/
def VK_PIPELINE_STAGE_FRAGMENT_SHADER_BIT : Nat := 128

/-- `VK_PIPELINE_STAGE_TOP_OF_PIPE_BIT`. -/
def VK_PIPELINE_STAGE_TOP_OF_PIPE_BIT : Nat := 1

/-- `VK_ACCESS_TRANSFER_WRITE_BIT`. -/
def VK_ACCESS_TRANSFER_WRITE_BIT : Nat := 4096

/-- `VK_ACCESS_SHADER_READ_BIT`. -/
def VK_ACCESS_SHADER_READ_BIT : Nat := 32

/-- `VK_IMAGE_LAYOUT_SHADER_READ_ONLY_OPTIMAL`. -/
def VK_IMAGE_LAYOUT_SHADER_READ_ONLY_OPTIMAL : Nat := 5

/-- `VK_IMAGE_LAYOUT_TRANSFER_DST_OPTIMAL`. -/
def VK_IMAGE_LAYOUT_TRANSFER_DST_OPTIMAL : Nat := 7

/-- `UINT64_MAX`, which is also `UINTMAX_MAX`. -/
def UINT64_MAX : Nat := 18446744073709551615

/-- A call into the Vulkan driver, with the arguments the backend chooses. -/
inductive VkCall where
  | vkCreateDescriptorSetLayout (info : VkDescriptorSetLayoutCreateInfo)
  | vkCreatePipelineLayout (info : VkPipelineLayoutCreateInfo)
  | vkCreateGraphicsPipelines (info : VkGraphicsPipelineCreateInfo)
  | vkCreateRenderPass (info : RenderPassInfo)
  | vkCreateSampler (info : VkSamplerCreateInfo)
  | vkAllocateDescriptorSets (layout : Handle)
  | vkFreeDescriptorSets (descSet : Handle)
  | vkDestroyPipeline (pipeline : Handle)
  | vkDestroyPipelineLayout (pipLayout : Handle)
  | vkDestroyDescriptorSetLayout (descSetLayout : Handle)
  | vkDestroySampler (sampler : Handle)
  | vkDestroyFence (fence : Handle)
  | vkFreeCommandBuffers (pool : Handle) (cmdBuffer : Handle)
  | vkGetFenceStatus (fence : Handle)
  | vkWaitForFences (fence : Handle) (timeout : Nat)
  | vkResetFences (fence : Handle)
  | vkQueueSubmit (queue : Handle) (submitInfo : VkSubmitInfo) (fence : Handle)
  | vkBeginCommandBuffer (cmdBuffer : Handle)
  | vkEndCommandBuffer (cmdBuffer : Handle)
  | vkCmdBindPipeline (cmdBuffer : Handle) (pipeline : Handle)
  | vkCmdBindVertexBuffers (cmdBuffer : Handle) (buffer : Handle)
  | vkCmdBindIndexBuffer (cmdBuffer : Handle) (buffer : Handle) (indexBits : Nat)
  | vkCmdBindDescriptorSets (cmdBuffer : Handle) (layout : Handle) (descSet : Handle)
  | vkCmdPipelineBarrier (cmdBuffer : Handle) (srcStageMask dstStageMask : Nat)
      (barrier : VkImageMemoryBarrier)
  | vkAllocateCommandBuffers (pool : Handle)
  | vkCreateFence
  | vkCreateSemaphore
  | vkCreateFramebuffer (info : VkFramebufferCreateInfo)
  | vkAcquireNextImageKHR (swapchain : Handle) (timeout : Nat) (semaphore : Handle)
      (fence : Handle)
  | vkQueuePresentKHR (queue : Handle) (presentInfo : VkPresentInfoKHR)
  | vkCmdPushConstants (cmdBuffer : Handle) (layout : Handle) (stageFlags : Nat)
      (offset : Nat) (size : Nat) (data : Nat)
  | vkCmdSetViewport (cmdBuffer : Handle) (viewport : VkViewport)
  | vkCmdBeginRenderPass (cmdBuffer : Handle) (renderPassInfo : VkRenderPassBeginInfo)
  | vkCmdDraw (cmdBuffer : Handle) (vertexCount : Nat)
  | vkCmdDrawIndexed (cmdBuffer : Handle) (indexCount : Nat)
  | vkCmdEndRenderPass (cmdBuffer : Handle)
  | vkCmdCopyBuffer (cmdBuffer : Handle) (src : Handle) (dst : Handle) (size : Nat)
  | vkCmdCopyBufferToImage (cmdBuffer : Handle) (src : Handle) (dst : Handle)
      (dstLayout : Nat) (width : Nat) (height : Nat)
  deriving DecidableEq, Repr

/-- What is outside the sources at hand and outside the state: the build mode, the
driver's answers, and the helpers of absent files, all taken as parameters. -/
structure Cfg where
  /-- Whether `CYDASSERT` is compiled in, in which case a failed one is fatal. -/
  debug : Bool
  /-- Whether the creation call number `n` (counted from 0) returns `VK_SUCCESS`. -/
  succeeds : Nat → Bool
  /-- What the uninitialised output variable holds when creation call `n` fails. -/
  garbage : Nat → Handle
  /-- The lookup `ShaderStash::getShader` (ShaderStash is absent); the code
  dereferences its result unchecked. -/
  getShader : String → Shader
  /-- The table `TypeConversions::cydShaderStagesToVkShaderStages` (absent). -/
  cydShaderStagesToVkShaderStages : Nat → Nat
  /-- The table `TypeConversions::cydDrawPrimToVkDrawPrim` (absent). -/
  cydDrawPrimToVkDrawPrim : DrawPrimitive → Nat
  /-- The table `TypeConversions::cydPolyModeToVkPolyMode` (absent). -/
  cydPolyModeToVkPolyMode : PolygonMode → Nat
  /-- The table `TypeConversions::cydFilterToVkFilter` (absent). -/
  cydFilterToVkFilter : Filter → Nat
  /-- The table `TypeConversions::cydAddressModeToVkAddressMode` (absent). -/
  cydAddressModeToVkAddressMode : AddressMode → Nat
  /-- The table `TypeConversions::cydImageLayoutToVKImageLayout` (absent). -/
  cydImageLayoutToVKImageLayout : ImageLayout → Nat
  /-- The lookup `Device::getQueueFromFamily` (Device is absent); `none` is the null
  pointer. -/
  getQueueFromFamily : Nat → Option Handle
  /-- Whether the begin or end of a recording, issued when the trace holds `n`
  calls, returns `VK_SUCCESS`. -/
  recordSucceeds : Nat → Bool
  /-- Whether the GPU completes the work a pending fence guards within a finite,
  non-zero timeout. -/
  gpuDoneWithin : Handle → Nat → Bool
  /-- The lookup `Device::getQueueFromUsage` (Device is absent), by usage and
  whether presentation support is asked for; `none` is the null pointer. -/
  getQueueFromUsage : Nat → Bool → Option Handle
  /-- The image index that `vkAcquireNextImageKHR`, issued when the trace holds `n`
  calls, writes; `none` when the call fails and writes nothing. -/
  acquireResult : Nat → Option Nat
  /-- The table `TypeConversions::cydFormatToVkFormat` (absent). -/
  cydFormatToVkFormat : PixelFormat → Nat
  /-- The table `TypeConversions::cydSpaceToVkSpace` (absent). -/
  cydSpaceToVkSpace : ColorSpace → Nat

/-! ## The caches (`std::unordered_map` from descriptor value to handle) -/

/-- The entries of an `std::unordered_map<K, handle>`, in iteration order.  As
equal keys hash alike, `find` is a search by the key's `operator==`. -/
abbrev Cache (K : Type) := List (K × Handle)

/-- `map.find( k )`, with `none` for `map.end()`. -/
def cacheFind {K : Type} (eq : K → K → Bool) (m : Cache K) (k : K) : Option Handle :=
  (m.find? (fun e => eq e.1 k)).map (fun e => e.2)

/-- `map.insert( {k, v} ).first->second` together with the map afterwards: an
existing entry with an equal key is kept and its value returned. -/
def cacheInsert {K : Type} (eq : K → K → Bool) (m : Cache K) (k : K) (v : Handle) :
    Handle × Cache K :=
  match cacheFind eq m k with
  | some old => (old, m)
  | none => (v, m ++ [(k, v)])

structure PipelineStash where
  _pipelines : Cache PipelineInfo
  _pipLayouts : Cache PipelineLayoutInfo
  _descSetLayouts : Cache DescriptorSetLayoutInfo
  deriving DecidableEq, Repr

structure RenderPassStash where
  _renderPasses : Cache RenderPassInfo
  deriving DecidableEq, Repr

structure SamplerStash where
  _samplers : Cache SamplerInfo
  deriving DecidableEq, Repr

structure DescriptorPool where
  _descSets : Cache DescriptorSetLayoutInfo
  deriving DecidableEq, Repr

/-- The `vk::Device` with the stashes it owns, together with the driver-side state
the embedded code depends on. -/
structure Device where
  /-- Number of creation and allocation calls issued so far. -/
  issued : Nat
  /-- Every driver call so far, oldest first. -/
  trace : List VkCall
  /-- Descriptor sets currently allocated from the descriptor pool. -/
  allocatedSets : List Handle
  /-- Fences that are signalled. -/
  signaled : List Handle
  /-- Fences handed to a queue submission the GPU has not completed. -/
  pending : List Handle
  pipelineStash : PipelineStash
  renderPassStash : RenderPassStash
  samplerStash : SamplerStash
  descPool : DescriptorPool
  deriving DecidableEq, Repr

/-- A freshly built device: nothing cached, nothing issued. -/
def Device.init : Device where
  issued := 0
  trace := []
  allocatedSets := []
  signaled := []
  pending := []
  pipelineStash := ⟨[], [], []⟩
  renderPassStash := ⟨[]⟩
  samplerStash := ⟨[]⟩
  descPool := ⟨[]⟩

/-- Modelled from the spec: the macro `CYDASSERT` (Common/Assert.h is absent), "an
assertion that is fatal in debug builds and a silent no-op ... in release builds".
`none` is the aborted process. -/
def CYDASSERT (cfg : Cfg) (cond : Bool) : Option Unit :=
  if cond || !cfg.debug then some () else none

/-- A driver call that creates an object: it is traced, and it returns its result
code with the content of the output variable; on success that is a handle never
returned before (and not null). -/
def vkCreate (cfg : Cfg) (call : VkCall) (d : Device) : Bool × Handle × Device :=
  let d1 := { d with issued := d.issued + 1, trace := d.trace ++ [call] }
  if cfg.succeeds d.issued then (true, d.issued + 1, d1)
  else (false, cfg.garbage d.issued, d1)

/-- A driver call that creates nothing: it is traced. -/
def vkCall (call : VkCall) (d : Device) : Device :=
  { d with trace := d.trace ++ [call] }

/-! ## PipelineStash.cpp -/

def shaderTypeToVKShaderStage : ShaderType → Nat
  | .VERTEX => 1
  | .FRAGMENT => 16
  | .COMPUTE => 32
  | .OTHER => 2147483647

/-- The body of the loop over `info.shaderObjects`. -/
def descSetLayoutBindingOf (cfg : Cfg) (object : ShaderObjectInfo) :
    VkDescriptorSetLayoutBinding where
  binding := object.binding
  descriptorType :=
    match object.type with
    | .UNIFORM => .UNIFORM_BUFFER
    | .COMBINED_IMAGE_SAMPLER => .COMBINED_IMAGE_SAMPLER
  descriptorCount := 1
  stageFlags := cfg.cydShaderStagesToVkShaderStages object.stages
  pImmutableSamplers := 0

/-- `PipelineStash::findOrCreate( const cyd::DescriptorSetLayoutInfo& )`. -/
def PipelineStash.findOrCreateDescSetLayout (cfg : Cfg) (info : DescriptorSetLayoutInfo)
    (d : Device) : Option (Handle × Device) :=
  match cacheFind DescriptorSetLayoutInfo.opEq d.pipelineStash._descSetLayouts info with
  | some h => some (h, d)
  | none =>
    let descSetLayoutBindings := info.shaderObjects.map (descSetLayoutBindingOf cfg)
    let layoutInfo : VkDescriptorSetLayoutCreateInfo := ⟨descSetLayoutBindings⟩
    match vkCreate cfg (.vkCreateDescriptorSetLayout layoutInfo) d with
    | (result, descSetLayout, d1) =>
      match CYDASSERT cfg result with
      | none => none
      | some _ =>
        match cacheInsert DescriptorSetLayoutInfo.opEq d1.pipelineStash._descSetLayouts
            info descSetLayout with
        | (h, m) =>
          some (h, { d1 with pipelineStash := { d1.pipelineStash with _descSetLayouts := m } })

/-- The body of the loop over `info.ranges`. -/
def vkRangeOf (cfg : Cfg) (range : PushConstantRange) : VkPushConstantRange where
  stageFlags := cfg.cydShaderStagesToVkShaderStages range.stages
  offset := range.offset
  size := range.size

/-- `PipelineStash::findOrCreate( const cyd::PipelineLayoutInfo& )`. -/
def PipelineStash.findOrCreatePipLayout (cfg : Cfg) (info : PipelineLayoutInfo)
    (d : Device) : Option (Handle × Device) :=
  match cacheFind PipelineLayoutInfo.opEq d.pipelineStash._pipLayouts info with
  | some h => some (h, d)
  | none =>
    let vkRanges := info.ranges.map (vkRangeOf cfg)
    match PipelineStash.findOrCreateDescSetLayout cfg info.descSetLayout d with
    | none => none
    | some (descSetLayout, d1) =>
      let descSetLayouts := List.replicate info.descSetLayout.shaderObjects.length descSetLayout
      let pipelineLayoutInfo : VkPipelineLayoutCreateInfo := ⟨descSetLayouts, vkRanges⟩
      match vkCreate cfg (.vkCreatePipelineLayout pipelineLayoutInfo) d1 with
      | (result, pipLayout, d2) =>
        match CYDASSERT cfg result with
        | none => none
        | some _ =>
          match cacheInsert PipelineLayoutInfo.opEq d2.pipelineStash._pipLayouts
              info pipLayout with
          | (h, m) =>
            some (h, { d2 with pipelineStash := { d2.pipelineStash with _pipLayouts := m } })

/-- Modelled from the spec: `RenderPassStash::findOrCreate` (RenderPassStash.cpp is
absent).  "On cache hit, returns the stored handle ... with zero GPU-API calls.  On
miss: synthesizes the native creation parameters from the descriptor value ...,
issues exactly one creation call, asserts success ..., inserts, and returns." -/
def RenderPassStash.findOrCreate (cfg : Cfg) (info : RenderPassInfo) (d : Device) :
    Option (Handle × Device) :=
  match cacheFind RenderPassInfo.opEq d.renderPassStash._renderPasses info with
  | some h => some (h, d)
  | none =>
    match vkCreate cfg (.vkCreateRenderPass info) d with
    | (result, renderPass, d1) =>
      match CYDASSERT cfg result with
      | none => none
      | some _ =>
        match cacheInsert RenderPassInfo.opEq d1.renderPassStash._renderPasses
            info renderPass with
        | (h, m) => some (h, { d1 with renderPassStash := ⟨m⟩ })

/-- The body of the loop over `info.shaders`. -/
def stageInfoOf (cfg : Cfg) (shaderName : String) : VkPipelineShaderStageCreateInfo where
  stage := shaderTypeToVKShaderStage (cfg.getShader shaderName).getType
  module := (cfg.getShader shaderName).getModule
  pName := "main"

/-- The data members of `cyd::Vertex` (GraphicsTypes.h). -/
inductive VertexField where
  | pos
  | col
  | uv
  | normal
  deriving DecidableEq, Repr

/-- The data members of `cyd::Vertex` in declaration order. -/
def VertexField.declared : List VertexField := [.pos, .col, .uv, .normal]

/-- The size in bytes of a member: `glm::vec3` is three `float`s, `glm::vec4`
four, each `float` four bytes. -/
def VertexField.sizeof : VertexField → Nat
  | .pos => 12
  | .col => 16
  | .uv => 12
  | .normal => 12

/-- `offsetof( cyd::Vertex, field )`: the members are laid out in declaration
order, and as all are arrays of `float` there is no padding between them. -/
def offsetof (field : VertexField) : Nat :=
  ((VertexField.declared.takeWhile (fun member => member != field)).map
    VertexField.sizeof).sum

/-- The `attributeDescs` array, by index; the offsets are those of `pos`, `col`,
`normal` and `uv` in `cyd::Vertex` (a `vec3`, a `vec4`, and two `vec3` of `float`,
in the order `pos`, `col`, `uv`, `normal`). -/
def attributeDescs : List VkVertexInputAttributeDescription :=
  [ ⟨0, 0, .R32G32B32_SFLOAT, 0⟩,
    ⟨0, 1, .R32G32B32A32_SFLOAT, 12⟩,
    ⟨0, 3, .R32G32B32_SFLOAT, 40⟩,
    ⟨0, 2, .R32G32B32_SFLOAT, 28⟩ ]

/-- The `VkGraphicsPipelineCreateInfo` built for `info` once its render pass and
pipeline layout are resolved.  The stride is `sizeof( cyd::Vertex )`, 13 floats;
the numbers are the values of `VK_VERTEX_INPUT_RATE_VERTEX` (0),
`VK_CULL_MODE_BACK_BIT` (2), `VK_FRONT_FACE_CLOCKWISE` (1), `VK_SAMPLE_COUNT_1_BIT`
(1), the four colour components (15), `VK_DYNAMIC_STATE_VIEWPORT` (0) and
`VK_COMPARE_OP_LESS` (1). -/
def pipelineInfoOf (cfg : Cfg) (info : PipelineInfo) (renderPass pipLayout : Handle) :
    VkGraphicsPipelineCreateInfo where
  pStages := info.shaders.map (stageInfoOf cfg)
  vertexBindingDesc := ⟨0, 52, 0⟩
  attributeDescs := attributeDescs
  topology := cfg.cydDrawPrimToVkDrawPrim info.drawPrim
  viewportWidth := info.extent.width
  viewportHeight := info.extent.height
  scissorExtent := (info.extent.width, info.extent.height)
  polygonMode := cfg.cydPolyModeToVkPolyMode info.polyMode
  cullMode := 2
  frontFace := 1
  rasterizationSamples := 1
  blendEnable := false
  colorWriteMask := 15
  dynamicStates := [0]
  depthTestEnable := true
  depthWriteEnable := true
  depthCompareOp := 1
  stencilTestEnable := false
  layout := pipLayout
  renderPass := renderPass
  subpass := 0
  basePipelineHandle := 0

/-- `PipelineStash::findOrCreate( const cyd::PipelineInfo& )`. -/
def PipelineStash.findOrCreatePipeline (cfg : Cfg) (info : PipelineInfo) (d : Device) :
    Option (Handle × Device) :=
  match cacheFind PipelineInfo.opEq d.pipelineStash._pipelines info with
  | some h => some (h, d)
  | none =>
    match RenderPassStash.findOrCreate cfg info.renderPass d with
    | none => none
    | some (renderPass, d1) =>
      match PipelineStash.findOrCreatePipLayout cfg info.pipLayout d1 with
      | none => none
      | some (pipLayout, d2) =>
        let pipelineInfo := pipelineInfoOf cfg info renderPass pipLayout
        match vkCreate cfg (.vkCreateGraphicsPipelines pipelineInfo) d2 with
        | (result, pipeline, d3) =>
          match CYDASSERT cfg result with
          | none => none
          | some _ =>
            match cacheInsert PipelineInfo.opEq d3.pipelineStash._pipelines
                info pipeline with
            | (h, m) =>
              some (h, { d3 with pipelineStash := { d3.pipelineStash with _pipelines := m } })

/-- `PipelineStash::~PipelineStash`: the three loops, each over a map in iteration
order. -/
def PipelineStash.destroy (d : Device) : Device :=
  let d1 := d.pipelineStash._pipelines.foldl
    (fun acc pipeline => vkCall (.vkDestroyPipeline pipeline.2) acc) d
  let d2 := d.pipelineStash._pipLayouts.foldl
    (fun acc pipLayout => vkCall (.vkDestroyPipelineLayout pipLayout.2) acc) d1
  d.pipelineStash._descSetLayouts.foldl
    (fun acc descSetLayout => vkCall (.vkDestroyDescriptorSetLayout descSetLayout.2) acc) d2

/-! ## SamplerStash.cpp -/

/-- The `VkSamplerCreateInfo` built for `info`; the numbers are the values of
`VK_BORDER_COLOR_INT_OPAQUE_BLACK` (3), `VK_COMPARE_OP_ALWAYS` (7) and
`VK_SAMPLER_MIPMAP_MODE_LINEAR` (1). -/
def samplerInfoOf (cfg : Cfg) (info : SamplerInfo) : VkSamplerCreateInfo where
  magFilter := cfg.cydFilterToVkFilter info.magFilter
  minFilter := cfg.cydFilterToVkFilter info.minFilter
  addressModeU := cfg.cydAddressModeToVkAddressMode info.addressMode
  addressModeV := cfg.cydAddressModeToVkAddressMode info.addressMode
  addressModeW := cfg.cydAddressModeToVkAddressMode info.addressMode
  anisotropyEnable := info.useAnisotropy
  maxAnisotropy := info.maxAnisotropy
  borderColor := 3
  unnormalizedCoordinates := false
  compareEnable := false
  compareOp := 7
  mipmapMode := 1

/-- `SamplerStash::findOrCreate`. -/
def SamplerStash.findOrCreate (cfg : Cfg) (info : SamplerInfo) (d : Device) :
    Option (Handle × Device) :=
  match cacheFind SamplerInfo.opEq d.samplerStash._samplers info with
  | some h => some (h, d)
  | none =>
    match vkCreate cfg (.vkCreateSampler (samplerInfoOf cfg info)) d with
    | (result, vkSampler, d1) =>
      match CYDASSERT cfg result with
      | none => none
      | some _ =>
        match cacheInsert SamplerInfo.opEq d1.samplerStash._samplers info vkSampler with
        | (h, m) => some (h, { d1 with samplerStash := ⟨m⟩ })

/-! ## DescriptorPool.cpp -/

/-- `vkAllocateDescriptorSets` for one set: a creation call whose handle, on
success, joins the sets allocated from the pool. -/
def vkAllocateDescriptorSets (cfg : Cfg) (layout : Handle) (d : Device) :
    Bool × Handle × Device :=
  match vkCreate cfg (.vkAllocateDescriptorSets layout) d with
  | (result, vkDescSet, d1) =>
    if result then (result, vkDescSet, { d1 with allocatedSets := d1.allocatedSets ++ [vkDescSet] })
    else (result, vkDescSet, d1)

/-- `DescriptorPool::findOrAllocate`. -/
def DescriptorPool.findOrAllocate (cfg : Cfg) (layout : DescriptorSetLayoutInfo)
    (d : Device) : Option (Handle × Device) :=
  match cacheFind DescriptorSetLayoutInfo.opEq d.descPool._descSets layout with
  | some h => some (h, d)
  | none =>
    match PipelineStash.findOrCreateDescSetLayout cfg layout d with
    | none => none
    | some (vkDescSetLayout, d1) =>
      match vkAllocateDescriptorSets cfg vkDescSetLayout d1 with
      | (result, vkDescSet, d2) =>
        match CYDASSERT cfg result with
        | none => none
        | some _ =>
          match cacheInsert DescriptorSetLayoutInfo.opEq d2.descPool._descSets
              layout vkDescSet with
          | (h, m) => some (h, { d2 with descPool := ⟨m⟩ })

/-- `DescriptorPool::free`. -/
def DescriptorPool.free (descSet : Handle) (d : Device) : Device :=
  let d1 := vkCall (.vkFreeDescriptorSets descSet) d
  { d1 with allocatedSets := d1.allocatedSets.erase descSet }

/-! ## Fences, as the driver keeps them -/

/-- The GPU completes the submission that `fence` guards (a step of the
environment, not of the backend). -/
def gpuCompletes (fence : Handle) (d : Device) : Device :=
  if fence ∈ d.pending then
    { d with pending := d.pending.erase fence, signaled := d.signaled ++ [fence] }
  else d

/-- `vkGetFenceStatus( ..., fence ) == VK_SUCCESS`. -/
def vkGetFenceStatus (fence : Handle) (d : Device) : Bool × Device :=
  (decide (fence ∈ d.signaled), vkCall (.vkGetFenceStatus fence) d)

/-- `vkWaitForFences` on one fence, with whether it returned `VK_SUCCESS`.  A
signalled fence returns at once; with a zero timeout the call never waits and
reports `VK_TIMEOUT` for an unsignalled fence; with `UINT64_MAX` it returns when
the GPU has completed the pending submission, and never (`none`) when there is
none. -/
def vkWaitForFences (cfg : Cfg) (fence : Handle) (timeout : Nat) (d : Device) :
    Option (Bool × Device) :=
  let d1 := vkCall (.vkWaitForFences fence timeout) d
  if fence ∈ d.signaled then some (true, d1)
  else if timeout = 0 then some (false, d1)
  else if fence ∈ d.pending then
    if timeout = UINT64_MAX || cfg.gpuDoneWithin fence timeout then
      some (true, gpuCompletes fence d1)
    else some (false, d1)
  else if timeout = UINT64_MAX then none
  else some (false, d1)

/-- `vkResetFences` on one fence. -/
def vkResetFences (fence : Handle) (d : Device) : Device :=
  let d1 := vkCall (.vkResetFences fence) d
  { d1 with signaled := d1.signaled.filter (fun f => f != fence) }

/-- `vkQueueSubmit` of one batch; the fence becomes pending. -/
def vkQueueSubmit (queue : Handle) (submitInfo : VkSubmitInfo) (fence : Handle)
    (d : Device) : Device :=
  let d1 := vkCall (.vkQueueSubmit queue submitInfo fence) d
  if fence ∈ d1.pending then d1 else { d1 with pending := d1.pending ++ [fence] }

/-! ## CommandBuffer.cpp -/

/-- What the command buffer reads of its `CommandPool`. -/
structure CommandPool where
  getVKCommandPool : Handle
  getFamilyIndex : Nat
  deriving DecidableEq, Repr

/-- What the command buffer reads of a `Buffer` (Buffer.h). -/
structure Buffer where
  getSize : Nat
  getVKBuffer : Handle
  getVKDescSet : Handle
  deriving DecidableEq, Repr

/-- What the command buffer reads and writes of a `Texture` (Texture.h is absent);
`getLayout` is the tracked layout that `setLayout` overwrites. -/
structure Texture where
  getLayout : ImageLayout
  getSize : Nat
  getWidth : Nat
  getHeight : Nat
  getVKImage : Handle
  getVKDescSet : Handle
  deriving DecidableEq, Repr

/-- The members of `vk::CommandBuffer`. -/
structure CommandBuffer where
  /-- Whether `_device` is non-null (it then points to the device of the model). -/
  _device : Bool
  /-- The pool `_pool` points to, `none` for the null pointer. -/
  _pool : Option CommandPool
  _usage : Nat
  _isRecording : Bool
  _wasSubmitted : Bool
  _boundPip : Option Handle
  _boundPipLayout : Option Handle
  _boundRenderPass : Option Handle
  _boundPipInfo : Option PipelineInfo
  _semsToWait : List Handle
  _semsToSignal : List Handle
  _vkCmdBuffer : Handle
  _vkFence : Handle
  deriving DecidableEq, Repr

/-- Modelled from the spec: the unallocated state of a command buffer
(CommandBuffer.h, with the member initialisers, is absent), taken to be the state
to which `release` "returns the buffer". -/
def CommandBuffer.unallocated : CommandBuffer where
  _device := false
  _pool := none
  _usage := 0
  _isRecording := false
  _wasSubmitted := false
  _boundPip := none
  _boundPipLayout := none
  _boundRenderPass := none
  _boundPipInfo := none
  _semsToWait := []
  _semsToSignal := []
  _vkCmdBuffer := 0
  _vkFence := 0

/-- `CommandBuffer::seize`; a failed call leaves its output member as it was. -/
def CommandBuffer.seize (cfg : Cfg) (pool : CommandPool) (usage : Nat) (cb : CommandBuffer)
    (d : Device) : Option (CommandBuffer × Device) :=
  let cb1 := { cb with _device := true, _pool := some pool, _usage := usage }
  match vkCreate cfg (.vkAllocateCommandBuffers pool.getVKCommandPool) d with
  | (result, vkCmdBuffer, d1) =>
    let cb2 := if result then { cb1 with _vkCmdBuffer := vkCmdBuffer } else cb1
    match CYDASSERT cfg result with
    | none => none
    | some _ =>
      match vkCreate cfg .vkCreateFence d1 with
      | (result, vkFence, d2) =>
        let cb3 := if result then { cb2 with _vkFence := vkFence } else cb2
        match CYDASSERT cfg result with
        | none => none
        | some _ => some (cb3, d2)

/-- `CommandBuffer::release`. -/
def CommandBuffer.release (cb : CommandBuffer) (d : Device) :
    Option (CommandBuffer × Device) :=
  if cb._device then
    match cb._pool with
    | none => none
    | some pool =>
      let d1 := vkCall (.vkDestroyFence cb._vkFence) d
      let d2 := vkCall (.vkFreeCommandBuffers pool.getVKCommandPool cb._vkCmdBuffer) d1
      some
        ({ cb with
            _usage := 0, _isRecording := false, _wasSubmitted := false,
            _semsToWait := [], _semsToSignal := [],
            _boundPip := none, _boundPipInfo := none, _boundPipLayout := none,
            _boundRenderPass := none,
            _vkCmdBuffer := 0, _vkFence := 0, _device := false, _pool := none }, d2)
  else some (cb, d)

/-- `CommandBuffer::isCompleted`. -/
def CommandBuffer.isCompleted (cb : CommandBuffer) (d : Device) : Option (Bool × Device) :=
  if cb._device then some (vkGetFenceStatus cb._vkFence d) else none

/-- `CommandBuffer::waitForCompletion`. -/
def CommandBuffer.waitForCompletion (cfg : Cfg) (cb : CommandBuffer) (d : Device) :
    Option Device :=
  if cb._device then
    match vkWaitForFences cfg cb._vkFence UINT64_MAX d with
    | none => none
    | some (_, d1) => some d1
  else none

/-- `CommandBuffer::startRecording`. -/
def CommandBuffer.startRecording (cfg : Cfg) (cb : CommandBuffer) (d : Device) :
    Option (CommandBuffer × Device) :=
  if cb._isRecording then
    match CYDASSERT cfg false with
    | none => none
    | some _ => some (cb, d)
  else
    let result := cfg.recordSucceeds d.trace.length
    let d1 := vkCall (.vkBeginCommandBuffer cb._vkCmdBuffer) d
    match CYDASSERT cfg result with
    | none => none
    | some _ => some ({ cb with _isRecording := true }, d1)

/-- `CommandBuffer::endRecording`. -/
def CommandBuffer.endRecording (cfg : Cfg) (cb : CommandBuffer) (d : Device) :
    Option (CommandBuffer × Device) :=
  if !cb._isRecording then
    match CYDASSERT cfg false with
    | none => none
    | some _ => some (cb, d)
  else
    let result := cfg.recordSucceeds d.trace.length
    let d1 := vkCall (.vkEndCommandBuffer cb._vkCmdBuffer) d
    match CYDASSERT cfg result with
    | none => none
    | some _ =>
      some
        ({ cb with
            _boundPip := none, _boundPipLayout := none, _boundRenderPass := none,
            _boundPipInfo := none, _isRecording := false }, d1)

/-- `CommandBuffer::bindPipeline`. -/
def CommandBuffer.bindPipeline (cfg : Cfg) (info : PipelineInfo) (cb : CommandBuffer)
    (d : Device) : Option (CommandBuffer × Device) :=
  if !cb._device then none
  else
    match PipelineStash.findOrCreatePipeline cfg info d with
    | none => none
    | some (pipeline, d1) =>
      match PipelineStash.findOrCreatePipLayout cfg info.pipLayout d1 with
      | none => none
      | some (pipLayout, d2) =>
        match RenderPassStash.findOrCreate cfg info.renderPass d2 with
        | none => none
        | some (renderPass, d3) =>
          if pipeline == 0 || pipLayout == 0 || renderPass == 0 then
            match CYDASSERT cfg false with
            | none => none
            | some _ => some (cb, d3)
          else
            let d4 := vkCall (.vkCmdBindPipeline cb._vkCmdBuffer pipeline) d3
            some
              ({ cb with
                  _boundPip := some pipeline, _boundPipLayout := some pipLayout,
                  _boundRenderPass := some renderPass, _boundPipInfo := some info }, d4)

/-- `CommandBuffer::bindVertexBuffer`; it assigns no member. -/
def CommandBuffer.bindVertexBuffer (vertexBuffer : Buffer) (cb : CommandBuffer)
    (d : Device) : Device :=
  vkCall (.vkCmdBindVertexBuffers cb._vkCmdBuffer vertexBuffer.getVKBuffer) d

/-- `CommandBuffer::bindIndexBuffer<uint16_t>`; it assigns no member. -/
def CommandBuffer.bindIndexBuffer16 (indexBuffer : Buffer) (cb : CommandBuffer)
    (d : Device) : Device :=
  vkCall (.vkCmdBindIndexBuffer cb._vkCmdBuffer indexBuffer.getVKBuffer 16) d

/-- `CommandBuffer::bindIndexBuffer<uint32_t>`; it assigns no member. -/
def CommandBuffer.bindIndexBuffer32 (indexBuffer : Buffer) (cb : CommandBuffer)
    (d : Device) : Device :=
  vkCall (.vkCmdBindIndexBuffer cb._vkCmdBuffer indexBuffer.getVKBuffer 32) d

/-- `CommandBuffer::bindBuffer`; it assigns no member. -/
def CommandBuffer.bindBuffer (cfg : Cfg) (buffer : Buffer) (cb : CommandBuffer)
    (d : Device) : Option Device :=
  match cb._boundPipLayout with
  | none =>
    match CYDASSERT cfg false with
    | none => none
    | some _ => some d
  | some layout =>
    some (vkCall (.vkCmdBindDescriptorSets cb._vkCmdBuffer layout buffer.getVKDescSet) d)

/-- `CommandBuffer::bindTexture`; it assigns no member of the command buffer, and
may set the layout of the texture. -/
def CommandBuffer.bindTexture (cfg : Cfg) (texture : Texture) (cb : CommandBuffer)
    (d : Device) : Option (Texture × Device) :=
  match cb._boundPipLayout with
  | none =>
    match CYDASSERT cfg false with
    | none => none
    | some _ => some (texture, d)
  | some layout =>
    let (texture1, d1) :=
      if texture.getLayout != ImageLayout.SHADER_READ then
        let barrier : VkImageMemoryBarrier :=
          { oldLayout := cfg.cydImageLayoutToVKImageLayout texture.getLayout
            newLayout := VK_IMAGE_LAYOUT_SHADER_READ_ONLY_OPTIMAL
            image := texture.getVKImage
            srcAccessMask := VK_ACCESS_TRANSFER_WRITE_BIT
            dstAccessMask := VK_ACCESS_SHADER_READ_BIT }
        ({ texture with getLayout := ImageLayout.SHADER_READ },
          vkCall (.vkCmdPipelineBarrier cb._vkCmdBuffer VK_PIPELINE_STAGE_TRANSFER_BIT
            VK_PIPELINE_STAGE_FRAGMENT_SHADER_BIT barrier) d)
      else (texture, d)
    some (texture1,
      vkCall (.vkCmdBindDescriptorSets cb._vkCmdBuffer layout texture.getVKDescSet) d1)

/-- `CommandBuffer::submit`. -/
def CommandBuffer.submit (cfg : Cfg) (cb : CommandBuffer) (d : Device) :
    Option (CommandBuffer × Device) :=
  let submitInfo : VkSubmitInfo :=
    { pCommandBuffers := [cb._vkCmdBuffer]
      pWaitSemaphores := cb._semsToWait
      pWaitDstStageMask := [VK_PIPELINE_STAGE_ALL_GRAPHICS_BIT]
      pSignalSemaphores := cb._semsToSignal }
  if !cb._device then none
  else
    match cb._pool with
    | none => none
    | some pool =>
      match cfg.getQueueFromFamily pool.getFamilyIndex with
      | none =>
        match CYDASSERT cfg false with
        | none => none
        | some _ => some (cb, d)
      | some queue =>
        let waited :=
          if cb._wasSubmitted then
            match vkWaitForFences cfg cb._vkFence 0 d with
            | none => none
            | some (_, d1) => some (vkResetFences cb._vkFence d1)
          else some d
        match waited with
        | none => none
        | some d2 =>
          let d3 := vkQueueSubmit queue submitInfo cb._vkFence d2
          some ({ cb with _wasSubmitted := true, _semsToWait := [], _semsToSignal := [] }, d3)

/-! ## Swapchain.cpp -/

/-- `MAX_FRAMES_IN_FLIGHT`. -/
def MAX_FRAMES_IN_FLIGHT : Nat := 2

/-- `cyd::QueueUsage::GRAPHICS`. -/
def QueueUsage.GRAPHICS : Nat := 1

/-- `UINT32_MAX`. -/
def UINT32_MAX : Nat := 4294967295

/-- The members of `VkSurfaceCapabilitiesKHR` that the embedded functions read;
all are `uint32_t`. -/
structure VkSurfaceCapabilitiesKHR where
  minImageCount : Nat
  maxImageCount : Nat
  currentExtent : VkExtent2D
  minImageExtent : VkExtent2D
  maxImageExtent : VkExtent2D
  deriving DecidableEq, Repr

structure VkSurfaceFormatKHR where
  format : Nat
  colorSpace : Nat
  deriving DecidableEq, Repr

/-- `chooseImageCount`. -/
def chooseImageCount (caps : VkSurfaceCapabilitiesKHR) : Nat :=
  let imageCount := caps.minImageCount
  if caps.maxImageCount > 0 ∧ imageCount > caps.maxImageCount then caps.maxImageCount
  else imageCount

/-- `std::clamp( v, lo, hi )` with the default comparison, as the library computes
it: `( v < lo ) ? lo : ( hi < v ) ? hi : v`. -/
def stdClamp (v lo hi : Nat) : Nat :=
  if v < lo then lo else if hi < v then hi else v

/-- `chooseExtent`. -/
def chooseExtent (extent : Extent) (caps : VkSurfaceCapabilitiesKHR) : VkExtent2D :=
  if caps.currentExtent.width != UINT32_MAX then caps.currentExtent
  else
    let actualExtent : VkExtent2D := ⟨extent.width, extent.height⟩
    let actualExtent1 := { actualExtent with
      width := stdClamp actualExtent.width caps.minImageExtent.width caps.maxImageExtent.width }
    { actualExtent1 with
      height :=
        stdClamp actualExtent1.height caps.minImageExtent.height caps.maxImageExtent.height }

/-- `chooseFormat`; `formats` is what the two calls of
`vkGetPhysicalDeviceSurfaceFormatsKHR` leave in the vector (nothing when the count
is 0).  Element 0 of an empty vector is undefined behaviour (`none`). -/
def chooseFormat (cfg : Cfg) (format : PixelFormat) (space : ColorSpace)
    (formats : List VkSurfaceFormatKHR) : Option VkSurfaceFormatKHR :=
  let desiredFormat : VkSurfaceFormatKHR :=
    ⟨cfg.cydFormatToVkFormat format, cfg.cydSpaceToVkSpace space⟩
  match formats.find? (fun format =>
      format.format == desiredFormat.format &&
        format.colorSpace == desiredFormat.colorSpace) with
  | some it => some it
  | none => formats[0]?

/-- `VK_PRESENT_MODE_IMMEDIATE_KHR`. -/
def VK_PRESENT_MODE_IMMEDIATE_KHR : Nat := 0

/-- `VK_PRESENT_MODE_MAILBOX_KHR`. -/
def VK_PRESENT_MODE_MAILBOX_KHR : Nat := 1

/-- `VK_PRESENT_MODE_FIFO_KHR`. -/
def VK_PRESENT_MODE_FIFO_KHR : Nat := 2

/-- `VK_PRESENT_MODE_FIFO_RELAXED_KHR`. -/
def VK_PRESENT_MODE_FIFO_RELAXED_KHR : Nat := 3

/-- `choosePresentMode`; `presentModes` is what the two calls of
`vkGetPhysicalDeviceSurfacePresentModesKHR` leave in the vector.  The four
enumerators of `cyd::PresentMode` have a case each, so the `default` of the switch
is not taken.  Element 0 of an empty vector is undefined behaviour (`none`). -/
def choosePresentMode (mode : PresentMode) (presentModes : List Nat) : Option Nat :=
  let desiredMode :=
    match mode with
    | .FIFO => VK_PRESENT_MODE_FIFO_KHR
    | .FIFO_RELAXED => VK_PRESENT_MODE_FIFO_RELAXED_KHR
    | .IMMEDIATE => VK_PRESENT_MODE_IMMEDIATE_KHR
    | .MAILBOX => VK_PRESENT_MODE_MAILBOX_KHR
  match presentModes.find? (fun presentMode => presentMode == desiredMode) with
  | some it => some it
  | none => presentModes[0]?

/-- The members of `vk::Swapchain` that the embedded functions read or write
(Swapchain.h is absent). -/
structure Swapchain where
  m_vkSwapchain : Handle
  m_imageCount : Nat
  /-- The extent `m_extent` points to; the constructor allocates it. -/
  m_extent : VkExtent2D
  m_imageViews : List Handle
  m_depthImageView : Handle
  m_frameBuffers : List Handle
  m_availableSems : List Handle
  m_renderDoneSems : List Handle
  m_currentFrame : Nat
  m_imageIndex : Nat
  m_prevRenderPass : Handle
  /-- The command buffer `m_inFlightCmdBuffer` points to, by its native handle;
  `none` for the null pointer. -/
  m_inFlightCmdBuffer : Option Handle
  deriving DecidableEq, Repr

/-- `std::vector::resize( n )` on a vector of handles: new elements are null. -/
def vectorResize (v : List Handle) (n : Nat) : List Handle :=
  (v ++ List.replicate (n - v.length) 0).take n

/-- One turn of the loop of `Swapchain::_createSyncObjects`, for index `i`: the
second semaphore is only created when the first creation succeeded; a failed call
leaves its output element as it was. -/
def Swapchain.createSyncObject (cfg : Cfg) (i : Nat) (acc : Swapchain × Device) :
    Option (Swapchain × Device) :=
  match acc with
  | (sc, d) =>
    if i < sc.m_availableSems.length ∧ i < sc.m_renderDoneSems.length then
      match vkCreate cfg .vkCreateSemaphore d with
      | (result1, sem1, d1) =>
        let sc1 := if result1 then
          { sc with m_availableSems := sc.m_availableSems.set i sem1 } else sc
        if !result1 then
          match CYDASSERT cfg false with
          | none => none
          | some _ => some (sc1, d1)
        else
          match vkCreate cfg .vkCreateSemaphore d1 with
          | (result2, sem2, d2) =>
            let sc2 := if result2 then
              { sc1 with m_renderDoneSems := sc1.m_renderDoneSems.set i sem2 } else sc1
            if !result2 then
              match CYDASSERT cfg false with
              | none => none
              | some _ => some (sc2, d2)
            else some (sc2, d2)
    else none

/-- `Swapchain::_createSyncObjects`. -/
def Swapchain._createSyncObjects (cfg : Cfg) (sc : Swapchain) (d : Device) :
    Option (Swapchain × Device) :=
  let sc1 := { sc with
    m_availableSems := vectorResize sc.m_availableSems MAX_FRAMES_IN_FLIGHT
    m_renderDoneSems := vectorResize sc.m_renderDoneSems MAX_FRAMES_IN_FLIGHT }
  (List.range MAX_FRAMES_IN_FLIGHT).foldlM
    (fun acc i => Swapchain.createSyncObject cfg i acc) (sc1, d)

/-- One turn of the loop of `Swapchain::initFramebuffers`, for index `i`; a failed
call leaves `m_frameBuffers[i]` as it was. -/
def Swapchain.createFramebuffer (cfg : Cfg) (info : RenderPassInfo) (renderPass : Handle)
    (i : Nat) (acc : Swapchain × Device) : Option (Swapchain × Device) :=
  match acc with
  | (sc, d) =>
    match sc.m_imageViews[i]? with
    | none => none
    | some imageView =>
      let hasDepth := info.attachments.any (fun attachment =>
        attachment.type == AttachmentType.DEPTH_STENCIL ||
          attachment.type == AttachmentType.DEPTH)
      let attachments := if hasDepth then [imageView, sc.m_depthImageView] else [imageView]
      let framebufferInfo : VkFramebufferCreateInfo :=
        { renderPass := renderPass
          pAttachments := attachments
          width := sc.m_extent.width
          height := sc.m_extent.height
          layers := 1 }
      if i < sc.m_frameBuffers.length then
        match vkCreate cfg (.vkCreateFramebuffer framebufferInfo) d with
        | (result, frameBuffer, d1) =>
          let sc1 := if result then
            { sc with m_frameBuffers := sc.m_frameBuffers.set i frameBuffer } else sc
          match CYDASSERT cfg result with
          | none => none
          | some _ => some (sc1, d1)
      else none

/-- `Swapchain::initFramebuffers`. -/
def Swapchain.initFramebuffers (cfg : Cfg) (info : RenderPassInfo) (renderPass : Handle)
    (sc : Swapchain) (d : Device) : Option (Swapchain × Device) :=
  if renderPass != sc.m_prevRenderPass then
    let sc1 := { sc with
      m_prevRenderPass := renderPass
      m_frameBuffers := vectorResize sc.m_frameBuffers sc.m_imageCount }
    (List.range sc.m_imageCount).foldlM
      (fun acc i => Swapchain.createFramebuffer cfg info renderPass i acc) (sc1, d)
  else some (sc, d)

/-- `Swapchain::acquireImage`; `buffer` is the native handle of the command buffer
the argument points to.  An index outside `m_availableSems` is undefined
behaviour (`none`). -/
def Swapchain.acquireImage (cfg : Cfg) (buffer : Handle) (sc : Swapchain) (d : Device) :
    Option (Swapchain × Device) :=
  match sc.m_availableSems[sc.m_currentFrame]? with
  | none => none
  | some semaphore =>
    let d1 := vkCall (.vkAcquireNextImageKHR sc.m_vkSwapchain UINT64_MAX semaphore 0) d
    let imageIndex :=
      match cfg.acquireResult d.trace.length with
      | some index => index
      | none => sc.m_imageIndex
    some ({ sc with m_imageIndex := imageIndex, m_inFlightCmdBuffer := some buffer }, d1)

/-- `Swapchain::present`.  An index outside `m_renderDoneSems` is undefined
behaviour (`none`); the wrap-around of the unsigned addition leaves the residue
modulo 2 as it is. -/
def Swapchain.present (cfg : Cfg) (sc : Swapchain) (d : Device) :
    Option (Swapchain × Device) :=
  match cfg.getQueueFromUsage QueueUsage.GRAPHICS true with
  | some presentQueue =>
    match sc.m_renderDoneSems[sc.m_currentFrame]? with
    | none => none
    | some semaphore =>
      let presentInfo : VkPresentInfoKHR :=
        { pWaitSemaphores := [semaphore]
          pSwapchains := [sc.m_vkSwapchain]
          pImageIndices := [sc.m_imageIndex] }
      let d1 := vkCall (.vkQueuePresentKHR presentQueue presentInfo) d
      some ({ sc with m_currentFrame := (sc.m_currentFrame + 1) % MAX_FRAMES_IN_FLIGHT }, d1)
  | none =>
    match CYDASSERT cfg false with
    | none => none
    | some _ => some (sc, d)

/-- `Swapchain::getCurrentFramebuffer`; an index outside `m_frameBuffers` is
undefined behaviour (`none`). -/
def Swapchain.getCurrentFramebuffer (sc : Swapchain) : Option Handle :=
  sc.m_frameBuffers[sc.m_currentFrame]?

/-- Modelled from the spec: `Swapchain::getSemToWait` (Swapchain.h is absent), "the
image-available semaphore for the current ring slot". -/
def Swapchain.getSemToWait (sc : Swapchain) : Option Handle :=
  sc.m_availableSems[sc.m_currentFrame]?

/-- Modelled from the spec: `Swapchain::getSemToSignal` (Swapchain.h is absent),
"the render-done semaphore for the current ring slot". -/
def Swapchain.getSemToSignal (sc : Swapchain) : Option Handle :=
  sc.m_renderDoneSems[sc.m_currentFrame]?

/-- Modelled from the spec: `Swapchain::getVKExtent` (Swapchain.h is absent), the
extent of the presentable images. -/
def Swapchain.getVKExtent (sc : Swapchain) : VkExtent2D :=
  sc.m_extent

/-! ## CommandBuffer.cpp, continued -/

/-- `CommandBuffer::updatePushConstants`; it assigns no member.  `data` stands for
the pointer argument. -/
def CommandBuffer.updatePushConstants (cfg : Cfg) (range : PushConstantRange) (data : Nat)
    (cb : CommandBuffer) (d : Device) : Option Device :=
  match cb._boundPipLayout with
  | none =>
    match CYDASSERT cfg false with
    | none => none
    | some _ => some d
  | some layout =>
    some (vkCall (.vkCmdPushConstants cb._vkCmdBuffer layout
      (cfg.cydShaderStagesToVkShaderStages range.stages) range.offset range.size data) d)

/-- A `cyd::Rectangle`; the two offsets are bit patterns of `float`s. -/
structure Rectangle where
  offset : Nat × Nat
  extent : Extent
  deriving DecidableEq, Repr

/-- `CommandBuffer::setViewport`; it assigns no member. -/
def CommandBuffer.setViewport (viewport : Rectangle) (cb : CommandBuffer) (d : Device) :
    Device :=
  vkCall (.vkCmdSetViewport cb._vkCmdBuffer
    ⟨viewport.offset.1, viewport.offset.2, viewport.extent.width, viewport.extent.height⟩) d

/-- `CommandBuffer::beginPass`; `this` is passed on as the native handle of the
command buffer. -/
def CommandBuffer.beginPass (cfg : Cfg) (swapchain : Swapchain) (cb : CommandBuffer)
    (d : Device) : Option (CommandBuffer × Swapchain × Device) :=
  match cb._boundPip, cb._boundRenderPass, cb._boundPipInfo with
  | some _, some boundRenderPass, some boundPipInfo =>
    match swapchain.initFramebuffers cfg boundPipInfo.renderPass boundRenderPass d with
    | none => none
    | some (sc1, d1) =>
      match sc1.acquireImage cfg cb._vkCmdBuffer d1 with
      | none => none
      | some (sc2, d2) =>
        match sc2.getSemToWait, sc2.getSemToSignal, sc2.getCurrentFramebuffer with
        | some semToWait, some semToSignal, some framebuffer =>
          let renderPassInfo : VkRenderPassBeginInfo :=
            { renderPass := boundRenderPass
              framebuffer := framebuffer
              renderAreaExtent := sc2.getVKExtent
              clearValueCount := 2 }
          let d3 := vkCall (.vkCmdBeginRenderPass cb._vkCmdBuffer renderPassInfo) d2
          some ({ cb with
              _semsToWait := cb._semsToWait ++ [semToWait],
              _semsToSignal := cb._semsToSignal ++ [semToSignal] }, sc2, d3)
        | _, _, _ => none
  | _, _, _ =>
    match CYDASSERT cfg false with
    | none => none
    | some _ => some (cb, swapchain, d)

/-- `CommandBuffer::draw`; it assigns no member. -/
def CommandBuffer.draw (cfg : Cfg) (vertexCount : Nat) (cb : CommandBuffer) (d : Device) :
    Option Device :=
  if cb._usage &&& QueueUsage.GRAPHICS != 0 then
    some (vkCall (.vkCmdDraw cb._vkCmdBuffer (vertexCount % 4294967296)) d)
  else
    match CYDASSERT cfg false with
    | none => none
    | some _ => some d

/-- `CommandBuffer::drawIndexed`; it assigns no member. -/
def CommandBuffer.drawIndexed (cfg : Cfg) (indexCount : Nat) (cb : CommandBuffer)
    (d : Device) : Option Device :=
  if cb._usage &&& QueueUsage.GRAPHICS != 0 then
    some (vkCall (.vkCmdDrawIndexed cb._vkCmdBuffer (indexCount % 4294967296)) d)
  else
    match CYDASSERT cfg false with
    | none => none
    | some _ => some d

/-- `CommandBuffer::endPass`; it assigns no member. -/
def CommandBuffer.endPass (cb : CommandBuffer) (d : Device) : Device :=
  vkCall (.vkCmdEndRenderPass cb._vkCmdBuffer) d

/-- `CommandBuffer::copyBuffer`; it assigns no member. -/
def CommandBuffer.copyBuffer (cfg : Cfg) (src dst : Buffer) (cb : CommandBuffer)
    (d : Device) : Option Device :=
  match CYDASSERT cfg (src.getSize == dst.getSize) with
  | none => none
  | some _ =>
    some (vkCall (.vkCmdCopyBuffer cb._vkCmdBuffer src.getVKBuffer dst.getVKBuffer
      dst.getSize) d)

/-- `CommandBuffer::uploadBufferToTex`; it assigns no member of the command buffer
and sets the layout of the texture. -/
def CommandBuffer.uploadBufferToTex (cfg : Cfg) (src : Buffer) (dst : Texture)
    (cb : CommandBuffer) (d : Device) : Option (Texture × Device) :=
  match CYDASSERT cfg (src.getSize == dst.getSize) with
  | none => none
  | some _ =>
    let barrier : VkImageMemoryBarrier :=
      { oldLayout := cfg.cydImageLayoutToVKImageLayout dst.getLayout
        newLayout := VK_IMAGE_LAYOUT_TRANSFER_DST_OPTIMAL
        image := dst.getVKImage
        srcAccessMask := 0
        dstAccessMask := VK_ACCESS_TRANSFER_WRITE_BIT }
    let d1 := vkCall (.vkCmdPipelineBarrier cb._vkCmdBuffer VK_PIPELINE_STAGE_TOP_OF_PIPE_BIT
      VK_PIPELINE_STAGE_TRANSFER_BIT barrier) d
    let dst1 := { dst with getLayout := ImageLayout.TRANSFER_DST }
    let d2 := vkCall (.vkCmdCopyBufferToImage cb._vkCmdBuffer src.getVKBuffer dst1.getVKImage
      VK_IMAGE_LAYOUT_TRANSFER_DST_OPTIMAL dst1.getWidth dst1.getHeight) d1
    some (dst1, d2)

/-! ## Sequences of calls -/

/-- A call of a member function of the command buffer, with its arguments, or
anything that happens elsewhere and leaves the device in a given state.  The
swapchain and the texture of a call are those the caller hands in. -/
inductive CmdOp where
  | seize (pool : CommandPool) (usage : Nat)
  | release
  | isCompleted
  | waitForCompletion
  | startRecording
  | endRecording
  | updatePushConstants (range : PushConstantRange) (data : Nat)
  | bindPipeline (info : PipelineInfo)
  | bindVertexBuffer (vertexBuffer : Buffer)
  | bindIndexBuffer16 (indexBuffer : Buffer)
  | bindIndexBuffer32 (indexBuffer : Buffer)
  | bindBuffer (buffer : Buffer)
  | bindTexture (texture : Texture)
  | setViewport (viewport : Rectangle)
  | beginPass (swapchain : Swapchain)
  | draw (vertexCount : Nat)
  | drawIndexed (indexCount : Nat)
  | endPass
  | copyBuffer (src dst : Buffer)
  | uploadBufferToTex (src : Buffer) (dst : Texture)
  | submit
  | elsewhere (d1 : Device)

/-- The effect of one call on the command buffer and the device. -/
def CommandBuffer.step (cfg : Cfg) (op : CmdOp) (cb : CommandBuffer) (d : Device) :
    Option (CommandBuffer × Device) :=
  match op with
  | .seize pool usage => cb.seize cfg pool usage d
  | .release => cb.release d
  | .isCompleted => (cb.isCompleted d).map (fun r => (cb, r.2))
  | .waitForCompletion => (cb.waitForCompletion cfg d).map (fun d1 => (cb, d1))
  | .startRecording => cb.startRecording cfg d
  | .endRecording => cb.endRecording cfg d
  | .updatePushConstants range data =>
    (cb.updatePushConstants cfg range data d).map (fun d1 => (cb, d1))
  | .bindPipeline info => cb.bindPipeline cfg info d
  | .bindVertexBuffer vertexBuffer => some (cb, cb.bindVertexBuffer vertexBuffer d)
  | .bindIndexBuffer16 indexBuffer => some (cb, cb.bindIndexBuffer16 indexBuffer d)
  | .bindIndexBuffer32 indexBuffer => some (cb, cb.bindIndexBuffer32 indexBuffer d)
  | .bindBuffer buffer => (cb.bindBuffer cfg buffer d).map (fun d1 => (cb, d1))
  | .bindTexture texture => (cb.bindTexture cfg texture d).map (fun r => (cb, r.2))
  | .setViewport viewport => some (cb, cb.setViewport viewport d)
  | .beginPass swapchain => (cb.beginPass cfg swapchain d).map (fun r => (r.1, r.2.2))
  | .draw vertexCount => (cb.draw cfg vertexCount d).map (fun d1 => (cb, d1))
  | .drawIndexed indexCount => (cb.drawIndexed cfg indexCount d).map (fun d1 => (cb, d1))
  | .endPass => some (cb, cb.endPass d)
  | .copyBuffer src dst => (cb.copyBuffer cfg src dst d).map (fun d1 => (cb, d1))
  | .uploadBufferToTex src dst =>
    (cb.uploadBufferToTex cfg src dst d).map (fun r => (cb, r.2))
  | .submit => cb.submit cfg d
  | .elsewhere d1 => some (cb, d1)

/-- The effect of a sequence of calls, first call first. -/
def CommandBuffer.run (cfg : Cfg) : List CmdOp → CommandBuffer → Device →
    Option (CommandBuffer × Device)
  | [], cb, d => some (cb, d)
  | op :: ops, cb, d =>
    match cb.step cfg op d with
    | none => none
    | some (cb1, d1) => CommandBuffer.run cfg ops cb1 d1

/-- Whether the call is `bindPipeline`, `endRecording` or `release`. -/
def CmdOp.rebinds : CmdOp → Bool
  | .bindPipeline _ => true
  | .endRecording => true
  | .release => true
  | _ => false

/-- Whether the call is `beginPass`, `submit` or `release`. -/
def CmdOp.touchesSems : CmdOp → Bool
  | .beginPass _ => true
  | .submit => true
  | .release => true
  | _ => false

/-- The semaphores that a `beginPass` on the given swapchain appends: the
image-available and the render-done semaphore of the current ring slot; nothing
for any other call. -/
def CmdOp.semPair : CmdOp → Option (Handle × Handle)
  | .beginPass swapchain =>
    some (swapchain.m_availableSems.getD swapchain.m_currentFrame 0,
      swapchain.m_renderDoneSems.getD swapchain.m_currentFrame 0)
  | _ => none

/-- Whether a pipeline is bound, as `beginPass` tests it. -/
def CommandBuffer.pipelineBound (cb : CommandBuffer) : Bool :=
  cb._boundPip.isSome && cb._boundRenderPass.isSome && cb._boundPipInfo.isSome

/-- Whether the call is `submit` or `release`, the two that empty the semaphore
lists. -/
def CmdOp.clearsSems : CmdOp → Bool
  | .submit => true
  | .release => true
  | _ => false

/-- The semaphore pairs of the successful `beginPass` calls of a sequence of
calls, in call order: a `beginPass` counts when it is called with a pipeline
bound and returns. -/
def CommandBuffer.passes (cfg : Cfg) : List CmdOp → CommandBuffer → Device →
    List (Handle × Handle)
  | [], _, _ => []
  | op :: ops, cb, d =>
    match cb.step cfg op d with
    | none => []
    | some (cb1, d1) =>
      (if cb.pipelineBound then op.semPair.toList else []) ++
        CommandBuffer.passes cfg ops cb1 d1

/-- A call that records barriers on a texture, with the command buffer it is
called on. -/
inductive TexOp where
  | bindTexture (cb : CommandBuffer)
  | uploadBufferToTex (src : Buffer) (cb : CommandBuffer)

/-- The effect of one such call on the texture and the device. -/
def TexOp.step (cfg : Cfg) (op : TexOp) (texture : Texture) (d : Device) :
    Option (Texture × Device) :=
  match op with
  | .bindTexture cb => cb.bindTexture cfg texture d
  | .uploadBufferToTex src cb => cb.uploadBufferToTex cfg src texture d

/-- The effect of a sequence of such calls on one texture, first call first. -/
def TexOp.run (cfg : Cfg) : List TexOp → Texture → Device → Option (Texture × Device)
  | [], texture, d => some (texture, d)
  | op :: ops, texture, d =>
    match op.step cfg texture d with
    | none => none
    | some (texture1, d1) => TexOp.run cfg ops texture1 d1

/-- The image barriers recorded in a trace, in order. -/
def barriersIn (trace : List VkCall) : List VkImageMemoryBarrier :=
  trace.filterMap (fun c =>
    match c with
    | .vkCmdPipelineBarrier _ _ _ barrier => some barrier
    | _ => none)

/-- Follows a list of barriers from the layout `start`: the new layout of the last
barrier (`start` when there is none) if the old layout of every barrier is the
new layout of the barrier before it, the first one starting from `start`;
`none` otherwise. -/
def chainEnd (start : Nat) : List VkImageMemoryBarrier → Option Nat
  | [] => some start
  | barrier :: rest =>
    if barrier.oldLayout = start then chainEnd barrier.newLayout rest else none

/-- The swapchain as its constructor leaves it: `_createSyncObjects` is the last
step, and the frame index still has the initial value of its member initialiser
(Swapchain.h is absent), taken to be 0. -/
def Swapchain.Constructed (cfg : Cfg) (sc : Swapchain) : Prop :=
  ∃ sc0 d0 d, sc0.m_currentFrame = 0 ∧ Swapchain._createSyncObjects cfg sc0 d0 = some (sc, d)

/-- The swapchain states reached from `base` by `initFramebuffers`, `acquireImage`
and `present` calls that return, on any device. -/
inductive Swapchain.ReachableFrom (cfg : Cfg) (base : Swapchain) : Swapchain → Prop where
  | base : Swapchain.ReachableFrom cfg base base
  | initFramebuffers {sc sc1 : Swapchain} {d d1 : Device} (info : RenderPassInfo)
      (renderPass : Handle) :
      Swapchain.ReachableFrom cfg base sc →
      sc.initFramebuffers cfg info renderPass d = some (sc1, d1) →
      Swapchain.ReachableFrom cfg base sc1
  | acquireImage {sc sc1 : Swapchain} {d d1 : Device} (buffer : Handle) :
      Swapchain.ReachableFrom cfg base sc →
      sc.acquireImage cfg buffer d = some (sc1, d1) →
      Swapchain.ReachableFrom cfg base sc1
  | present {sc sc1 : Swapchain} {d d1 : Device} :
      Swapchain.ReachableFrom cfg base sc →
      sc.present cfg d = some (sc1, d1) →
      Swapchain.ReachableFrom cfg base sc1

def VkCall.isPipelineBarrier : VkCall → Bool
  | .vkCmdPipelineBarrier _ _ _ _ => true
  | _ => false

/-- A swapchain for examples, as constructed on the freshly built device: three
images, semaphores 1 to 4. -/
def demoSwapchain : Swapchain where
  m_vkSwapchain := 60
  m_imageCount := 3
  m_extent := ⟨1280, 720⟩
  m_imageViews := [61, 62, 63]
  m_depthImageView := 64
  m_frameBuffers := []
  m_availableSems := [1, 3]
  m_renderDoneSems := [2, 4]
  m_currentFrame := 0
  m_imageIndex := 0
  m_prevRenderPass := 0
  m_inFlightCmdBuffer := none

/-! ## Reachable device states -/

/-- The device states reached from the freshly built device by find-or-create calls
that return and by any other activity (command buffers, fences, further creation
calls) that leaves the caches as they are. -/
inductive Reachable (cfg : Cfg) : Device → Prop where
  | init : Reachable cfg Device.init
  | descSetLayout {d d1 : Device} {h : Handle} (info : DescriptorSetLayoutInfo) :
      Reachable cfg d → PipelineStash.findOrCreateDescSetLayout cfg info d = some (h, d1) →
      Reachable cfg d1
  | pipLayout {d d1 : Device} {h : Handle} (info : PipelineLayoutInfo) :
      Reachable cfg d → PipelineStash.findOrCreatePipLayout cfg info d = some (h, d1) →
      Reachable cfg d1
  | pipeline {d d1 : Device} {h : Handle} (info : PipelineInfo) :
      Reachable cfg d → PipelineStash.findOrCreatePipeline cfg info d = some (h, d1) →
      Reachable cfg d1
  | renderPass {d d1 : Device} {h : Handle} (info : RenderPassInfo) :
      Reachable cfg d → RenderPassStash.findOrCreate cfg info d = some (h, d1) →
      Reachable cfg d1
  | sampler {d d1 : Device} {h : Handle} (info : SamplerInfo) :
      Reachable cfg d → SamplerStash.findOrCreate cfg info d = some (h, d1) →
      Reachable cfg d1
  | descSet {d d1 : Device} {h : Handle} (layout : DescriptorSetLayoutInfo) :
      Reachable cfg d → DescriptorPool.findOrAllocate cfg layout d = some (h, d1) →
      Reachable cfg d1
  | other {d d1 : Device} :
      Reachable cfg d → d.issued ≤ d1.issued → d1.pipelineStash = d.pipelineStash →
      d1.renderPassStash = d.renderPassStash → d1.samplerStash = d.samplerStash →
      d1.descPool = d.descPool → Reachable cfg d1

/-- The number of calls in a trace that satisfy `p`. -/
def countCalls (p : VkCall → Bool) (trace : List VkCall) : Nat :=
  trace.countP p

def VkCall.isCreateDescriptorSetLayout : VkCall → Bool
  | .vkCreateDescriptorSetLayout _ => true
  | _ => false

def VkCall.isCreatePipelineLayout : VkCall → Bool
  | .vkCreatePipelineLayout _ => true
  | _ => false

def VkCall.isCreateGraphicsPipelines : VkCall → Bool
  | .vkCreateGraphicsPipelines _ => true
  | _ => false

def VkCall.isCreateRenderPass : VkCall → Bool
  | .vkCreateRenderPass _ => true
  | _ => false

def VkCall.isCreateSampler : VkCall → Bool
  | .vkCreateSampler _ => true
  | _ => false

def VkCall.isAllocateDescriptorSets : VkCall → Bool
  | .vkAllocateDescriptorSets _ => true
  | _ => false

/-- The handle that creation call `n` leaves in its output variable. -/
def createdHandle (cfg : Cfg) (n : Nat) : Handle :=
  if cfg.succeeds n then n + 1 else cfg.garbage n

/-- No assertion on a creation result is fatal: assertions are compiled out, or
every creation call succeeds. -/
def NoAbort (cfg : Cfg) : Prop :=
  cfg.debug = false ∨ ∀ n, cfg.succeeds n = true

/-- The handles of a cache are pairwise distinct and were all issued among the
first `n` creation calls. -/
def HandlesFresh {K : Type} (n : Nat) (m : Cache K) : Prop :=
  (m.map Prod.snd).Nodup ∧ ∀ e ∈ m, e.2 ≤ n

/-- Every cache of the device holds pairwise distinct handles issued so far. -/
structure Inv (d : Device) : Prop where
  pipelines : HandlesFresh d.issued d.pipelineStash._pipelines
  pipLayouts : HandlesFresh d.issued d.pipelineStash._pipLayouts
  descSetLayouts : HandlesFresh d.issued d.pipelineStash._descSetLayouts
  renderPasses : HandlesFresh d.issued d.renderPassStash._renderPasses
  samplers : HandlesFresh d.issued d.samplerStash._samplers
  descSets : HandlesFresh d.issued d.descPool._descSets

/-- How a find-or-create for key `k` on the cache `sel` took the device from `d` to
`d1` with result `h`: a hit on an entry with an equal key and no change, or a
handle issued after `d` and stored under `k`. -/
def Post {K : Type} (eq : K → K → Bool) (sel : Device → Cache K) (k : K) (d : Device)
    (h : Handle) (d1 : Device) : Prop :=
  (d1 = d ∧ ∃ k', (k', h) ∈ sel d ∧ eq k' k = true) ∨ (d.issued < h ∧ (k, h) ∈ sel d1)

/-- The device after a miss on the descriptor-set-layout cache. -/
def afterDescSetLayout (cfg : Cfg) (info : DescriptorSetLayoutInfo) (d : Device) : Device :=
  { d with
    issued := d.issued + 1
    trace := d.trace ++ [.vkCreateDescriptorSetLayout
      ⟨info.shaderObjects.map (descSetLayoutBindingOf cfg)⟩]
    pipelineStash := { d.pipelineStash with
      _descSetLayouts := d.pipelineStash._descSetLayouts ++
        [(info, createdHandle cfg d.issued)] } }

/-- The device after a miss on the pipeline-layout cache, from the device `d1` in
which the descriptor-set layout was resolved to `descSetLayout`. -/
def afterPipLayout (cfg : Cfg) (info : PipelineLayoutInfo) (descSetLayout : Handle)
    (d1 : Device) : Device :=
  { d1 with
    issued := d1.issued + 1
    trace := d1.trace ++ [.vkCreatePipelineLayout
      ⟨List.replicate info.descSetLayout.shaderObjects.length descSetLayout,
        info.ranges.map (vkRangeOf cfg)⟩]
    pipelineStash := { d1.pipelineStash with
      _pipLayouts := d1.pipelineStash._pipLayouts ++ [(info, createdHandle cfg d1.issued)] } }

/-- The device after a miss on the render-pass cache. -/
def afterRenderPass (cfg : Cfg) (info : RenderPassInfo) (d : Device) : Device :=
  { d with
    issued := d.issued + 1
    trace := d.trace ++ [.vkCreateRenderPass info]
    renderPassStash := ⟨d.renderPassStash._renderPasses ++ [(info, createdHandle cfg d.issued)]⟩ }

/-- The device after a miss on the pipeline cache, from the device `d2` in which
the render pass and the pipeline layout were resolved. -/
def afterPipeline (cfg : Cfg) (info : PipelineInfo) (renderPass pipLayout : Handle)
    (d2 : Device) : Device :=
  { d2 with
    issued := d2.issued + 1
    trace := d2.trace ++ [.vkCreateGraphicsPipelines (pipelineInfoOf cfg info renderPass pipLayout)]
    pipelineStash := { d2.pipelineStash with
      _pipelines := d2.pipelineStash._pipelines ++ [(info, createdHandle cfg d2.issued)] } }

/-- The device after a miss on the sampler cache. -/
def afterSampler (cfg : Cfg) (info : SamplerInfo) (d : Device) : Device :=
  { d with
    issued := d.issued + 1
    trace := d.trace ++ [.vkCreateSampler (samplerInfoOf cfg info)]
    samplerStash := ⟨d.samplerStash._samplers ++ [(info, createdHandle cfg d.issued)]⟩ }

/-- The device after a miss on the descriptor-set cache, from the device `d1` in
which the descriptor-set layout was resolved to `vkDescSetLayout`. -/
def afterDescSet (cfg : Cfg) (layout : DescriptorSetLayoutInfo) (vkDescSetLayout : Handle)
    (d1 : Device) : Device :=
  { d1 with
    issued := d1.issued + 1
    trace := d1.trace ++ [.vkAllocateDescriptorSets vkDescSetLayout]
    allocatedSets :=
      if cfg.succeeds d1.issued then d1.allocatedSets ++ [createdHandle cfg d1.issued]
      else d1.allocatedSets
    descPool := ⟨d1.descPool._descSets ++ [(layout, createdHandle cfg d1.issued)]⟩ }

/-- A configuration for examples: a release build, a driver that always succeeds,
conversion tables, one queue per family. -/
def demoCfg : Cfg where
  debug := false
  succeeds := fun _ => true
  garbage := fun _ => 0
  getShader := fun name => ⟨if name = "default_vert.spv" then .VERTEX else .FRAGMENT, name.length⟩
  cydShaderStagesToVkShaderStages := fun n => n
  cydDrawPrimToVkDrawPrim := DrawPrimitive.toNat
  cydPolyModeToVkPolyMode := PolygonMode.toNat
  cydFilterToVkFilter := Filter.toNat
  cydAddressModeToVkAddressMode := AddressMode.toNat
  cydImageLayoutToVKImageLayout := fun layout =>
    match layout with
    | .UNDEFINED => 0
    | .GENERAL => 1
    | .COLOR => 2
    | .DEPTH_STENCIL => 3
    | .SHADER_READ => 5
    | .TRANSFER_SRC => 6
    | .TRANSFER_DST => 7
    | .PRESENTATION => 1000001002
  getQueueFromFamily := fun family => some (100 + family)
  recordSucceeds := fun _ => true
  gpuDoneWithin := fun _ _ => false
  getQueueFromUsage := fun _ _ => some 100
  acquireResult := fun n => some (n % 2)
  cydFormatToVkFormat := fun format =>
    match format with
    | .BGRA8_UNORM => 44
    | .D32_SFLOAT => 126
  cydSpaceToVkSpace := fun _ => 0

/-- A pipeline description for examples: the two default shaders, one colour
attachment, one push-constant range and one uniform buffer. -/
def demoInfo : PipelineInfo where
  shaders := ["default_vert.spv", "default_frag.spv"]
  renderPass := ⟨[⟨.BGRA8_UNORM, .CLEAR, .STORE, .COLOR, .PRESENTATION⟩]⟩
  pipLayout := ⟨[⟨1, 0, 64⟩], ⟨[⟨.UNIFORM, 1, 0⟩]⟩⟩
  drawPrim := .TRIANGLES
  polyMode := .FILL
  extent := ⟨1280, 720⟩

/-- The device after the example pipeline was looked up on the freshly built
device: render pass 1, descriptor-set layout 2, pipeline layout 3, pipeline 4. -/
def demoDevice : Device :=
  afterPipeline demoCfg demoInfo 1 3
    (afterPipLayout demoCfg demoInfo.pipLayout 2
      (afterDescSetLayout demoCfg demoInfo.pipLayout.descSetLayout
        (afterRenderPass demoCfg demoInfo.renderPass Device.init)))

/-- A command pool for examples, of queue family 0. -/
def demoPool : CommandPool := ⟨50, 0⟩

/-- A vertex buffer for examples. -/
def demoBuffer : Buffer := ⟨256, 70, 71⟩

/-- A graphics command buffer seized on the freshly built device, on which
nothing else was called. -/
def seizedOnce : Option (CommandBuffer × Device) :=
  CommandBuffer.seize demoCfg demoPool 1 CommandBuffer.unallocated Device.init

/-- The command buffer that `seizedOnce` yields. -/
def seizedBuffer : CommandBuffer :=
  { CommandBuffer.unallocated with
    _device := true, _pool := some demoPool, _usage := 1, _vkCmdBuffer := 1, _vkFence := 2 }

/-- The device that `seizedOnce` yields. -/
def seizedDevice : Device :=
  { Device.init with issued := 2, trace := [.vkAllocateCommandBuffers 50, .vkCreateFence] }

/-- A texture for examples, last written by a transfer. -/
def demoTexture : Texture := ⟨.TRANSFER_DST, 1024, 16, 16, 80, 81⟩

/-- The command buffer and the device after seize, startRecording, endRecording
and a first submit, with no step of the GPU. -/
def submittedOnce : Option (CommandBuffer × Device) :=
  match seizedOnce with
  | none => none
  | some (cb, d) =>
    match CommandBuffer.startRecording demoCfg cb d with
    | none => none
    | some (cb1, d1) =>
      match CommandBuffer.endRecording demoCfg cb1 d1 with
      | none => none
      | some (cb2, d2) => CommandBuffer.submit demoCfg cb2 d2

def VkCall.isQueueSubmit : VkCall → Bool
  | .vkQueueSubmit _ _ _ => true
  | _ => false

/-- A release build whose driver fails every creation call and leaves `57005` in
the output variable. -/
def failCfg : Cfg :=
  { demoCfg with succeeds := fun _ => false, garbage := fun _ => 57005 }

/-- A debug build whose driver fails every creation call. -/
def failDebugCfg : Cfg :=
  { failCfg with debug := true }

def VkCall.isDestroyPipeline : VkCall → Bool
  | .vkDestroyPipeline _ => true
  | _ => false

def VkCall.isDestroyPipelineLayout : VkCall → Bool
  | .vkDestroyPipelineLayout _ => true
  | _ => false

def VkCall.isDestroyDescriptorSetLayout : VkCall → Bool
  | .vkDestroyDescriptorSetLayout _ => true
  | _ => false

/-- The calls the destructor of the PipelineStash issues, in order. -/
def destroyCalls (d : Device) : List VkCall :=
  d.pipelineStash._pipelines.map (fun e => VkCall.vkDestroyPipeline e.2) ++
    d.pipelineStash._pipLayouts.map (fun e => VkCall.vkDestroyPipelineLayout e.2) ++
    d.pipelineStash._descSetLayouts.map (fun e => VkCall.vkDestroyDescriptorSetLayout e.2)

/-- Every cached pipeline layout has its descriptor-set layout cached. -/
def LayoutsClosed (d : Device) : Prop :=
  ∀ e ∈ d.pipelineStash._pipLayouts,
    (cacheFind DescriptorSetLayoutInfo.opEq d.pipelineStash._descSetLayouts
      e.1.descSetLayout).isSome = true

/-! # Theorems -/

/-! ## Equality and hashing of descriptor values -/

theorem vectorEq_iff {α : Type} (eq : α → α → Bool) (h : ∀ a b, eq a b = true ↔ a = b) :
    ∀ as bs : List α, vectorEq eq as bs = true ↔ as = bs := by
  intro as
  induction as with
  | nil => intro bs; cases bs <;> simp [vectorEq]
  | cons a as ih => intro bs; cases bs <;> simp [vectorEq, h, ih]

theorem opEq_iff_Extent (a b : Extent) : a.opEq b = true ↔ a = b := by
  cases a; cases b; simp [Extent.opEq]

theorem opEq_iff_ShaderObjectInfo (a b : ShaderObjectInfo) : a.opEq b = true ↔ a = b := by
  cases a; cases b; simp [ShaderObjectInfo.opEq, and_assoc]

theorem opEq_iff_Attachment (a b : Attachment) : a.opEq b = true ↔ a = b := by
  cases a; cases b; simp [Attachment.opEq, and_assoc]

theorem opEq_iff_PushConstantRange (a b : PushConstantRange) : a.opEq b = true ↔ a = b := by
  cases a; cases b; simp [PushConstantRange.opEq, and_assoc]

theorem opEq_iff_RenderPassInfo (a b : RenderPassInfo) : a.opEq b = true ↔ a = b := by
  cases a; cases b
  simp [RenderPassInfo.opEq, vectorEq_iff _ opEq_iff_Attachment]

theorem opEq_iff_DescriptorSetLayoutInfo (a b : DescriptorSetLayoutInfo) :
    a.opEq b = true ↔ a = b := by
  cases a; cases b
  simp [DescriptorSetLayoutInfo.opEq, vectorEq_iff _ opEq_iff_ShaderObjectInfo]

theorem opEq_iff_PipelineLayoutInfo (a b : PipelineLayoutInfo) : a.opEq b = true ↔ a = b := by
  cases a; cases b
  simp [PipelineLayoutInfo.opEq, vectorEq_iff _ opEq_iff_PushConstantRange,
    opEq_iff_DescriptorSetLayoutInfo]

theorem opEq_iff_PipelineInfo (a b : PipelineInfo) : a.opEq b = true ↔ a = b := by
  cases a; cases b
  have hs : ∀ x y : String, ((fun (x y : String) => x == y) x y = true) ↔ x = y := by
    intro x y; simp
  simp [PipelineInfo.opEq, vectorEq_iff _ hs, opEq_iff_RenderPassInfo,
    opEq_iff_PipelineLayoutInfo, opEq_iff_Extent, and_assoc]

theorem f32Eq_symm (a b : Nat) (h : f32Eq a b = true) : f32Eq b a = true := by
  simp only [f32Eq, Bool.and_eq_true, Bool.or_eq_true, Bool.not_eq_true', beq_iff_eq] at h ⊢
  obtain ⟨⟨h1, h2⟩, h3⟩ := h
  refine ⟨⟨h2, h1⟩, ?_⟩
  rcases h3 with h3 | ⟨h3, h4⟩
  · exact Or.inl h3.symm
  · exact Or.inr ⟨h4, h3⟩

theorem f32Eq_trans (a b c : Nat) (hab : f32Eq a b = true) (hbc : f32Eq b c = true) :
    f32Eq a c = true := by
  simp only [f32Eq, f32IsZero, Bool.and_eq_true, Bool.or_eq_true, Bool.not_eq_true',
    beq_iff_eq] at hab hbc ⊢
  obtain ⟨⟨h1, _⟩, h3⟩ := hab
  obtain ⟨⟨_, h5⟩, h6⟩ := hbc
  refine ⟨⟨h1, h5⟩, ?_⟩
  rcases h3 with h3 | ⟨h3, h4⟩ <;> rcases h6 with h6 | ⟨h6, h7⟩
  · exact Or.inl (h3.trans h6)
  · right; constructor <;> omega
  · right; constructor <;> omega
  · right; exact ⟨h3, h7⟩

theorem SamplerInfo.opEq_symm (a b : SamplerInfo) (h : a.opEq b = true) : b.opEq a = true := by
  simp only [SamplerInfo.opEq, Bool.and_eq_true, beq_iff_eq] at h ⊢
  obtain ⟨⟨⟨⟨h1, h2⟩, h3⟩, h4⟩, h5⟩ := h
  exact ⟨⟨⟨⟨h1.symm, f32Eq_symm _ _ h2⟩, h3.symm⟩, h4.symm⟩, h5.symm⟩

theorem SamplerInfo.opEq_trans (a b c : SamplerInfo) (hab : a.opEq b = true)
    (hbc : b.opEq c = true) : a.opEq c = true := by
  simp only [SamplerInfo.opEq, Bool.and_eq_true, beq_iff_eq] at hab hbc ⊢
  obtain ⟨⟨⟨⟨h1, h2⟩, h3⟩, h4⟩, h5⟩ := hab
  obtain ⟨⟨⟨⟨g1, g2⟩, g3⟩, g4⟩, g5⟩ := hbc
  exact ⟨⟨⟨⟨h1.trans g1, f32Eq_trans _ _ _ h2 g2⟩, h3.trans g3⟩, h4.trans g4⟩, h5.trans g5⟩

theorem StdHash.float_congr (H : StdHash) (a b : Nat) (h : f32Eq a b = true) :
    H.float a = H.float b := by
  simp only [f32Eq, Bool.and_eq_true, Bool.or_eq_true, Bool.not_eq_true', beq_iff_eq] at h
  obtain ⟨_, h3⟩ := h
  rcases h3 with h3 | ⟨h3, h4⟩
  · have hz : f32IsZero a = f32IsZero b := by
      simp only [f32IsZero]
      have : a % 2147483648 = b % 2147483648 := by omega
      rw [this]
    simp [StdHash.float, hz, h3]
  · simp [StdHash.float, h3, h4]

theorem hashSamplerInfo_congr (H : StdHash) (a b : SamplerInfo) (h : a.opEq b = true) :
    hashSamplerInfo H a = hashSamplerInfo H b := by
  simp only [SamplerInfo.opEq, Bool.and_eq_true, beq_iff_eq] at h
  obtain ⟨⟨⟨⟨h1, h2⟩, h3⟩, h4⟩, h5⟩ := h
  simp [hashSamplerInfo, h1, h3, h4, h5, H.float_congr _ _ h2]

/-- C3: for each of the nine descriptor value types with a `std::hash`
specialisation, two values that are equal field by field and element by element
(the structural `operator==`) have equal hashes, whatever the standard hashes and
`hash_combine` are. -/
theorem equal_values_hash_equal (H : StdHash) :
    (∀ a b : Extent, a.opEq b = true → hashExtent H a = hashExtent H b) ∧
    (∀ a b : Attachment, a.opEq b = true → hashAttachment H a = hashAttachment H b) ∧
    (∀ a b : ShaderObjectInfo, a.opEq b = true →
      hashShaderObjectInfo H a = hashShaderObjectInfo H b) ∧
    (∀ a b : PushConstantRange, a.opEq b = true →
      hashPushConstantRange H a = hashPushConstantRange H b) ∧
    (∀ a b : RenderPassInfo, a.opEq b = true →
      hashRenderPassInfo H a = hashRenderPassInfo H b) ∧
    (∀ a b : DescriptorSetLayoutInfo, a.opEq b = true →
      hashDescriptorSetLayoutInfo H a = hashDescriptorSetLayoutInfo H b) ∧
    (∀ a b : PipelineLayoutInfo, a.opEq b = true →
      hashPipelineLayoutInfo H a = hashPipelineLayoutInfo H b) ∧
    (∀ a b : PipelineInfo, a.opEq b = true → hashPipelineInfo H a = hashPipelineInfo H b) ∧
    (∀ a b : SamplerInfo, a.opEq b = true → hashSamplerInfo H a = hashSamplerInfo H b) := by
  refine ⟨?_, ?_, ?_, ?_, ?_, ?_, ?_, ?_, ?_⟩
  · intro a b h; rw [(opEq_iff_Extent a b).mp h]
  · intro a b h; rw [(opEq_iff_Attachment a b).mp h]
  · intro a b h; rw [(opEq_iff_ShaderObjectInfo a b).mp h]
  · intro a b h; rw [(opEq_iff_PushConstantRange a b).mp h]
  · intro a b h; rw [(opEq_iff_RenderPassInfo a b).mp h]
  · intro a b h; rw [(opEq_iff_DescriptorSetLayoutInfo a b).mp h]
  · intro a b h; rw [(opEq_iff_PipelineLayoutInfo a b).mp h]
  · intro a b h; rw [(opEq_iff_PipelineInfo a b).mp h]
  · intro a b h; exact hashSamplerInfo_congr H a b h

/-- Witness for C3: a sampler description with `maxAnisotropy = +0.0f` and one with
`-0.0f` compare equal and hash alike, although their bit patterns differ. -/
theorem equal_values_hash_equal_witness :
    SamplerInfo.opEq { maxAnisotropy := 0 } { maxAnisotropy := 2147483648 } = true ∧
    hashSamplerInfo boostHash { maxAnisotropy := 0 } =
      hashSamplerInfo boostHash { maxAnisotropy := 2147483648 } :=
  ⟨by decide, (equal_values_hash_equal boostHash).2.2.2.2.2.2.2.2 _ _ (by decide)⟩

/-! ## The caches -/

theorem cacheFind_some_mem {K : Type} (eq : K → K → Bool) (m : Cache K) (k : K) (h : Handle)
    (hf : cacheFind eq m k = some h) : ∃ k', (k', h) ∈ m ∧ eq k' k = true := by
  unfold cacheFind at hf
  cases hfe : m.find? (fun e => eq e.1 k) with
  | none => simp [hfe] at hf
  | some e =>
    simp [hfe] at hf
    refine ⟨e.1, ?_, ?_⟩
    · have := List.mem_of_find?_eq_some hfe
      rw [← hf]; exact this
    · simpa using List.find?_some hfe

theorem cacheFind_none {K : Type} (eq : K → K → Bool) (m : Cache K) (k : K)
    (hf : cacheFind eq m k = none) : ∀ e ∈ m, eq e.1 k = false := by
  unfold cacheFind at hf
  simp only [Option.map_eq_none'] at hf
  intro e he
  have := List.find?_eq_none.mp hf e he
  simpa using this

theorem cacheFind_append_of_some {K : Type} (eq : K → K → Bool) (m m' : Cache K) (k : K)
    (h : Handle) (hf : cacheFind eq m k = some h) : cacheFind eq (m ++ m') k = some h := by
  unfold cacheFind at hf ⊢
  cases hfe : m.find? (fun e => eq e.1 k) with
  | none => simp [hfe] at hf
  | some e => simp [hfe] at hf; simp [List.find?_append, hfe, hf]

theorem cacheFind_append_of_none {K : Type} (eq : K → K → Bool) (m m' : Cache K) (k : K)
    (hf : cacheFind eq m k = none) : cacheFind eq (m ++ m') k = cacheFind eq m' k := by
  unfold cacheFind at hf ⊢
  simp only [Option.map_eq_none'] at hf
  simp [List.find?_append, hf]

theorem cacheFind_singleton {K : Type} (eq : K → K → Bool) (k k' : K) (v : Handle)
    (h : eq k k' = true) : cacheFind eq [(k, v)] k' = some v := by
  simp [cacheFind, List.find?, h]

/-- After a miss for `k`, the entry appended for `k` is what a search for an equal
key `k'` finds, for any `operator==` that is symmetric and transitive. -/
theorem cacheFind_after_insert {K : Type} (eq : K → K → Bool)
    (hsymm : ∀ a b, eq a b = true → eq b a = true)
    (htrans : ∀ a b c, eq a b = true → eq b c = true → eq a c = true)
    (m : Cache K) (k k' : K) (v : Handle)
    (hf : cacheFind eq m k = none) (h : eq k k' = true) :
    cacheFind eq (m ++ [(k, v)]) k' = some v := by
  have hnone : cacheFind eq m k' = none := by
    cases hk : cacheFind eq m k' with
    | none => rfl
    | some w =>
      obtain ⟨k'', hmem, hk''⟩ := cacheFind_some_mem eq m k' w hk
      have h1 := cacheFind_none eq m k hf (k'', w) hmem
      have h2 := htrans k'' k' k hk'' (hsymm _ _ h)
      simp at h1; rw [h1] at h2; cases h2
  rw [cacheFind_append_of_none eq m _ k' hnone]
  exact cacheFind_singleton eq k k' v h

theorem cacheInsert_of_none {K : Type} (eq : K → K → Bool) (m : Cache K) (k : K) (v : Handle)
    (hf : cacheFind eq m k = none) : cacheInsert eq m k v = (v, m ++ [(k, v)]) := by
  simp [cacheInsert, hf]

theorem CYDASSERT_ok (cfg : Cfg) (c : Bool) (h : cfg.debug = false ∨ c = true) :
    CYDASSERT cfg c = some () := by
  rcases h with h | h <;> simp [CYDASSERT, h]

theorem vkCreate_eq (cfg : Cfg) (call : VkCall) (d : Device) :
    vkCreate cfg call d =
      (cfg.succeeds d.issued, createdHandle cfg d.issued,
        { d with issued := d.issued + 1, trace := d.trace ++ [call] }) := by
  unfold vkCreate createdHandle
  cases hs : cfg.succeeds d.issued <;> simp

theorem NoAbort.at {cfg : Cfg} (h : NoAbort cfg) (n : Nat) :
    cfg.debug = false ∨ cfg.succeeds n = true := by
  rcases h with h | h
  · exact Or.inl h
  · exact Or.inr (h n)

theorem countCalls_append_none (p : VkCall → Bool) (t ext : List VkCall)
    (h : ∀ c ∈ ext, p c = false) : countCalls p (t ++ ext) = countCalls p t := by
  unfold countCalls
  rw [List.countP_append]
  have : List.countP p ext = 0 := by
    rw [List.countP_eq_zero]
    intro c hc; simp [h c hc]
  omega

theorem countCalls_append_one (p : VkCall → Bool) (t : List VkCall) (c : VkCall)
    (h : p c = true) : countCalls p (t ++ [c]) = countCalls p t + 1 := by
  unfold countCalls
  rw [List.countP_append]
  simp [h]

/-! ### `PipelineStash::findOrCreate` on descriptor-set layouts -/

theorem findOrCreateDescSetLayout_hit (cfg : Cfg) (info : DescriptorSetLayoutInfo) (d : Device)
    (h : Handle)
    (hf : cacheFind DescriptorSetLayoutInfo.opEq d.pipelineStash._descSetLayouts info = some h) :
    PipelineStash.findOrCreateDescSetLayout cfg info d = some (h, d) := by
  simp [PipelineStash.findOrCreateDescSetLayout, hf]

theorem findOrCreateDescSetLayout_miss (cfg : Cfg) (info : DescriptorSetLayoutInfo) (d : Device)
    (hf : cacheFind DescriptorSetLayoutInfo.opEq d.pipelineStash._descSetLayouts info = none)
    (hok : cfg.debug = false ∨ cfg.succeeds d.issued = true) :
    PipelineStash.findOrCreateDescSetLayout cfg info d =
      some (createdHandle cfg d.issued, afterDescSetLayout cfg info d) := by
  simp [PipelineStash.findOrCreateDescSetLayout, hf, vkCreate_eq, CYDASSERT_ok cfg _ hok,
    cacheInsert_of_none, afterDescSetLayout]

theorem findOrCreateDescSetLayout_cases (cfg : Cfg) (info : DescriptorSetLayoutInfo)
    (d d1 : Device) (h : Handle)
    (hc : PipelineStash.findOrCreateDescSetLayout cfg info d = some (h, d1)) :
    (cacheFind DescriptorSetLayoutInfo.opEq d.pipelineStash._descSetLayouts info = some h ∧
        d1 = d) ∨
    (cacheFind DescriptorSetLayoutInfo.opEq d.pipelineStash._descSetLayouts info = none ∧
        h = createdHandle cfg d.issued ∧ d1 = afterDescSetLayout cfg info d) := by
  unfold PipelineStash.findOrCreateDescSetLayout at hc
  cases hf : cacheFind DescriptorSetLayoutInfo.opEq d.pipelineStash._descSetLayouts info with
  | some v =>
    simp [hf] at hc
    exact Or.inl ⟨by rw [hc.1], hc.2.symm⟩
  | none =>
    right
    simp only [hf, vkCreate_eq] at hc
    cases ha : CYDASSERT cfg (cfg.succeeds d.issued) with
    | none => simp [ha] at hc
    | some u =>
      simp [ha, cacheInsert_of_none, hf] at hc
      exact ⟨rfl, hc.1.symm, hc.2.symm⟩

theorem findOrCreateDescSetLayout_total (cfg : Cfg) (hna : NoAbort cfg)
    (info : DescriptorSetLayoutInfo) (d : Device) :
    ∃ h d1, PipelineStash.findOrCreateDescSetLayout cfg info d = some (h, d1) := by
  cases hf : cacheFind DescriptorSetLayoutInfo.opEq d.pipelineStash._descSetLayouts info with
  | some v => exact ⟨_, _, findOrCreateDescSetLayout_hit cfg info d v hf⟩
  | none => exact ⟨_, _, findOrCreateDescSetLayout_miss cfg info d hf (hna.at _)⟩

/-! ### `PipelineStash::findOrCreate` on pipeline layouts -/

theorem findOrCreatePipLayout_hit (cfg : Cfg) (info : PipelineLayoutInfo) (d : Device)
    (h : Handle)
    (hf : cacheFind PipelineLayoutInfo.opEq d.pipelineStash._pipLayouts info = some h) :
    PipelineStash.findOrCreatePipLayout cfg info d = some (h, d) := by
  simp [PipelineStash.findOrCreatePipLayout, hf]

theorem findOrCreateDescSetLayout_pipLayouts (cfg : Cfg) (info : DescriptorSetLayoutInfo)
    (d d1 : Device) (h : Handle)
    (hc : PipelineStash.findOrCreateDescSetLayout cfg info d = some (h, d1)) :
    d1.pipelineStash._pipLayouts = d.pipelineStash._pipLayouts ∧
    d1.pipelineStash._pipelines = d.pipelineStash._pipelines ∧
    d1.renderPassStash = d.renderPassStash ∧ d1.samplerStash = d.samplerStash ∧
    d1.descPool = d.descPool ∧ d1.allocatedSets = d.allocatedSets := by
  rcases findOrCreateDescSetLayout_cases cfg info d d1 h hc with ⟨_, rfl⟩ | ⟨_, _, rfl⟩
  · simp
  · simp [afterDescSetLayout]

theorem findOrCreatePipLayout_miss (cfg : Cfg) (info : PipelineLayoutInfo) (d d1 : Device)
    (dsl : Handle)
    (hf : cacheFind PipelineLayoutInfo.opEq d.pipelineStash._pipLayouts info = none)
    (hc : PipelineStash.findOrCreateDescSetLayout cfg info.descSetLayout d = some (dsl, d1))
    (hok : cfg.debug = false ∨ cfg.succeeds d1.issued = true) :
    PipelineStash.findOrCreatePipLayout cfg info d =
      some (createdHandle cfg d1.issued, afterPipLayout cfg info dsl d1) := by
  have hfr := (findOrCreateDescSetLayout_pipLayouts cfg _ d d1 dsl hc).1
  have hf1 : cacheFind PipelineLayoutInfo.opEq d1.pipelineStash._pipLayouts info = none := by
    rw [hfr]; exact hf
  simp [PipelineStash.findOrCreatePipLayout, hf, hc, vkCreate_eq, CYDASSERT_ok cfg _ hok,
    cacheInsert_of_none, hf1, afterPipLayout]

theorem findOrCreatePipLayout_cases (cfg : Cfg) (info : PipelineLayoutInfo)
    (d d2 : Device) (h : Handle)
    (hc : PipelineStash.findOrCreatePipLayout cfg info d = some (h, d2)) :
    (cacheFind PipelineLayoutInfo.opEq d.pipelineStash._pipLayouts info = some h ∧ d2 = d) ∨
    (cacheFind PipelineLayoutInfo.opEq d.pipelineStash._pipLayouts info = none ∧
      ∃ dsl d1, PipelineStash.findOrCreateDescSetLayout cfg info.descSetLayout d =
          some (dsl, d1) ∧
        h = createdHandle cfg d1.issued ∧ d2 = afterPipLayout cfg info dsl d1) := by
  unfold PipelineStash.findOrCreatePipLayout at hc
  cases hf : cacheFind PipelineLayoutInfo.opEq d.pipelineStash._pipLayouts info with
  | some v =>
    simp [hf] at hc
    exact Or.inl ⟨by rw [hc.1], hc.2.symm⟩
  | none =>
    right
    simp only [hf] at hc
    cases hn : PipelineStash.findOrCreateDescSetLayout cfg info.descSetLayout d with
    | none => simp [hn] at hc
    | some r =>
      obtain ⟨dsl, d1⟩ := r
      have hfr := (findOrCreateDescSetLayout_pipLayouts cfg _ d d1 dsl hn).1
      have hf1 : cacheFind PipelineLayoutInfo.opEq d1.pipelineStash._pipLayouts info = none := by
        rw [hfr]; exact hf
      simp only [hn, vkCreate_eq] at hc
      cases ha : CYDASSERT cfg (cfg.succeeds d1.issued) with
      | none => simp [ha] at hc
      | some u =>
        simp [ha, cacheInsert_of_none, hf1] at hc
        exact ⟨rfl, dsl, d1, rfl, hc.1.symm, hc.2.symm⟩

theorem findOrCreatePipLayout_total (cfg : Cfg) (hna : NoAbort cfg)
    (info : PipelineLayoutInfo) (d : Device) :
    ∃ h d1, PipelineStash.findOrCreatePipLayout cfg info d = some (h, d1) := by
  cases hf : cacheFind PipelineLayoutInfo.opEq d.pipelineStash._pipLayouts info with
  | some v => exact ⟨_, _, findOrCreatePipLayout_hit cfg info d v hf⟩
  | none =>
    obtain ⟨dsl, d1, hc⟩ := findOrCreateDescSetLayout_total cfg hna info.descSetLayout d
    exact ⟨_, _, findOrCreatePipLayout_miss cfg info d d1 dsl hf hc (hna.at _)⟩

/-! ### `RenderPassStash::findOrCreate` -/

theorem findOrCreateRenderPass_hit (cfg : Cfg) (info : RenderPassInfo) (d : Device)
    (h : Handle)
    (hf : cacheFind RenderPassInfo.opEq d.renderPassStash._renderPasses info = some h) :
    RenderPassStash.findOrCreate cfg info d = some (h, d) := by
  simp [RenderPassStash.findOrCreate, hf]

theorem findOrCreateRenderPass_miss (cfg : Cfg) (info : RenderPassInfo) (d : Device)
    (hf : cacheFind RenderPassInfo.opEq d.renderPassStash._renderPasses info = none)
    (hok : cfg.debug = false ∨ cfg.succeeds d.issued = true) :
    RenderPassStash.findOrCreate cfg info d =
      some (createdHandle cfg d.issued, afterRenderPass cfg info d) := by
  simp [RenderPassStash.findOrCreate, hf, vkCreate_eq, CYDASSERT_ok cfg _ hok,
    cacheInsert_of_none, afterRenderPass]

theorem findOrCreateRenderPass_cases (cfg : Cfg) (info : RenderPassInfo)
    (d d1 : Device) (h : Handle)
    (hc : RenderPassStash.findOrCreate cfg info d = some (h, d1)) :
    (cacheFind RenderPassInfo.opEq d.renderPassStash._renderPasses info = some h ∧ d1 = d) ∨
    (cacheFind RenderPassInfo.opEq d.renderPassStash._renderPasses info = none ∧
        h = createdHandle cfg d.issued ∧ d1 = afterRenderPass cfg info d) := by
  unfold RenderPassStash.findOrCreate at hc
  cases hf : cacheFind RenderPassInfo.opEq d.renderPassStash._renderPasses info with
  | some v =>
    simp [hf] at hc
    exact Or.inl ⟨by rw [hc.1], hc.2.symm⟩
  | none =>
    right
    simp only [hf, vkCreate_eq] at hc
    cases ha : CYDASSERT cfg (cfg.succeeds d.issued) with
    | none => simp [ha] at hc
    | some u =>
      simp [ha, cacheInsert_of_none, hf] at hc
      exact ⟨rfl, hc.1.symm, hc.2.symm⟩

theorem findOrCreateRenderPass_total (cfg : Cfg) (hna : NoAbort cfg)
    (info : RenderPassInfo) (d : Device) :
    ∃ h d1, RenderPassStash.findOrCreate cfg info d = some (h, d1) := by
  cases hf : cacheFind RenderPassInfo.opEq d.renderPassStash._renderPasses info with
  | some v => exact ⟨_, _, findOrCreateRenderPass_hit cfg info d v hf⟩
  | none => exact ⟨_, _, findOrCreateRenderPass_miss cfg info d hf (hna.at _)⟩

/-! ### `SamplerStash::findOrCreate` -/

theorem findOrCreateSampler_hit (cfg : Cfg) (info : SamplerInfo) (d : Device)
    (h : Handle)
    (hf : cacheFind SamplerInfo.opEq d.samplerStash._samplers info = some h) :
    SamplerStash.findOrCreate cfg info d = some (h, d) := by
  simp [SamplerStash.findOrCreate, hf]

theorem findOrCreateSampler_miss (cfg : Cfg) (info : SamplerInfo) (d : Device)
    (hf : cacheFind SamplerInfo.opEq d.samplerStash._samplers info = none)
    (hok : cfg.debug = false ∨ cfg.succeeds d.issued = true) :
    SamplerStash.findOrCreate cfg info d =
      some (createdHandle cfg d.issued, afterSampler cfg info d) := by
  simp [SamplerStash.findOrCreate, hf, vkCreate_eq, CYDASSERT_ok cfg _ hok,
    cacheInsert_of_none, afterSampler]

theorem findOrCreateSampler_cases (cfg : Cfg) (info : SamplerInfo)
    (d d1 : Device) (h : Handle)
    (hc : SamplerStash.findOrCreate cfg info d = some (h, d1)) :
    (cacheFind SamplerInfo.opEq d.samplerStash._samplers info = some h ∧ d1 = d) ∨
    (cacheFind SamplerInfo.opEq d.samplerStash._samplers info = none ∧
        h = createdHandle cfg d.issued ∧ d1 = afterSampler cfg info d) := by
  unfold SamplerStash.findOrCreate at hc
  cases hf : cacheFind SamplerInfo.opEq d.samplerStash._samplers info with
  | some v =>
    simp [hf] at hc
    exact Or.inl ⟨by rw [hc.1], hc.2.symm⟩
  | none =>
    right
    simp only [hf, vkCreate_eq] at hc
    cases ha : CYDASSERT cfg (cfg.succeeds d.issued) with
    | none => simp [ha] at hc
    | some u =>
      simp [ha, cacheInsert_of_none, hf] at hc
      exact ⟨rfl, hc.1.symm, hc.2.symm⟩

theorem findOrCreateSampler_total (cfg : Cfg) (hna : NoAbort cfg)
    (info : SamplerInfo) (d : Device) :
    ∃ h d1, SamplerStash.findOrCreate cfg info d = some (h, d1) := by
  cases hf : cacheFind SamplerInfo.opEq d.samplerStash._samplers info with
  | some v => exact ⟨_, _, findOrCreateSampler_hit cfg info d v hf⟩
  | none => exact ⟨_, _, findOrCreateSampler_miss cfg info d hf (hna.at _)⟩

/-! ### `PipelineStash::findOrCreate` on pipelines -/

theorem findOrCreateRenderPass_frame (cfg : Cfg) (info : RenderPassInfo)
    (d d1 : Device) (h : Handle)
    (hc : RenderPassStash.findOrCreate cfg info d = some (h, d1)) :
    d1.pipelineStash = d.pipelineStash ∧ d1.samplerStash = d.samplerStash ∧
    d1.descPool = d.descPool ∧ d1.allocatedSets = d.allocatedSets := by
  rcases findOrCreateRenderPass_cases cfg info d d1 h hc with ⟨_, rfl⟩ | ⟨_, _, rfl⟩
  · simp
  · simp [afterRenderPass]

theorem findOrCreatePipLayout_frame (cfg : Cfg) (info : PipelineLayoutInfo)
    (d d2 : Device) (h : Handle)
    (hc : PipelineStash.findOrCreatePipLayout cfg info d = some (h, d2)) :
    d2.pipelineStash._pipelines = d.pipelineStash._pipelines ∧
    d2.renderPassStash = d.renderPassStash ∧ d2.samplerStash = d.samplerStash ∧
    d2.descPool = d.descPool ∧ d2.allocatedSets = d.allocatedSets := by
  rcases findOrCreatePipLayout_cases cfg info d d2 h hc with
    ⟨_, rfl⟩ | ⟨_, dsl, d1, hn, _, rfl⟩
  · simp
  · have := findOrCreateDescSetLayout_pipLayouts cfg _ d d1 dsl hn
    simp [afterPipLayout, this]

theorem findOrCreatePipeline_hit (cfg : Cfg) (info : PipelineInfo) (d : Device)
    (h : Handle)
    (hf : cacheFind PipelineInfo.opEq d.pipelineStash._pipelines info = some h) :
    PipelineStash.findOrCreatePipeline cfg info d = some (h, d) := by
  simp [PipelineStash.findOrCreatePipeline, hf]

theorem findOrCreatePipeline_miss (cfg : Cfg) (info : PipelineInfo) (d d1 d2 : Device)
    (rp pl : Handle)
    (hf : cacheFind PipelineInfo.opEq d.pipelineStash._pipelines info = none)
    (hrp : RenderPassStash.findOrCreate cfg info.renderPass d = some (rp, d1))
    (hpl : PipelineStash.findOrCreatePipLayout cfg info.pipLayout d1 = some (pl, d2))
    (hok : cfg.debug = false ∨ cfg.succeeds d2.issued = true) :
    PipelineStash.findOrCreatePipeline cfg info d =
      some (createdHandle cfg d2.issued, afterPipeline cfg info rp pl d2) := by
  have h1 := (findOrCreateRenderPass_frame cfg _ d d1 rp hrp).1
  have h2 := (findOrCreatePipLayout_frame cfg _ d1 d2 pl hpl).1
  have hf2 : cacheFind PipelineInfo.opEq d2.pipelineStash._pipelines info = none := by
    rw [h2, h1]; exact hf
  simp [PipelineStash.findOrCreatePipeline, hf, hrp, hpl, vkCreate_eq, CYDASSERT_ok cfg _ hok,
    cacheInsert_of_none, hf2, afterPipeline]

theorem findOrCreatePipeline_cases (cfg : Cfg) (info : PipelineInfo)
    (d d3 : Device) (h : Handle)
    (hc : PipelineStash.findOrCreatePipeline cfg info d = some (h, d3)) :
    (cacheFind PipelineInfo.opEq d.pipelineStash._pipelines info = some h ∧ d3 = d) ∨
    (cacheFind PipelineInfo.opEq d.pipelineStash._pipelines info = none ∧
      ∃ rp d1 pl d2, RenderPassStash.findOrCreate cfg info.renderPass d = some (rp, d1) ∧
        PipelineStash.findOrCreatePipLayout cfg info.pipLayout d1 = some (pl, d2) ∧
        h = createdHandle cfg d2.issued ∧ d3 = afterPipeline cfg info rp pl d2) := by
  unfold PipelineStash.findOrCreatePipeline at hc
  cases hf : cacheFind PipelineInfo.opEq d.pipelineStash._pipelines info with
  | some v =>
    simp [hf] at hc
    exact Or.inl ⟨by rw [hc.1], hc.2.symm⟩
  | none =>
    right
    simp only [hf] at hc
    cases hrp : RenderPassStash.findOrCreate cfg info.renderPass d with
    | none => simp [hrp] at hc
    | some r =>
      obtain ⟨rp, d1⟩ := r
      simp only [hrp] at hc
      cases hpl : PipelineStash.findOrCreatePipLayout cfg info.pipLayout d1 with
      | none => simp [hpl] at hc
      | some r2 =>
        obtain ⟨pl, d2⟩ := r2
        have h1 := (findOrCreateRenderPass_frame cfg _ d d1 rp hrp).1
        have h2 := (findOrCreatePipLayout_frame cfg _ d1 d2 pl hpl).1
        have hf2 : cacheFind PipelineInfo.opEq d2.pipelineStash._pipelines info = none := by
          rw [h2, h1]; exact hf
        simp only [hpl, vkCreate_eq] at hc
        cases ha : CYDASSERT cfg (cfg.succeeds d2.issued) with
        | none => simp [ha] at hc
        | some u =>
          simp [ha, cacheInsert_of_none, hf2] at hc
          exact ⟨rfl, rp, d1, pl, d2, rfl, hpl, hc.1.symm, hc.2.symm⟩

theorem findOrCreatePipeline_total (cfg : Cfg) (hna : NoAbort cfg)
    (info : PipelineInfo) (d : Device) :
    ∃ h d1, PipelineStash.findOrCreatePipeline cfg info d = some (h, d1) := by
  cases hf : cacheFind PipelineInfo.opEq d.pipelineStash._pipelines info with
  | some v => exact ⟨_, _, findOrCreatePipeline_hit cfg info d v hf⟩
  | none =>
    obtain ⟨rp, d1, hrp⟩ := findOrCreateRenderPass_total cfg hna info.renderPass d
    obtain ⟨pl, d2, hpl⟩ := findOrCreatePipLayout_total cfg hna info.pipLayout d1
    exact ⟨_, _, findOrCreatePipeline_miss cfg info d d1 d2 rp pl hf hrp hpl (hna.at _)⟩

/-! ### `DescriptorPool::findOrAllocate` -/

theorem vkAllocateDescriptorSets_eq (cfg : Cfg) (layout : Handle) (d : Device) :
    vkAllocateDescriptorSets cfg layout d =
      (cfg.succeeds d.issued, createdHandle cfg d.issued,
        { d with
          issued := d.issued + 1
          trace := d.trace ++ [.vkAllocateDescriptorSets layout]
          allocatedSets :=
            if cfg.succeeds d.issued then d.allocatedSets ++ [createdHandle cfg d.issued]
            else d.allocatedSets }) := by
  unfold vkAllocateDescriptorSets
  rw [vkCreate_eq]
  cases hs : cfg.succeeds d.issued <;> simp

theorem findOrAllocate_hit (cfg : Cfg) (layout : DescriptorSetLayoutInfo) (d : Device)
    (h : Handle)
    (hf : cacheFind DescriptorSetLayoutInfo.opEq d.descPool._descSets layout = some h) :
    DescriptorPool.findOrAllocate cfg layout d = some (h, d) := by
  simp [DescriptorPool.findOrAllocate, hf]

theorem findOrAllocate_miss (cfg : Cfg) (layout : DescriptorSetLayoutInfo) (d d1 : Device)
    (dsl : Handle)
    (hf : cacheFind DescriptorSetLayoutInfo.opEq d.descPool._descSets layout = none)
    (hc : PipelineStash.findOrCreateDescSetLayout cfg layout d = some (dsl, d1))
    (hok : cfg.debug = false ∨ cfg.succeeds d1.issued = true) :
    DescriptorPool.findOrAllocate cfg layout d =
      some (createdHandle cfg d1.issued, afterDescSet cfg layout dsl d1) := by
  have hfr := (findOrCreateDescSetLayout_pipLayouts cfg _ d d1 dsl hc).2.2.2.2.1
  have hf1 : cacheFind DescriptorSetLayoutInfo.opEq d1.descPool._descSets layout = none := by
    rw [hfr]; exact hf
  simp [DescriptorPool.findOrAllocate, hf, hc, vkAllocateDescriptorSets_eq,
    CYDASSERT_ok cfg _ hok, cacheInsert_of_none, hf1, afterDescSet]

theorem findOrAllocate_cases (cfg : Cfg) (layout : DescriptorSetLayoutInfo)
    (d d2 : Device) (h : Handle)
    (hc : DescriptorPool.findOrAllocate cfg layout d = some (h, d2)) :
    (cacheFind DescriptorSetLayoutInfo.opEq d.descPool._descSets layout = some h ∧ d2 = d) ∨
    (cacheFind DescriptorSetLayoutInfo.opEq d.descPool._descSets layout = none ∧
      ∃ dsl d1, PipelineStash.findOrCreateDescSetLayout cfg layout d = some (dsl, d1) ∧
        h = createdHandle cfg d1.issued ∧ d2 = afterDescSet cfg layout dsl d1) := by
  unfold DescriptorPool.findOrAllocate at hc
  cases hf : cacheFind DescriptorSetLayoutInfo.opEq d.descPool._descSets layout with
  | some v =>
    simp [hf] at hc
    exact Or.inl ⟨by rw [hc.1], hc.2.symm⟩
  | none =>
    right
    simp only [hf] at hc
    cases hn : PipelineStash.findOrCreateDescSetLayout cfg layout d with
    | none => simp [hn] at hc
    | some r =>
      obtain ⟨dsl, d1⟩ := r
      have hfr := (findOrCreateDescSetLayout_pipLayouts cfg _ d d1 dsl hn).2.2.2.2.1
      have hf1 : cacheFind DescriptorSetLayoutInfo.opEq d1.descPool._descSets layout = none := by
        rw [hfr]; exact hf
      simp only [hn, vkAllocateDescriptorSets_eq] at hc
      cases ha : CYDASSERT cfg (cfg.succeeds d1.issued) with
      | none => simp [ha] at hc
      | some u =>
        simp [ha, cacheInsert_of_none, hf1] at hc
        exact ⟨rfl, dsl, d1, rfl, hc.1.symm, hc.2.symm⟩

theorem findOrAllocate_total (cfg : Cfg) (hna : NoAbort cfg)
    (layout : DescriptorSetLayoutInfo) (d : Device) :
    ∃ h d1, DescriptorPool.findOrAllocate cfg layout d = some (h, d1) := by
  cases hf : cacheFind DescriptorSetLayoutInfo.opEq d.descPool._descSets layout with
  | some v => exact ⟨_, _, findOrAllocate_hit cfg layout d v hf⟩
  | none =>
    obtain ⟨dsl, d1, hc⟩ := findOrCreateDescSetLayout_total cfg hna layout d
    exact ⟨_, _, findOrAllocate_miss cfg layout d d1 dsl hf hc (hna.at _)⟩


/-! ### What the nested look-ups add to the trace -/

theorem findOrCreateDescSetLayout_trace (cfg : Cfg) (info : DescriptorSetLayoutInfo)
    (d d1 : Device) (h : Handle)
    (hc : PipelineStash.findOrCreateDescSetLayout cfg info d = some (h, d1)) :
    ∃ ext, d1.trace = d.trace ++ ext ∧ ∀ c ∈ ext, c.isCreateDescriptorSetLayout = true := by
  rcases findOrCreateDescSetLayout_cases cfg info d d1 h hc with ⟨_, rfl⟩ | ⟨_, _, rfl⟩
  · exact ⟨[], by simp, by simp⟩
  · exact ⟨_, rfl, by simp [VkCall.isCreateDescriptorSetLayout]⟩

theorem findOrCreateRenderPass_trace (cfg : Cfg) (info : RenderPassInfo)
    (d d1 : Device) (h : Handle)
    (hc : RenderPassStash.findOrCreate cfg info d = some (h, d1)) :
    ∃ ext, d1.trace = d.trace ++ ext ∧ ∀ c ∈ ext, c.isCreateRenderPass = true := by
  rcases findOrCreateRenderPass_cases cfg info d d1 h hc with ⟨_, rfl⟩ | ⟨_, _, rfl⟩
  · exact ⟨[], by simp, by simp⟩
  · exact ⟨_, rfl, by simp [VkCall.isCreateRenderPass]⟩

theorem findOrCreatePipLayout_trace (cfg : Cfg) (info : PipelineLayoutInfo)
    (d d2 : Device) (h : Handle)
    (hc : PipelineStash.findOrCreatePipLayout cfg info d = some (h, d2)) :
    ∃ ext, d2.trace = d.trace ++ ext ∧
      ∀ c ∈ ext, (c.isCreateDescriptorSetLayout || c.isCreatePipelineLayout) = true := by
  rcases findOrCreatePipLayout_cases cfg info d d2 h hc with
    ⟨_, rfl⟩ | ⟨_, dsl, d1, hn, _, rfl⟩
  · exact ⟨[], by simp, by simp⟩
  · obtain ⟨ext, he, hall⟩ := findOrCreateDescSetLayout_trace cfg _ d d1 dsl hn
    refine ⟨ext ++ [.vkCreatePipelineLayout
      ⟨List.replicate info.descSetLayout.shaderObjects.length dsl,
        info.ranges.map (vkRangeOf cfg)⟩], ?_, ?_⟩
    · simp [afterPipLayout, he]
    · intro c hcm
      rcases List.mem_append.mp hcm with hcm | hcm
      · simp [hall c hcm]
      · simp at hcm; subst hcm; simp [VkCall.isCreatePipelineLayout]

theorem VkCall.not_pipLayout_of_descSetLayout (c : VkCall)
    (h : c.isCreateDescriptorSetLayout = true) :
    c.isCreatePipelineLayout = false ∧ c.isCreateGraphicsPipelines = false ∧
    c.isAllocateDescriptorSets = false := by
  cases c <;> simp_all [VkCall.isCreateDescriptorSetLayout, VkCall.isCreatePipelineLayout,
    VkCall.isCreateGraphicsPipelines, VkCall.isAllocateDescriptorSets]

theorem VkCall.not_pipeline_of_renderPass (c : VkCall) (h : c.isCreateRenderPass = true) :
    c.isCreateGraphicsPipelines = false := by
  cases c <;> simp_all [VkCall.isCreateRenderPass, VkCall.isCreateGraphicsPipelines]

theorem VkCall.not_pipeline_of_pipLayout (c : VkCall)
    (h : (c.isCreateDescriptorSetLayout || c.isCreatePipelineLayout) = true) :
    c.isCreateGraphicsPipelines = false := by
  cases c <;> simp_all [VkCall.isCreateDescriptorSetLayout, VkCall.isCreatePipelineLayout,
    VkCall.isCreateGraphicsPipelines]

theorem symm_of_iff {K : Type} (eq : K → K → Bool) (h : ∀ a b, eq a b = true ↔ a = b)
    (a b : K) (hab : eq a b = true) : eq b a = true :=
  (h b a).mpr ((h a b).mp hab).symm

theorem trans_of_iff {K : Type} (eq : K → K → Bool) (h : ∀ a b, eq a b = true ↔ a = b)
    (a b c : K) (hab : eq a b = true) (hbc : eq b c = true) : eq a c = true :=
  (h a c).mpr (((h a b).mp hab).trans ((h b c).mp hbc))

/-- C1: in each find-or-create cache (descriptor-set layouts, pipeline layouts and
pipelines of the PipelineStash, samplers of the SamplerStash), when the cache does
not yet contain `D1` and `D1 == D2`, `findOrCreate(D1)` followed by
`findOrCreate(D2)` returns twice the same handle, the first call issues exactly one
creation call of that kind, and the second leaves the device, its trace included,
as it found it. -/
theorem cache_determinism (cfg : Cfg) (hna : NoAbort cfg) (d : Device) :
    (∀ D1 D2 : DescriptorSetLayoutInfo,
      cacheFind DescriptorSetLayoutInfo.opEq d.pipelineStash._descSetLayouts D1 = none →
      D1.opEq D2 = true →
      ∃ h d1, PipelineStash.findOrCreateDescSetLayout cfg D1 d = some (h, d1) ∧
        PipelineStash.findOrCreateDescSetLayout cfg D2 d1 = some (h, d1) ∧
        countCalls VkCall.isCreateDescriptorSetLayout d1.trace =
          countCalls VkCall.isCreateDescriptorSetLayout d.trace + 1) ∧
    (∀ D1 D2 : PipelineLayoutInfo,
      cacheFind PipelineLayoutInfo.opEq d.pipelineStash._pipLayouts D1 = none →
      D1.opEq D2 = true →
      ∃ h d1, PipelineStash.findOrCreatePipLayout cfg D1 d = some (h, d1) ∧
        PipelineStash.findOrCreatePipLayout cfg D2 d1 = some (h, d1) ∧
        countCalls VkCall.isCreatePipelineLayout d1.trace =
          countCalls VkCall.isCreatePipelineLayout d.trace + 1) ∧
    (∀ D1 D2 : PipelineInfo,
      cacheFind PipelineInfo.opEq d.pipelineStash._pipelines D1 = none →
      D1.opEq D2 = true →
      ∃ h d1, PipelineStash.findOrCreatePipeline cfg D1 d = some (h, d1) ∧
        PipelineStash.findOrCreatePipeline cfg D2 d1 = some (h, d1) ∧
        countCalls VkCall.isCreateGraphicsPipelines d1.trace =
          countCalls VkCall.isCreateGraphicsPipelines d.trace + 1) ∧
    (∀ D1 D2 : SamplerInfo,
      cacheFind SamplerInfo.opEq d.samplerStash._samplers D1 = none →
      D1.opEq D2 = true →
      ∃ h d1, SamplerStash.findOrCreate cfg D1 d = some (h, d1) ∧
        SamplerStash.findOrCreate cfg D2 d1 = some (h, d1) ∧
        countCalls VkCall.isCreateSampler d1.trace =
          countCalls VkCall.isCreateSampler d.trace + 1) := by
  refine ⟨?_, ?_, ?_, ?_⟩
  · intro D1 D2 hf heq
    refine ⟨_, _, findOrCreateDescSetLayout_miss cfg D1 d hf (hna.at _), ?_, ?_⟩
    · apply findOrCreateDescSetLayout_hit
      exact cacheFind_after_insert _ (symm_of_iff _ opEq_iff_DescriptorSetLayoutInfo)
        (trans_of_iff _ opEq_iff_DescriptorSetLayoutInfo) _ D1 D2 _ hf heq
    · exact countCalls_append_one _ _ _ rfl
  · intro D1 D2 hf heq
    obtain ⟨dsl, d1, hn⟩ := findOrCreateDescSetLayout_total cfg hna D1.descSetLayout d
    refine ⟨_, _, findOrCreatePipLayout_miss cfg D1 d d1 dsl hf hn (hna.at _), ?_, ?_⟩
    · apply findOrCreatePipLayout_hit
      have hfr := (findOrCreateDescSetLayout_pipLayouts cfg _ d d1 dsl hn).1
      have hf1 : cacheFind PipelineLayoutInfo.opEq d1.pipelineStash._pipLayouts D1 = none := by
        rw [hfr]; exact hf
      exact cacheFind_after_insert _ (symm_of_iff _ opEq_iff_PipelineLayoutInfo)
        (trans_of_iff _ opEq_iff_PipelineLayoutInfo) _ D1 D2 _ hf1 heq
    · obtain ⟨ext, he, hall⟩ := findOrCreateDescSetLayout_trace cfg _ d d1 dsl hn
      have h1 : countCalls VkCall.isCreatePipelineLayout d1.trace =
          countCalls VkCall.isCreatePipelineLayout d.trace := by
        rw [he]
        exact countCalls_append_none _ _ _
          (fun c hc => (VkCall.not_pipLayout_of_descSetLayout c (hall c hc)).1)
      rw [← h1]
      exact countCalls_append_one _ _ _ rfl
  · intro D1 D2 hf heq
    obtain ⟨rp, d1, hrp⟩ := findOrCreateRenderPass_total cfg hna D1.renderPass d
    obtain ⟨pl, d2, hpl⟩ := findOrCreatePipLayout_total cfg hna D1.pipLayout d1
    refine ⟨_, _, findOrCreatePipeline_miss cfg D1 d d1 d2 rp pl hf hrp hpl (hna.at _), ?_, ?_⟩
    · apply findOrCreatePipeline_hit
      have h1 := (findOrCreateRenderPass_frame cfg _ d d1 rp hrp).1
      have h2 := (findOrCreatePipLayout_frame cfg _ d1 d2 pl hpl).1
      have hf2 : cacheFind PipelineInfo.opEq d2.pipelineStash._pipelines D1 = none := by
        rw [h2, h1]; exact hf
      exact cacheFind_after_insert _ (symm_of_iff _ opEq_iff_PipelineInfo)
        (trans_of_iff _ opEq_iff_PipelineInfo) _ D1 D2 _ hf2 heq
    · obtain ⟨e1, he1, hall1⟩ := findOrCreateRenderPass_trace cfg _ d d1 rp hrp
      obtain ⟨e2, he2, hall2⟩ := findOrCreatePipLayout_trace cfg _ d1 d2 pl hpl
      have h1 : countCalls VkCall.isCreateGraphicsPipelines d2.trace =
          countCalls VkCall.isCreateGraphicsPipelines d.trace := by
        rw [he2, he1]
        rw [countCalls_append_none _ _ _
          (fun c hc => VkCall.not_pipeline_of_pipLayout c (hall2 c hc))]
        exact countCalls_append_none _ _ _
          (fun c hc => VkCall.not_pipeline_of_renderPass c (hall1 c hc))
      rw [← h1]
      exact countCalls_append_one _ _ _ rfl
  · intro D1 D2 hf heq
    refine ⟨_, _, findOrCreateSampler_miss cfg D1 d hf (hna.at _), ?_, ?_⟩
    · apply findOrCreateSampler_hit
      exact cacheFind_after_insert _ SamplerInfo.opEq_symm SamplerInfo.opEq_trans
        _ D1 D2 _ hf heq
    · exact countCalls_append_one _ _ _ rfl

/-- Witness for C1: on the freshly built device, a sampler description with
`maxAnisotropy = +0.0f` followed by an equal one with `-0.0f`. -/
theorem cache_determinism_witness :
    ∃ h d1, SamplerStash.findOrCreate demoCfg { maxAnisotropy := 0 } Device.init =
        some (h, d1) ∧
      SamplerStash.findOrCreate demoCfg { maxAnisotropy := 2147483648 } d1 = some (h, d1) ∧
      countCalls VkCall.isCreateSampler d1.trace =
        countCalls VkCall.isCreateSampler Device.init.trace + 1 :=
  (cache_determinism demoCfg (Or.inl rfl) Device.init).2.2.2 _ _ (by decide) (by decide)


/-! ### Freshness of the cached handles -/

theorem HandlesFresh.mono {K : Type} {n n' : Nat} {m : Cache K} (h : HandlesFresh n m)
    (hn : n ≤ n') : HandlesFresh n' m :=
  ⟨h.1, fun e he => Nat.le_trans (h.2 e he) hn⟩

theorem HandlesFresh.append {K : Type} {n : Nat} {m : Cache K} (h : HandlesFresh n m) (k : K) :
    HandlesFresh (n + 1) (m ++ [(k, n + 1)]) := by
  constructor
  · rw [List.map_append, List.nodup_append]
    refine ⟨h.1, by simp, ?_⟩
    intro a ha hb
    simp at hb
    subst hb
    obtain ⟨e, he, he2⟩ := List.mem_map.mp ha
    have hle := h.2 e he
    rw [he2] at hle
    exact Nat.not_succ_le_self n hle
  · intro e he
    rcases List.mem_append.mp he with he | he
    · exact Nat.le_succ_of_le (h.2 e he)
    · simp at he; subst he; simp

theorem createdHandle_of_succeeds (cfg : Cfg) (hs : ∀ n, cfg.succeeds n = true) (n : Nat) :
    createdHandle cfg n = n + 1 := by
  simp [createdHandle, hs]

theorem Inv.afterDescSetLayout (cfg : Cfg) (hs : ∀ n, cfg.succeeds n = true)
    (info : DescriptorSetLayoutInfo) (d : Device) (hi : Inv d) :
    Inv (afterDescSetLayout cfg info d) := by
  constructor <;>
    simp only [Cydonia.afterDescSetLayout, createdHandle_of_succeeds cfg hs]
  · exact hi.pipelines.mono (Nat.le_succ _)
  · exact hi.pipLayouts.mono (Nat.le_succ _)
  · exact hi.descSetLayouts.append _
  · exact hi.renderPasses.mono (Nat.le_succ _)
  · exact hi.samplers.mono (Nat.le_succ _)
  · exact hi.descSets.mono (Nat.le_succ _)

theorem Inv.afterPipLayout (cfg : Cfg) (hs : ∀ n, cfg.succeeds n = true)
    (info : PipelineLayoutInfo) (dsl : Handle) (d : Device) (hi : Inv d) :
    Inv (afterPipLayout cfg info dsl d) := by
  constructor <;>
    simp only [Cydonia.afterPipLayout, createdHandle_of_succeeds cfg hs]
  · exact hi.pipelines.mono (Nat.le_succ _)
  · exact hi.pipLayouts.append _
  · exact hi.descSetLayouts.mono (Nat.le_succ _)
  · exact hi.renderPasses.mono (Nat.le_succ _)
  · exact hi.samplers.mono (Nat.le_succ _)
  · exact hi.descSets.mono (Nat.le_succ _)

theorem Inv.afterRenderPass (cfg : Cfg) (hs : ∀ n, cfg.succeeds n = true)
    (info : RenderPassInfo) (d : Device) (hi : Inv d) :
    Inv (afterRenderPass cfg info d) := by
  constructor <;>
    simp only [Cydonia.afterRenderPass, createdHandle_of_succeeds cfg hs]
  · exact hi.pipelines.mono (Nat.le_succ _)
  · exact hi.pipLayouts.mono (Nat.le_succ _)
  · exact hi.descSetLayouts.mono (Nat.le_succ _)
  · exact hi.renderPasses.append _
  · exact hi.samplers.mono (Nat.le_succ _)
  · exact hi.descSets.mono (Nat.le_succ _)

theorem Inv.afterPipeline (cfg : Cfg) (hs : ∀ n, cfg.succeeds n = true)
    (info : PipelineInfo) (rp pl : Handle) (d : Device) (hi : Inv d) :
    Inv (afterPipeline cfg info rp pl d) := by
  constructor <;>
    simp only [Cydonia.afterPipeline, createdHandle_of_succeeds cfg hs]
  · exact hi.pipelines.append _
  · exact hi.pipLayouts.mono (Nat.le_succ _)
  · exact hi.descSetLayouts.mono (Nat.le_succ _)
  · exact hi.renderPasses.mono (Nat.le_succ _)
  · exact hi.samplers.mono (Nat.le_succ _)
  · exact hi.descSets.mono (Nat.le_succ _)

theorem Inv.afterSampler (cfg : Cfg) (hs : ∀ n, cfg.succeeds n = true)
    (info : SamplerInfo) (d : Device) (hi : Inv d) :
    Inv (afterSampler cfg info d) := by
  constructor <;>
    simp only [Cydonia.afterSampler, createdHandle_of_succeeds cfg hs]
  · exact hi.pipelines.mono (Nat.le_succ _)
  · exact hi.pipLayouts.mono (Nat.le_succ _)
  · exact hi.descSetLayouts.mono (Nat.le_succ _)
  · exact hi.renderPasses.mono (Nat.le_succ _)
  · exact hi.samplers.append _
  · exact hi.descSets.mono (Nat.le_succ _)

theorem Inv.afterDescSet (cfg : Cfg) (hs : ∀ n, cfg.succeeds n = true)
    (layout : DescriptorSetLayoutInfo) (dsl : Handle) (d : Device) (hi : Inv d) :
    Inv (afterDescSet cfg layout dsl d) := by
  constructor <;>
    simp only [Cydonia.afterDescSet, createdHandle_of_succeeds cfg hs]
  · exact hi.pipelines.mono (Nat.le_succ _)
  · exact hi.pipLayouts.mono (Nat.le_succ _)
  · exact hi.descSetLayouts.mono (Nat.le_succ _)
  · exact hi.renderPasses.mono (Nat.le_succ _)
  · exact hi.samplers.mono (Nat.le_succ _)
  · exact hi.descSets.append _

theorem Inv.init : Inv Device.init := by
  constructor <;> simp [Device.init, HandlesFresh]

/-- What a returning find-or-create on descriptor-set layouts preserves and
yields when every creation call succeeds. -/
theorem findOrCreateDescSetLayout_inv (cfg : Cfg) (hs : ∀ n, cfg.succeeds n = true)
    (info : DescriptorSetLayoutInfo) (d d1 : Device) (h : Handle) (hi : Inv d)
    (hc : PipelineStash.findOrCreateDescSetLayout cfg info d = some (h, d1)) :
    Inv d1 ∧ d.issued ≤ d1.issued ∧
      Post DescriptorSetLayoutInfo.opEq (fun x => x.pipelineStash._descSetLayouts)
        info d h d1 := by
  rcases findOrCreateDescSetLayout_cases cfg info d d1 h hc with ⟨hf, rfl⟩ | ⟨_, rfl, rfl⟩
  · exact ⟨hi, Nat.le_refl _, Or.inl ⟨rfl, cacheFind_some_mem _ _ _ _ hf⟩⟩
  · refine ⟨hi.afterDescSetLayout cfg hs info d, by simp [afterDescSetLayout], Or.inr ?_⟩
    simp [afterDescSetLayout, createdHandle_of_succeeds cfg hs]

theorem findOrCreateRenderPass_inv (cfg : Cfg) (hs : ∀ n, cfg.succeeds n = true)
    (info : RenderPassInfo) (d d1 : Device) (h : Handle) (hi : Inv d)
    (hc : RenderPassStash.findOrCreate cfg info d = some (h, d1)) :
    Inv d1 ∧ d.issued ≤ d1.issued ∧
      Post RenderPassInfo.opEq (fun x => x.renderPassStash._renderPasses) info d h d1 := by
  rcases findOrCreateRenderPass_cases cfg info d d1 h hc with ⟨hf, rfl⟩ | ⟨_, rfl, rfl⟩
  · exact ⟨hi, Nat.le_refl _, Or.inl ⟨rfl, cacheFind_some_mem _ _ _ _ hf⟩⟩
  · refine ⟨hi.afterRenderPass cfg hs info d, by simp [afterRenderPass], Or.inr ?_⟩
    simp [afterRenderPass, createdHandle_of_succeeds cfg hs]

theorem findOrCreateSampler_inv (cfg : Cfg) (hs : ∀ n, cfg.succeeds n = true)
    (info : SamplerInfo) (d d1 : Device) (h : Handle) (hi : Inv d)
    (hc : SamplerStash.findOrCreate cfg info d = some (h, d1)) :
    Inv d1 ∧ d.issued ≤ d1.issued ∧
      Post SamplerInfo.opEq (fun x => x.samplerStash._samplers) info d h d1 := by
  rcases findOrCreateSampler_cases cfg info d d1 h hc with ⟨hf, rfl⟩ | ⟨_, rfl, rfl⟩
  · exact ⟨hi, Nat.le_refl _, Or.inl ⟨rfl, cacheFind_some_mem _ _ _ _ hf⟩⟩
  · refine ⟨hi.afterSampler cfg hs info d, by simp [afterSampler], Or.inr ?_⟩
    simp [afterSampler, createdHandle_of_succeeds cfg hs]

theorem findOrCreatePipLayout_inv (cfg : Cfg) (hs : ∀ n, cfg.succeeds n = true)
    (info : PipelineLayoutInfo) (d d2 : Device) (h : Handle) (hi : Inv d)
    (hc : PipelineStash.findOrCreatePipLayout cfg info d = some (h, d2)) :
    Inv d2 ∧ d.issued ≤ d2.issued ∧
      Post PipelineLayoutInfo.opEq (fun x => x.pipelineStash._pipLayouts) info d h d2 := by
  rcases findOrCreatePipLayout_cases cfg info d d2 h hc with
    ⟨hf, rfl⟩ | ⟨_, dsl, d1, hn, rfl, rfl⟩
  · exact ⟨hi, Nat.le_refl _, Or.inl ⟨rfl, cacheFind_some_mem _ _ _ _ hf⟩⟩
  · obtain ⟨hi1, hle, _⟩ := findOrCreateDescSetLayout_inv cfg hs _ d d1 dsl hi hn
    refine ⟨hi1.afterPipLayout cfg hs info dsl d1, ?_, Or.inr ?_⟩
    · simp only [afterPipLayout]; omega
    · simp only [afterPipLayout, createdHandle_of_succeeds cfg hs]
      exact ⟨by omega, by simp⟩

theorem findOrCreatePipeline_inv (cfg : Cfg) (hs : ∀ n, cfg.succeeds n = true)
    (info : PipelineInfo) (d d3 : Device) (h : Handle) (hi : Inv d)
    (hc : PipelineStash.findOrCreatePipeline cfg info d = some (h, d3)) :
    Inv d3 ∧ d.issued ≤ d3.issued ∧
      Post PipelineInfo.opEq (fun x => x.pipelineStash._pipelines) info d h d3 := by
  rcases findOrCreatePipeline_cases cfg info d d3 h hc with
    ⟨hf, rfl⟩ | ⟨_, rp, d1, pl, d2, hrp, hpl, rfl, rfl⟩
  · exact ⟨hi, Nat.le_refl _, Or.inl ⟨rfl, cacheFind_some_mem _ _ _ _ hf⟩⟩
  · obtain ⟨hi1, hle1, _⟩ := findOrCreateRenderPass_inv cfg hs _ d d1 rp hi hrp
    obtain ⟨hi2, hle2, _⟩ := findOrCreatePipLayout_inv cfg hs _ d1 d2 pl hi1 hpl
    refine ⟨hi2.afterPipeline cfg hs info rp pl d2, ?_, Or.inr ?_⟩
    · simp only [afterPipeline]; omega
    · simp only [afterPipeline, createdHandle_of_succeeds cfg hs]
      exact ⟨by omega, by simp⟩

theorem findOrAllocate_inv (cfg : Cfg) (hs : ∀ n, cfg.succeeds n = true)
    (layout : DescriptorSetLayoutInfo) (d d2 : Device) (h : Handle) (hi : Inv d)
    (hc : DescriptorPool.findOrAllocate cfg layout d = some (h, d2)) :
    Inv d2 ∧ d.issued ≤ d2.issued ∧
      Post DescriptorSetLayoutInfo.opEq (fun x => x.descPool._descSets) layout d h d2 := by
  rcases findOrAllocate_cases cfg layout d d2 h hc with
    ⟨hf, rfl⟩ | ⟨_, dsl, d1, hn, rfl, rfl⟩
  · exact ⟨hi, Nat.le_refl _, Or.inl ⟨rfl, cacheFind_some_mem _ _ _ _ hf⟩⟩
  · obtain ⟨hi1, hle, _⟩ := findOrCreateDescSetLayout_inv cfg hs _ d d1 dsl hi hn
    refine ⟨hi1.afterDescSet cfg hs layout dsl d1, ?_, Or.inr ?_⟩
    · simp only [afterDescSet]; omega
    · simp only [afterDescSet, createdHandle_of_succeeds cfg hs]
      exact ⟨by omega, by simp⟩

/-- Every reachable device satisfies the freshness invariant when every creation
call succeeds. -/
theorem Reachable.inv (cfg : Cfg) (hs : ∀ n, cfg.succeeds n = true) (d : Device)
    (hr : Reachable cfg d) : Inv d := by
  induction hr with
  | init => exact Inv.init
  | descSetLayout info _ hc ih => exact (findOrCreateDescSetLayout_inv cfg hs _ _ _ _ ih hc).1
  | pipLayout info _ hc ih => exact (findOrCreatePipLayout_inv cfg hs _ _ _ _ ih hc).1
  | pipeline info _ hc ih => exact (findOrCreatePipeline_inv cfg hs _ _ _ _ ih hc).1
  | renderPass info _ hc ih => exact (findOrCreateRenderPass_inv cfg hs _ _ _ _ ih hc).1
  | sampler info _ hc ih => exact (findOrCreateSampler_inv cfg hs _ _ _ _ ih hc).1
  | descSet layout _ hc ih => exact (findOrAllocate_inv cfg hs _ _ _ _ ih hc).1
  | other _ hle h1 h2 h3 h4 ih =>
    constructor
    · rw [h1]; exact ih.pipelines.mono hle
    · rw [h1]; exact ih.pipLayouts.mono hle
    · rw [h1]; exact ih.descSetLayouts.mono hle
    · rw [h2]; exact ih.renderPasses.mono hle
    · rw [h3]; exact ih.samplers.mono hle
    · rw [h4]; exact ih.descSets.mono hle

/-- Two successive find-or-create calls on one cache for keys that do not compare
equal return distinct handles. -/
theorem distinct_of_post {K : Type} (eq : K → K → Bool)
    (hsymm : ∀ a b, eq a b = true → eq b a = true)
    (htrans : ∀ a b c, eq a b = true → eq b c = true → eq a c = true)
    (sel : Device → Cache K) (k1 k2 : K) (d d1 d2 : Device) (h1 h2 : Handle)
    (hfresh : HandlesFresh d1.issued (sel d1))
    (hp1 : Post eq sel k1 d h1 d1) (hp2 : Post eq sel k2 d1 h2 d2)
    (hne : eq k1 k2 = false) : h1 ≠ h2 := by
  have hmem1 : ∃ k', (k', h1) ∈ sel d1 ∧ (k' = k1 ∨ eq k' k1 = true) := by
    rcases hp1 with ⟨rfl, k', hk', he⟩ | ⟨_, hk⟩
    · exact ⟨k', hk', Or.inr he⟩
    · exact ⟨k1, hk, Or.inl rfl⟩
  obtain ⟨k1', hk1', hrel⟩ := hmem1
  rcases hp2 with ⟨_, k2', hk2', he2⟩ | ⟨hlt, _⟩
  · intro heq
    subst heq
    have hinj := List.inj_on_of_nodup_map hfresh.1 hk1' hk2' rfl
    have hk : k1' = k2' := congrArg Prod.fst hinj
    subst hk
    have : eq k1 k2 = true := by
      rcases hrel with rfl | hrel
      · exact he2
      · exact htrans _ _ _ (hsymm _ _ hrel) he2
    rw [hne] at this; cases this
  · have hle : h1 ≤ d1.issued := hfresh.2 _ hk1'
    intro heq
    subst heq
    exact absurd hle (Nat.not_le.mpr hlt)


theorem noAbort_of_succeeds (cfg : Cfg) (hs : ∀ n, cfg.succeeds n = true) : NoAbort cfg :=
  Or.inr hs

/-- C2: in every device state reached from the freshly built device, with a driver
whose creation calls succeed (each success returning a fresh handle), for unequal
descriptor values `D1 != D2` of one kind (pipeline, pipeline layout, descriptor-set
layout, sampler) `findOrCreate(D1)` and `findOrCreate(D2)` both return, and return
distinct handles. -/
theorem cache_independence (cfg : Cfg) (hs : ∀ n, cfg.succeeds n = true) (d : Device)
    (hr : Reachable cfg d) :
    (∀ D1 D2 : PipelineInfo, D1.opEq D2 = false →
      ∃ h1 d1 h2 d2, PipelineStash.findOrCreatePipeline cfg D1 d = some (h1, d1) ∧
        PipelineStash.findOrCreatePipeline cfg D2 d1 = some (h2, d2) ∧ h1 ≠ h2) ∧
    (∀ D1 D2 : PipelineLayoutInfo, D1.opEq D2 = false →
      ∃ h1 d1 h2 d2, PipelineStash.findOrCreatePipLayout cfg D1 d = some (h1, d1) ∧
        PipelineStash.findOrCreatePipLayout cfg D2 d1 = some (h2, d2) ∧ h1 ≠ h2) ∧
    (∀ D1 D2 : DescriptorSetLayoutInfo, D1.opEq D2 = false →
      ∃ h1 d1 h2 d2, PipelineStash.findOrCreateDescSetLayout cfg D1 d = some (h1, d1) ∧
        PipelineStash.findOrCreateDescSetLayout cfg D2 d1 = some (h2, d2) ∧ h1 ≠ h2) ∧
    (∀ D1 D2 : SamplerInfo, D1.opEq D2 = false →
      ∃ h1 d1 h2 d2, SamplerStash.findOrCreate cfg D1 d = some (h1, d1) ∧
        SamplerStash.findOrCreate cfg D2 d1 = some (h2, d2) ∧ h1 ≠ h2) := by
  have hna := noAbort_of_succeeds cfg hs
  have hi := Reachable.inv cfg hs d hr
  refine ⟨?_, ?_, ?_, ?_⟩
  · intro D1 D2 hne
    obtain ⟨h1, d1, hc1⟩ := findOrCreatePipeline_total cfg hna D1 d
    obtain ⟨h2, d2, hc2⟩ := findOrCreatePipeline_total cfg hna D2 d1
    obtain ⟨hi1, _, hp1⟩ := findOrCreatePipeline_inv cfg hs _ _ _ _ hi hc1
    obtain ⟨_, _, hp2⟩ := findOrCreatePipeline_inv cfg hs _ _ _ _ hi1 hc2
    exact ⟨h1, d1, h2, d2, hc1, hc2,
      distinct_of_post _ (symm_of_iff _ opEq_iff_PipelineInfo)
        (trans_of_iff _ opEq_iff_PipelineInfo) _ D1 D2 d d1 d2 h1 h2 hi1.pipelines hp1 hp2 hne⟩
  · intro D1 D2 hne
    obtain ⟨h1, d1, hc1⟩ := findOrCreatePipLayout_total cfg hna D1 d
    obtain ⟨h2, d2, hc2⟩ := findOrCreatePipLayout_total cfg hna D2 d1
    obtain ⟨hi1, _, hp1⟩ := findOrCreatePipLayout_inv cfg hs _ _ _ _ hi hc1
    obtain ⟨_, _, hp2⟩ := findOrCreatePipLayout_inv cfg hs _ _ _ _ hi1 hc2
    exact ⟨h1, d1, h2, d2, hc1, hc2,
      distinct_of_post _ (symm_of_iff _ opEq_iff_PipelineLayoutInfo)
        (trans_of_iff _ opEq_iff_PipelineLayoutInfo) _ D1 D2 d d1 d2 h1 h2 hi1.pipLayouts
        hp1 hp2 hne⟩
  · intro D1 D2 hne
    obtain ⟨h1, d1, hc1⟩ := findOrCreateDescSetLayout_total cfg hna D1 d
    obtain ⟨h2, d2, hc2⟩ := findOrCreateDescSetLayout_total cfg hna D2 d1
    obtain ⟨hi1, _, hp1⟩ := findOrCreateDescSetLayout_inv cfg hs _ _ _ _ hi hc1
    obtain ⟨_, _, hp2⟩ := findOrCreateDescSetLayout_inv cfg hs _ _ _ _ hi1 hc2
    exact ⟨h1, d1, h2, d2, hc1, hc2,
      distinct_of_post _ (symm_of_iff _ opEq_iff_DescriptorSetLayoutInfo)
        (trans_of_iff _ opEq_iff_DescriptorSetLayoutInfo) _ D1 D2 d d1 d2 h1 h2
        hi1.descSetLayouts hp1 hp2 hne⟩
  · intro D1 D2 hne
    obtain ⟨h1, d1, hc1⟩ := findOrCreateSampler_total cfg hna D1 d
    obtain ⟨h2, d2, hc2⟩ := findOrCreateSampler_total cfg hna D2 d1
    obtain ⟨hi1, _, hp1⟩ := findOrCreateSampler_inv cfg hs _ _ _ _ hi hc1
    obtain ⟨_, _, hp2⟩ := findOrCreateSampler_inv cfg hs _ _ _ _ hi1 hc2
    exact ⟨h1, d1, h2, d2, hc1, hc2,
      distinct_of_post _ SamplerInfo.opEq_symm SamplerInfo.opEq_trans _ D1 D2 d d1 d2 h1 h2
        hi1.samplers hp1 hp2 hne⟩

/-- Witness for C2: after a first sampler was created, two sampler descriptions
that differ in their filter get distinct handles. -/
theorem cache_independence_witness :
    ∃ h1 d1 h2 d2,
      SamplerStash.findOrCreate demoCfg { magFilter := Filter.LINEAR }
          (afterSampler demoCfg {} Device.init) = some (h1, d1) ∧
        SamplerStash.findOrCreate demoCfg { magFilter := Filter.CUBIC } d1 = some (h2, d2) ∧
        h1 ≠ h2 :=
  (cache_independence demoCfg (fun _ => rfl) (afterSampler demoCfg {} Device.init)
    (@Reachable.sampler demoCfg Device.init _ 1 {} Reachable.init (by decide))).2.2.2 _ _ (by decide)


/-! ### What a returning look-up leaves in its cache -/

theorem cacheFind_after_insert_self {K : Type} (eq : K → K → Bool)
    (hiff : ∀ a b, eq a b = true ↔ a = b) (m : Cache K) (k : K) (v : Handle)
    (hf : cacheFind eq m k = none) : cacheFind eq (m ++ [(k, v)]) k = some v :=
  cacheFind_after_insert eq (symm_of_iff eq hiff) (trans_of_iff eq hiff) m k k v hf
    ((hiff k k).mpr rfl)

theorem findOrCreateDescSetLayout_found (cfg : Cfg) (info : DescriptorSetLayoutInfo)
    (d d1 : Device) (h : Handle)
    (hc : PipelineStash.findOrCreateDescSetLayout cfg info d = some (h, d1)) :
    cacheFind DescriptorSetLayoutInfo.opEq d1.pipelineStash._descSetLayouts info = some h := by
  rcases findOrCreateDescSetLayout_cases cfg info d d1 h hc with ⟨hf, rfl⟩ | ⟨hf, rfl, rfl⟩
  · exact hf
  · exact cacheFind_after_insert_self _ opEq_iff_DescriptorSetLayoutInfo _ _ _ hf

theorem findOrCreateRenderPass_found (cfg : Cfg) (info : RenderPassInfo)
    (d d1 : Device) (h : Handle)
    (hc : RenderPassStash.findOrCreate cfg info d = some (h, d1)) :
    cacheFind RenderPassInfo.opEq d1.renderPassStash._renderPasses info = some h := by
  rcases findOrCreateRenderPass_cases cfg info d d1 h hc with ⟨hf, rfl⟩ | ⟨hf, rfl, rfl⟩
  · exact hf
  · exact cacheFind_after_insert_self _ opEq_iff_RenderPassInfo _ _ _ hf

theorem findOrCreatePipLayout_found (cfg : Cfg) (info : PipelineLayoutInfo)
    (d d2 : Device) (h : Handle)
    (hc : PipelineStash.findOrCreatePipLayout cfg info d = some (h, d2)) :
    cacheFind PipelineLayoutInfo.opEq d2.pipelineStash._pipLayouts info = some h := by
  rcases findOrCreatePipLayout_cases cfg info d d2 h hc with
    ⟨hf, rfl⟩ | ⟨hf, dsl, d1, hn, rfl, rfl⟩
  · exact hf
  · have hfr := (findOrCreateDescSetLayout_pipLayouts cfg _ d d1 dsl hn).1
    have hf1 : cacheFind PipelineLayoutInfo.opEq d1.pipelineStash._pipLayouts info = none := by
      rw [hfr]; exact hf
    exact cacheFind_after_insert_self _ opEq_iff_PipelineLayoutInfo _ _ _ hf1

/-! ### Cached pipeline layouts have their descriptor-set layout cached -/

theorem cacheFind_isSome_append {K : Type} (eq : K → K → Bool) (m m' : Cache K) (k : K)
    (h : (cacheFind eq m k).isSome = true) : (cacheFind eq (m ++ m') k).isSome = true := by
  cases hf : cacheFind eq m k with
  | none => simp [hf] at h
  | some v => simp [cacheFind_append_of_some eq m m' k v hf]

theorem findOrCreateDescSetLayout_closed (cfg : Cfg) (info : DescriptorSetLayoutInfo)
    (d d1 : Device) (h : Handle) (hcl : LayoutsClosed d)
    (hc : PipelineStash.findOrCreateDescSetLayout cfg info d = some (h, d1)) :
    LayoutsClosed d1 := by
  rcases findOrCreateDescSetLayout_cases cfg info d d1 h hc with ⟨_, rfl⟩ | ⟨_, rfl, rfl⟩
  · exact hcl
  · intro e he
    exact cacheFind_isSome_append _ _ _ _ (hcl e he)

theorem findOrCreatePipLayout_closed (cfg : Cfg) (info : PipelineLayoutInfo)
    (d d2 : Device) (h : Handle) (hcl : LayoutsClosed d)
    (hc : PipelineStash.findOrCreatePipLayout cfg info d = some (h, d2)) :
    LayoutsClosed d2 ∧
      (cacheFind DescriptorSetLayoutInfo.opEq d2.pipelineStash._descSetLayouts
        info.descSetLayout).isSome = true := by
  rcases findOrCreatePipLayout_cases cfg info d d2 h hc with
    ⟨hf, rfl⟩ | ⟨hf, dsl, d1, hn, rfl, rfl⟩
  · refine ⟨hcl, ?_⟩
    obtain ⟨k', hk', heq⟩ := cacheFind_some_mem _ _ _ _ hf
    have hk : k' = info := (opEq_iff_PipelineLayoutInfo _ _).mp heq
    subst hk
    exact hcl _ hk'
  · have hcl1 := findOrCreateDescSetLayout_closed cfg _ d d1 dsl hcl hn
    have hfound := findOrCreateDescSetLayout_found cfg _ d d1 dsl hn
    refine ⟨?_, by simp [afterPipLayout, hfound]⟩
    intro e he
    simp only [afterPipLayout] at he ⊢
    rcases List.mem_append.mp he with he | he
    · exact hcl1 e he
    · simp at he; subst he; simp [hfound]

theorem findOrCreateRenderPass_closed (cfg : Cfg) (info : RenderPassInfo)
    (d d1 : Device) (h : Handle) (hcl : LayoutsClosed d)
    (hc : RenderPassStash.findOrCreate cfg info d = some (h, d1)) : LayoutsClosed d1 := by
  have hfr := (findOrCreateRenderPass_frame cfg info d d1 h hc).1
  unfold LayoutsClosed
  rw [hfr]
  exact hcl

theorem findOrCreateSampler_closed (cfg : Cfg) (info : SamplerInfo)
    (d d1 : Device) (h : Handle) (hcl : LayoutsClosed d)
    (hc : SamplerStash.findOrCreate cfg info d = some (h, d1)) : LayoutsClosed d1 := by
  rcases findOrCreateSampler_cases cfg info d d1 h hc with ⟨_, rfl⟩ | ⟨_, rfl, rfl⟩
  · exact hcl
  · exact hcl

theorem findOrCreatePipeline_closed (cfg : Cfg) (info : PipelineInfo)
    (d d3 : Device) (h : Handle) (hcl : LayoutsClosed d)
    (hc : PipelineStash.findOrCreatePipeline cfg info d = some (h, d3)) : LayoutsClosed d3 := by
  rcases findOrCreatePipeline_cases cfg info d d3 h hc with
    ⟨_, rfl⟩ | ⟨_, rp, d1, pl, d2, hrp, hpl, rfl, rfl⟩
  · exact hcl
  · have h1 := findOrCreateRenderPass_closed cfg _ d d1 rp hcl hrp
    exact (findOrCreatePipLayout_closed cfg _ d1 d2 pl h1 hpl).1

theorem findOrAllocate_closed (cfg : Cfg) (layout : DescriptorSetLayoutInfo)
    (d d2 : Device) (h : Handle) (hcl : LayoutsClosed d)
    (hc : DescriptorPool.findOrAllocate cfg layout d = some (h, d2)) : LayoutsClosed d2 := by
  rcases findOrAllocate_cases cfg layout d d2 h hc with
    ⟨_, rfl⟩ | ⟨_, dsl, d1, hn, rfl, rfl⟩
  · exact hcl
  · exact findOrCreateDescSetLayout_closed cfg _ d d1 dsl hcl hn

theorem Reachable.closed (cfg : Cfg) (d : Device) (hr : Reachable cfg d) : LayoutsClosed d := by
  induction hr with
  | init => intro e he; simp [Device.init] at he
  | descSetLayout info _ hc ih => exact findOrCreateDescSetLayout_closed cfg _ _ _ _ ih hc
  | pipLayout info _ hc ih => exact (findOrCreatePipLayout_closed cfg _ _ _ _ ih hc).1
  | pipeline info _ hc ih => exact findOrCreatePipeline_closed cfg _ _ _ _ ih hc
  | renderPass info _ hc ih => exact findOrCreateRenderPass_closed cfg _ _ _ _ ih hc
  | sampler info _ hc ih => exact findOrCreateSampler_closed cfg _ _ _ _ ih hc
  | descSet layout _ hc ih => exact findOrAllocate_closed cfg _ _ _ _ ih hc
  | other _ _ h1 _ _ _ ih =>
    unfold LayoutsClosed
    rw [h1]
    exact ih


/-- C4: for a pipeline description `info` absent from the pipeline cache of a
reachable device, `findOrCreate(info)` resolves the render pass, then the pipeline
layout, and creates the pipeline with exactly these two handles; afterwards the
pipeline-layout cache holds `info.pipLayout` and the descriptor-set-layout cache
holds `info.pipLayout.descSetLayout`, and the three look-ups of a following
`bindPipeline(info)` are hits that return these handles and leave the device,
its trace included, unchanged, so that `bindPipeline` adds at most the bind
command to the trace. -/
theorem pipeline_creation_resolves_dependencies (cfg : Cfg) (hna : NoAbort cfg) (d : Device)
    (hr : Reachable cfg d) (info : PipelineInfo)
    (hf : cacheFind PipelineInfo.opEq d.pipelineStash._pipelines info = none) :
    ∃ rp d1 pl d2 h d3,
      RenderPassStash.findOrCreate cfg info.renderPass d = some (rp, d1) ∧
      PipelineStash.findOrCreatePipLayout cfg info.pipLayout d1 = some (pl, d2) ∧
      PipelineStash.findOrCreatePipeline cfg info d = some (h, d3) ∧
      d3.trace = d2.trace ++ [.vkCreateGraphicsPipelines (pipelineInfoOf cfg info rp pl)] ∧
      (pipelineInfoOf cfg info rp pl).layout = pl ∧
      (pipelineInfoOf cfg info rp pl).renderPass = rp ∧
      cacheFind PipelineLayoutInfo.opEq d3.pipelineStash._pipLayouts info.pipLayout = some pl ∧
      (cacheFind DescriptorSetLayoutInfo.opEq d3.pipelineStash._descSetLayouts
        info.pipLayout.descSetLayout).isSome = true ∧
      PipelineStash.findOrCreatePipeline cfg info d3 = some (h, d3) ∧
      PipelineStash.findOrCreatePipLayout cfg info.pipLayout d3 = some (pl, d3) ∧
      RenderPassStash.findOrCreate cfg info.renderPass d3 = some (rp, d3) ∧
      ∀ cb : CommandBuffer, cb._device = true →
        CommandBuffer.bindPipeline cfg info cb d3 =
          if h == 0 || pl == 0 || rp == 0 then
            (if cfg.debug then none else some (cb, d3))
          else
            some ({ cb with
                _boundPip := some h, _boundPipLayout := some pl,
                _boundRenderPass := some rp, _boundPipInfo := some info },
              { d3 with trace := d3.trace ++ [.vkCmdBindPipeline cb._vkCmdBuffer h] }) := by
  obtain ⟨rp, d1, hrp⟩ := findOrCreateRenderPass_total cfg hna info.renderPass d
  obtain ⟨pl, d2, hpl⟩ := findOrCreatePipLayout_total cfg hna info.pipLayout d1
  have hmiss := findOrCreatePipeline_miss cfg info d d1 d2 rp pl hf hrp hpl (hna.at _)
  have hfr1 := findOrCreateRenderPass_frame cfg _ d d1 rp hrp
  have hfr2 := findOrCreatePipLayout_frame cfg _ d1 d2 pl hpl
  have hf2 : cacheFind PipelineInfo.opEq d2.pipelineStash._pipelines info = none := by
    rw [hfr2.1, hfr1.1]; exact hf
  have hcl1 := findOrCreateRenderPass_closed cfg _ d d1 rp (Reachable.closed cfg d hr) hrp
  have hcl2 := findOrCreatePipLayout_closed cfg _ d1 d2 pl hcl1 hpl
  have hplf := findOrCreatePipLayout_found cfg _ d1 d2 pl hpl
  have hrpf := findOrCreateRenderPass_found cfg _ d d1 rp hrp
  have hpf : cacheFind PipelineInfo.opEq
      (afterPipeline cfg info rp pl d2).pipelineStash._pipelines info =
        some (createdHandle cfg d2.issued) :=
    cacheFind_after_insert_self _ opEq_iff_PipelineInfo _ _ _ hf2
  have hplf3 : cacheFind PipelineLayoutInfo.opEq
      (afterPipeline cfg info rp pl d2).pipelineStash._pipLayouts info.pipLayout = some pl :=
    hplf
  have hrpf3 : cacheFind RenderPassInfo.opEq
      (afterPipeline cfg info rp pl d2).renderPassStash._renderPasses info.renderPass =
        some rp := by
    show cacheFind RenderPassInfo.opEq d2.renderPassStash._renderPasses info.renderPass = some rp
    rw [hfr2.2.1]; exact hrpf
  have hit1 := findOrCreatePipeline_hit cfg info _ _ hpf
  have hit2 := findOrCreatePipLayout_hit cfg info.pipLayout _ _ hplf3
  have hit3 := findOrCreateRenderPass_hit cfg info.renderPass _ _ hrpf3
  refine ⟨rp, d1, pl, d2, _, _, hrp, hpl, hmiss, rfl, rfl, rfl, hplf3, hcl2.2, hit1, hit2, hit3, ?_⟩
  intro cb hdev
  simp only [CommandBuffer.bindPipeline, hdev, hit1, hit2, hit3, CYDASSERT, vkCall]
  cases hdbg : cfg.debug <;> simp


/-- Witness for C4: the example pipeline on the freshly built device; the second
look-up of the pipeline, of its layout and of its render pass are hits. -/
theorem pipeline_creation_resolves_dependencies_witness :
    ∃ rp pl h d3,
      PipelineStash.findOrCreatePipeline demoCfg demoInfo Device.init = some (h, d3) ∧
      PipelineStash.findOrCreatePipeline demoCfg demoInfo d3 = some (h, d3) ∧
      PipelineStash.findOrCreatePipLayout demoCfg demoInfo.pipLayout d3 = some (pl, d3) ∧
      RenderPassStash.findOrCreate demoCfg demoInfo.renderPass d3 = some (rp, d3) := by
  obtain ⟨rp, _, pl, _, h, d3, _, _, h3, _, _, _, _, _, h9, h10, h11, _⟩ :=
    pipeline_creation_resolves_dependencies demoCfg (Or.inl rfl) Device.init Reachable.init
      demoInfo (by decide)
  exact ⟨rp, pl, h, d3, h3, h9, h10, h11⟩

/-- C5, at the failing input: in a release build, when the creation or allocation
call fails on the freshly built device, each find-or-create returns the content of
the uninitialised output variable and has inserted it into its cache under the
descriptor value; the pipeline look-up has also cached the failed render pass and
the failed layouts.  In a debug build the same calls abort. -/
theorem failed_creation_is_cached :
    (PipelineStash.findOrCreateDescSetLayout failCfg demoInfo.pipLayout.descSetLayout
        Device.init).map (fun r => (r.1, r.2.pipelineStash._descSetLayouts)) =
      some (57005, [(demoInfo.pipLayout.descSetLayout, 57005)]) ∧
    (PipelineStash.findOrCreatePipLayout failCfg demoInfo.pipLayout
        Device.init).map (fun r => (r.1, r.2.pipelineStash._pipLayouts)) =
      some (57005, [(demoInfo.pipLayout, 57005)]) ∧
    (PipelineStash.findOrCreatePipeline failCfg demoInfo
        Device.init).map (fun r => (r.1, r.2.pipelineStash)) =
      some (57005, ⟨[(demoInfo, 57005)], [(demoInfo.pipLayout, 57005)],
        [(demoInfo.pipLayout.descSetLayout, 57005)]⟩) ∧
    (SamplerStash.findOrCreate failCfg {} Device.init).map
        (fun r => (r.1, r.2.samplerStash._samplers)) =
      some (57005, [({}, 57005)]) ∧
    (DescriptorPool.findOrAllocate failCfg demoInfo.pipLayout.descSetLayout
        Device.init).map (fun r => (r.1, r.2.descPool._descSets, r.2.allocatedSets)) =
      some (57005, [(demoInfo.pipLayout.descSetLayout, 57005)], []) ∧
    PipelineStash.findOrCreatePipeline failDebugCfg demoInfo Device.init = none ∧
    SamplerStash.findOrCreate failDebugCfg {} Device.init = none ∧
    DescriptorPool.findOrAllocate failDebugCfg demoInfo.pipLayout.descSetLayout
      Device.init = none := by
  refine ⟨?_, ?_, ?_, ?_, ?_, ?_, ?_, ?_⟩ <;> decide


/-! ### `PipelineStash::~PipelineStash` -/

theorem foldl_vkCall_trace {α : Type} (f : α → VkCall) (l : List α) (d : Device) :
    l.foldl (fun acc e => vkCall (f e) acc) d = { d with trace := d.trace ++ l.map f } := by
  induction l generalizing d with
  | nil => simp
  | cons a l ih =>
    rw [List.foldl_cons, ih]
    simp [vkCall]

theorem destroy_trace (d : Device) :
    PipelineStash.destroy d = { d with trace := d.trace ++ destroyCalls d } := by
  simp [PipelineStash.destroy, foldl_vkCall_trace, destroyCalls]

theorem count_map_destroy {α : Type} (f : Handle → VkCall) (hf : Function.Injective f)
    (l : List (α × Handle)) (h : Handle) :
    (l.map (fun e => f e.2)).count (f h) = (l.map Prod.snd).count h := by
  induction l with
  | nil => simp
  | cons a l ih =>
    simp only [List.map_cons, List.count_cons, ih]
    by_cases hah : a.2 = h
    · simp [hah]
    · have : f a.2 ≠ f h := fun hc => hah (hf hc)
      simp [hah, this]

theorem count_map_other {α : Type} (f : Handle → VkCall) (c : VkCall)
    (hc : ∀ h, f h ≠ c) (l : List (α × Handle)) :
    (l.map (fun e => f e.2)).count c = 0 := by
  rw [List.count_eq_zero]
  intro hm
  obtain ⟨e, _, he⟩ := List.mem_map.mp hm
  exact hc _ he

/-- C6: the destructor of the PipelineStash adds to the trace one destroy call per
cache entry and nothing else: a handle is passed to `vkDestroyPipeline`,
`vkDestroyPipelineLayout` or `vkDestroyDescriptorSetLayout` as many times as it is
stored in the corresponding cache, which is exactly once when the handles of that
cache are pairwise distinct; and every pipeline or pipeline-layout destroy call
comes before every descriptor-set-layout destroy call. -/
theorem stash_destruction (d : Device) :
    (PipelineStash.destroy d).trace = d.trace ++ destroyCalls d ∧
    (destroyCalls d).length = d.pipelineStash._pipelines.length +
      d.pipelineStash._pipLayouts.length + d.pipelineStash._descSetLayouts.length ∧
    (∀ h, (destroyCalls d).count (.vkDestroyPipeline h) =
      (d.pipelineStash._pipelines.map Prod.snd).count h) ∧
    (∀ h, (destroyCalls d).count (.vkDestroyPipelineLayout h) =
      (d.pipelineStash._pipLayouts.map Prod.snd).count h) ∧
    (∀ h, (destroyCalls d).count (.vkDestroyDescriptorSetLayout h) =
      (d.pipelineStash._descSetLayouts.map Prod.snd).count h) ∧
    (Inv d →
      (∀ e ∈ d.pipelineStash._pipelines,
        (destroyCalls d).count (.vkDestroyPipeline e.2) = 1) ∧
      (∀ e ∈ d.pipelineStash._pipLayouts,
        (destroyCalls d).count (.vkDestroyPipelineLayout e.2) = 1) ∧
      (∀ e ∈ d.pipelineStash._descSetLayouts,
        (destroyCalls d).count (.vkDestroyDescriptorSetLayout e.2) = 1)) ∧
    (∀ (i j : Nat) (hi : i < (destroyCalls d).length) (hj : j < (destroyCalls d).length),
      ((destroyCalls d).get ⟨i, hi⟩).isDestroyDescriptorSetLayout = true →
      (((destroyCalls d).get ⟨j, hj⟩).isDestroyPipeline ||
        ((destroyCalls d).get ⟨j, hj⟩).isDestroyPipelineLayout) = true →
      j < i) := by
  have hP : ∀ h, (destroyCalls d).count (.vkDestroyPipeline h) =
      (d.pipelineStash._pipelines.map Prod.snd).count h := by
    intro h
    simp only [destroyCalls, List.count_append]
    rw [count_map_destroy VkCall.vkDestroyPipeline (fun a b hab => by injection hab),
      count_map_other VkCall.vkDestroyPipelineLayout _ (fun _ hc => by cases hc),
      count_map_other VkCall.vkDestroyDescriptorSetLayout _ (fun _ hc => by cases hc)]
    rfl
  have hL : ∀ h, (destroyCalls d).count (.vkDestroyPipelineLayout h) =
      (d.pipelineStash._pipLayouts.map Prod.snd).count h := by
    intro h
    simp only [destroyCalls, List.count_append]
    rw [count_map_destroy VkCall.vkDestroyPipelineLayout (fun a b hab => by injection hab),
      count_map_other VkCall.vkDestroyPipeline _ (fun _ hc => by cases hc),
      count_map_other VkCall.vkDestroyDescriptorSetLayout _ (fun _ hc => by cases hc)]
    simp
  have hD : ∀ h, (destroyCalls d).count (.vkDestroyDescriptorSetLayout h) =
      (d.pipelineStash._descSetLayouts.map Prod.snd).count h := by
    intro h
    simp only [destroyCalls, List.count_append]
    rw [count_map_destroy VkCall.vkDestroyDescriptorSetLayout
        (fun a b hab => by injection hab),
      count_map_other VkCall.vkDestroyPipeline _ (fun _ hc => by cases hc),
      count_map_other VkCall.vkDestroyPipelineLayout _ (fun _ hc => by cases hc)]
    simp
  refine ⟨by rw [destroy_trace], by simp [destroyCalls, Nat.add_assoc], hP, hL, hD, ?_, ?_⟩
  · intro hi
    refine ⟨?_, ?_, ?_⟩
    · intro e he
      rw [hP]
      exact List.count_eq_one_of_mem hi.pipelines.1 (List.mem_map.mpr ⟨e, he, rfl⟩)
    · intro e he
      rw [hL]
      exact List.count_eq_one_of_mem hi.pipLayouts.1 (List.mem_map.mpr ⟨e, he, rfl⟩)
    · intro e he
      rw [hD]
      exact List.count_eq_one_of_mem hi.descSetLayouts.1 (List.mem_map.mpr ⟨e, he, rfl⟩)
  · intro i j hi hj hdsl hpl
    by_contra hcon
    have hij : i ≤ j := Nat.le_of_not_lt hcon
    -- the first two blocks hold no descriptor-set-layout destroy call
    let pre := d.pipelineStash._pipelines.map (fun e => VkCall.vkDestroyPipeline e.2) ++
      d.pipelineStash._pipLayouts.map (fun e => VkCall.vkDestroyPipelineLayout e.2)
    let post := d.pipelineStash._descSetLayouts.map
      (fun e => VkCall.vkDestroyDescriptorSetLayout e.2)
    have hsplit : destroyCalls d = pre ++ post := rfl
    have hpre : ∀ c ∈ pre, c.isDestroyDescriptorSetLayout = false := by
      intro c hc
      rcases List.mem_append.mp hc with hc | hc <;>
        · obtain ⟨e, _, rfl⟩ := List.mem_map.mp hc
          rfl
    have hpost : ∀ c ∈ post,
        (c.isDestroyPipeline || c.isDestroyPipelineLayout) = false := by
      intro c hc
      obtain ⟨e, _, rfl⟩ := List.mem_map.mp hc
      rfl
    have hi' : pre.length ≤ i := by
      by_contra hlt
      have hlt : i < pre.length := Nat.lt_of_not_le hlt
      have hget : (destroyCalls d).get ⟨i, hi⟩ = pre.get ⟨i, hlt⟩ := by
        simp only [List.get_eq_getElem, hsplit]
        exact List.getElem_append_left hlt
      rw [hget, hpre _ (List.get_mem _ _ _)] at hdsl
      cases hdsl
    have hj' : pre.length ≤ j := Nat.le_trans hi' hij
    have hjlen : j - pre.length < post.length := by
      have : (destroyCalls d).length = pre.length + post.length := by
        rw [hsplit, List.length_append]
      omega
    have hget : (destroyCalls d).get ⟨j, hj⟩ = post.get ⟨j - pre.length, hjlen⟩ := by
      simp only [List.get_eq_getElem, hsplit]
      exact List.getElem_append_right hj'
    rw [hget, hpost _ (List.get_mem _ _ _)] at hpl
    cases hpl


theorem demoDevice_reachable : Reachable demoCfg demoDevice :=
  @Reachable.pipeline demoCfg Device.init demoDevice 4 demoInfo Reachable.init (by decide)

/-- Witness for C6: in the device that holds the example pipeline, the pipeline
handle 4 is destroyed exactly once. -/
theorem stash_destruction_witness :
    Inv demoDevice ∧ (destroyCalls demoDevice).count (.vkDestroyPipeline 4) = 1 :=
  ⟨Reachable.inv demoCfg (fun _ => rfl) demoDevice demoDevice_reachable,
    ((stash_destruction demoDevice).2.2.2.2.2.1
      (Reachable.inv demoCfg (fun _ => rfl) demoDevice demoDevice_reachable)).1
      (demoInfo, 4) (by decide)⟩

/-- C7: for every device state and descriptor-set-layout descriptions `L1 == L2`,
`findOrAllocate(L1)` followed by `findOrAllocate(L2)` returns twice the same
descriptor set, the second call leaves the device, its trace included, unchanged,
and the two calls issue at most one `vkAllocateDescriptorSets`. -/
theorem descriptor_set_reuse (cfg : Cfg) (hna : NoAbort cfg) (d : Device)
    (L1 L2 : DescriptorSetLayoutInfo) (heq : L1.opEq L2 = true) :
    ∃ h d1, DescriptorPool.findOrAllocate cfg L1 d = some (h, d1) ∧
      DescriptorPool.findOrAllocate cfg L2 d1 = some (h, d1) ∧
      countCalls VkCall.isAllocateDescriptorSets d1.trace ≤
        countCalls VkCall.isAllocateDescriptorSets d.trace + 1 := by
  have h12 : L2 = L1 := ((opEq_iff_DescriptorSetLayoutInfo _ _).mp heq).symm
  subst h12
  cases hf : cacheFind DescriptorSetLayoutInfo.opEq d.descPool._descSets L2 with
  | some v =>
    have hit := findOrAllocate_hit cfg L2 d v hf
    exact ⟨v, d, hit, hit, Nat.le_succ _⟩
  | none =>
    obtain ⟨dsl, d1, hn⟩ := findOrCreateDescSetLayout_total cfg hna L2 d
    refine ⟨_, _, findOrAllocate_miss cfg L2 d d1 dsl hf hn (hna.at _), ?_, ?_⟩
    · apply findOrAllocate_hit
      have hfr := (findOrCreateDescSetLayout_pipLayouts cfg _ d d1 dsl hn).2.2.2.2.1
      have hf1 : cacheFind DescriptorSetLayoutInfo.opEq d1.descPool._descSets L2 = none := by
        rw [hfr]; exact hf
      exact cacheFind_after_insert_self _ opEq_iff_DescriptorSetLayoutInfo _ _ _ hf1
    · obtain ⟨ext, he, hall⟩ := findOrCreateDescSetLayout_trace cfg _ d d1 dsl hn
      have h1 : countCalls VkCall.isAllocateDescriptorSets d1.trace =
          countCalls VkCall.isAllocateDescriptorSets d.trace := by
        rw [he]
        exact countCalls_append_none _ _ _
          (fun c hc => (VkCall.not_pipLayout_of_descSetLayout c (hall c hc)).2.2)
      rw [← h1]
      exact Nat.le_of_eq (countCalls_append_one _ _ _ rfl)

/-- Witness for C7: the uniform-buffer layout of the example, allocated on the
device that holds the example pipeline. -/
theorem descriptor_set_reuse_witness :
    ∃ h d1, DescriptorPool.findOrAllocate demoCfg demoInfo.pipLayout.descSetLayout
        demoDevice = some (h, d1) ∧
      DescriptorPool.findOrAllocate demoCfg demoInfo.pipLayout.descSetLayout d1 =
        some (h, d1) ∧
      countCalls VkCall.isAllocateDescriptorSets d1.trace ≤
        countCalls VkCall.isAllocateDescriptorSets demoDevice.trace + 1 :=
  descriptor_set_reuse demoCfg (Or.inl rfl) demoDevice _ _ (by decide)


/-! ## The command buffer -/

/-- C8, counterexample: on a command buffer that was seized and on which
`startRecording` was never called, `submit` issues a queue submission and sets the
was-submitted flag. -/
theorem submit_without_recording_submits :
    seizedOnce.bind (fun r => (CommandBuffer.submit demoCfg r.1 r.2).map
      (fun r2 => (r.1._isRecording, r.1._wasSubmitted, r2.1._wasSubmitted,
        r2.2.trace.drop r.2.trace.length))) =
      some (false, false, true, [.vkQueueSubmit 100 ⟨[1], [], [32768], []⟩ 2]) := by
  decide

/-- C8, amended: `submit` does not consult the recording state.  It is rejected,
issuing no queue submission and leaving the command buffer and the device
unchanged, only when no queue is found for the family of its pool (release
build); when the queue is found it issues the queue submission, after a fence wait
and reset if the buffer was submitted before, sets the was-submitted flag and
empties both semaphore lists, whether or not `startRecording` was ever called. -/
theorem submit_rejected_only_without_queue (cfg : Cfg) (cb : CommandBuffer) (d : Device)
    (pool : CommandPool) (hdev : cb._device = true) (hpool : cb._pool = some pool) :
    (cfg.getQueueFromFamily pool.getFamilyIndex = none → cfg.debug = false →
      CommandBuffer.submit cfg cb d = some (cb, d)) ∧
    (∀ queue, cfg.getQueueFromFamily pool.getFamilyIndex = some queue →
      ∃ d1, CommandBuffer.submit cfg cb d =
          some ({ cb with _wasSubmitted := true, _semsToWait := [], _semsToSignal := [] },
            d1) ∧
        d1.trace = d.trace ++
          (if cb._wasSubmitted then
            [.vkWaitForFences cb._vkFence 0, .vkResetFences cb._vkFence] else []) ++
          [.vkQueueSubmit queue
            ⟨[cb._vkCmdBuffer], cb._semsToWait, [VK_PIPELINE_STAGE_ALL_GRAPHICS_BIT],
              cb._semsToSignal⟩ cb._vkFence]) ∧
    (∀ b : Bool, CommandBuffer.submit cfg { cb with _isRecording := b } d =
      (CommandBuffer.submit cfg cb d).map (fun r => ({ r.1 with _isRecording := b }, r.2))) := by
  refine ⟨?_, ?_, ?_⟩
  · intro hq hdbg
    simp [CommandBuffer.submit, hdev, hpool, hq, CYDASSERT, hdbg]
  · intro queue hq
    cases hws : cb._wasSubmitted
    · refine ⟨_, by simp [CommandBuffer.submit, hdev, hpool, hq, hws]; rfl, ?_⟩
      simp only [vkQueueSubmit, vkCall]
      split <;> simp
    · have hw : ∃ r dw, vkWaitForFences cfg cb._vkFence 0 d = some (r, dw) ∧
          dw.trace = d.trace ++ [.vkWaitForFences cb._vkFence 0] := by
        unfold vkWaitForFences
        by_cases hs : cb._vkFence ∈ d.signaled
        · exact ⟨true, _, by simp [hs]; rfl, by simp [vkCall]⟩
        · exact ⟨false, _, by simp [hs]; rfl, by simp [vkCall]⟩
      obtain ⟨r, dw, hwe, hwt⟩ := hw
      refine ⟨_, by simp [CommandBuffer.submit, hdev, hpool, hq, hws, hwe]; rfl, ?_⟩
      simp only [vkQueueSubmit, vkResetFences, vkCall, hwt]
      split <;> simp
  · intro b
    simp only [CommandBuffer.submit, hdev, hpool]
    cases hq : cfg.getQueueFromFamily pool.getFamilyIndex with
    | none =>
      cases hc : CYDASSERT cfg false <;> simp [hdev, hpool]
    | some queue =>
      simp only []
      cases hws : cb._wasSubmitted
      · simp [hdev, hpool]
      · simp only [if_true]
        cases hw : vkWaitForFences cfg cb._vkFence 0 d with
        | none => simp
        | some r => simp [hdev, hpool]


/-- Witness for C8 (amended): the seized command buffer, never recorded, with the
queue 100 of its family. -/
theorem submit_rejected_only_without_queue_witness :
    ∃ d1, CommandBuffer.submit demoCfg seizedBuffer seizedDevice =
        some ({ seizedBuffer with
            _wasSubmitted := true, _semsToWait := [], _semsToSignal := [] }, d1) ∧
      d1.trace = seizedDevice.trace ++
        (if seizedBuffer._wasSubmitted then
          [.vkWaitForFences seizedBuffer._vkFence 0, .vkResetFences seizedBuffer._vkFence]
          else []) ++
        [.vkQueueSubmit 100
          ⟨[seizedBuffer._vkCmdBuffer], seizedBuffer._semsToWait,
            [VK_PIPELINE_STAGE_ALL_GRAPHICS_BIT], seizedBuffer._semsToSignal⟩
          seizedBuffer._vkFence] :=
  (submit_rejected_only_without_queue demoCfg seizedBuffer seizedDevice demoPool rfl rfl).2.1
    100 rfl

/-- C9, counterexample: on the command buffer that `seize` yields, which is not
recording, `bindVertexBuffer` records its bind command, `bindPipeline` records its bind
command and sets the bound pipeline, layout and render pass, and a following
`bindTexture` records a barrier and a bind command and sets the layout of the
texture. -/
theorem bind_while_not_recording_binds :
    seizedOnce = some (seizedBuffer, seizedDevice) ∧
    seizedBuffer._isRecording = false ∧
    (CommandBuffer.bindVertexBuffer demoBuffer seizedBuffer seizedDevice).trace =
      seizedDevice.trace ++ [.vkCmdBindVertexBuffers 1 70] ∧
    (CommandBuffer.bindPipeline demoCfg demoInfo seizedBuffer seizedDevice).map
        (fun r => (r.1._isRecording, r.1._boundPip, r.1._boundPipLayout, r.1._boundRenderPass,
          r.2.trace.getLast?)) =
      some (false, some 6, some 5, some 3, some (.vkCmdBindPipeline 1 6)) ∧
    (CommandBuffer.bindPipeline demoCfg demoInfo seizedBuffer seizedDevice).bind
        (fun r => (CommandBuffer.bindTexture demoCfg demoTexture r.1 r.2).map
          (fun r2 => (demoTexture.getLayout, r2.1.getLayout,
            r2.2.trace.drop r.2.trace.length))) =
      some (.TRANSFER_DST, .SHADER_READ,
        [.vkCmdPipelineBarrier 1 4096 128 ⟨7, 5, 80, 4096, 32⟩,
          .vkCmdBindDescriptorSets 1 5 81]) := by
  refine ⟨?_, rfl, ?_, ?_, ?_⟩ <;> decide

/-- C9, amended: no bind operation consults the recording flag.  `bindBuffer` and
`bindTexture` are rejected (no command recorded, device and texture unchanged, in
a release build) exactly when no pipeline layout is bound, which is the case
right after `endRecording`; `bindVertexBuffer` and `bindIndexBuffer` always record
their bind command; and the result of each of the five operations is the same
whether the recording flag is set or not. -/
theorem bind_rejected_only_without_layout (cfg : Cfg) (cb : CommandBuffer) (d : Device) :
    (cb._boundPipLayout = none → cfg.debug = false →
      (∀ buffer, CommandBuffer.bindBuffer cfg buffer cb d = some d) ∧
      (∀ texture, CommandBuffer.bindTexture cfg texture cb d = some (texture, d))) ∧
    (cb._isRecording = true → cfg.debug = false →
      ∃ cb1 d1, CommandBuffer.endRecording cfg cb d = some (cb1, d1) ∧
        cb1._isRecording = false ∧
        (∀ buffer, CommandBuffer.bindBuffer cfg buffer cb1 d1 = some d1) ∧
        (∀ texture, CommandBuffer.bindTexture cfg texture cb1 d1 = some (texture, d1))) ∧
    (∀ layout, cb._boundPipLayout = some layout →
      (∀ buffer, CommandBuffer.bindBuffer cfg buffer cb d =
        some (vkCall (.vkCmdBindDescriptorSets cb._vkCmdBuffer layout buffer.getVKDescSet) d)) ∧
      (∀ texture, ∃ d1, CommandBuffer.bindTexture cfg texture cb d =
        some ({ texture with getLayout := ImageLayout.SHADER_READ }, d1) ∧
        (d1.trace.getLast? =
          some (.vkCmdBindDescriptorSets cb._vkCmdBuffer layout texture.getVKDescSet)))) ∧
    (∀ vertexBuffer, (CommandBuffer.bindVertexBuffer vertexBuffer cb d).trace =
      d.trace ++ [.vkCmdBindVertexBuffers cb._vkCmdBuffer vertexBuffer.getVKBuffer]) ∧
    (∀ indexBuffer, (CommandBuffer.bindIndexBuffer16 indexBuffer cb d).trace =
      d.trace ++ [.vkCmdBindIndexBuffer cb._vkCmdBuffer indexBuffer.getVKBuffer 16]) ∧
    (∀ indexBuffer, (CommandBuffer.bindIndexBuffer32 indexBuffer cb d).trace =
      d.trace ++ [.vkCmdBindIndexBuffer cb._vkCmdBuffer indexBuffer.getVKBuffer 32]) ∧
    (∀ (b : Bool),
      (∀ info, CommandBuffer.bindPipeline cfg info { cb with _isRecording := b } d =
        (CommandBuffer.bindPipeline cfg info cb d).map
          (fun r => ({ r.1 with _isRecording := b }, r.2))) ∧
      (∀ buffer, CommandBuffer.bindBuffer cfg buffer { cb with _isRecording := b } d =
        CommandBuffer.bindBuffer cfg buffer cb d) ∧
      (∀ texture, CommandBuffer.bindTexture cfg texture { cb with _isRecording := b } d =
        CommandBuffer.bindTexture cfg texture cb d) ∧
      (∀ buffer, CommandBuffer.bindVertexBuffer buffer { cb with _isRecording := b } d =
        CommandBuffer.bindVertexBuffer buffer cb d) ∧
      (∀ buffer, CommandBuffer.bindIndexBuffer16 buffer { cb with _isRecording := b } d =
        CommandBuffer.bindIndexBuffer16 buffer cb d) ∧
      (∀ buffer, CommandBuffer.bindIndexBuffer32 buffer { cb with _isRecording := b } d =
        CommandBuffer.bindIndexBuffer32 buffer cb d)) := by
  refine ⟨?_, ?_, ?_, ?_, ?_, ?_, ?_⟩
  · intro hl hdbg
    exact ⟨fun buffer => by simp [CommandBuffer.bindBuffer, hl, CYDASSERT, hdbg],
      fun texture => by simp [CommandBuffer.bindTexture, hl, CYDASSERT, hdbg]⟩
  · intro hrec hdbg
    refine ⟨{ cb with
        _boundPip := none, _boundPipLayout := none, _boundRenderPass := none,
        _boundPipInfo := none, _isRecording := false },
      vkCall (.vkEndCommandBuffer cb._vkCmdBuffer) d,
      by simp [CommandBuffer.endRecording, hrec, CYDASSERT, hdbg], rfl, ?_, ?_⟩
    · intro buffer; simp [CommandBuffer.bindBuffer, CYDASSERT, hdbg]
    · intro texture; simp [CommandBuffer.bindTexture, CYDASSERT, hdbg]
  · intro layout hl
    refine ⟨fun buffer => by simp [CommandBuffer.bindBuffer, hl], ?_⟩
    intro texture
    by_cases hsr : texture.getLayout = ImageLayout.SHADER_READ
    · refine ⟨vkCall (.vkCmdBindDescriptorSets cb._vkCmdBuffer layout texture.getVKDescSet) d,
        ?_, by simp [vkCall]⟩
      have ht : { texture with getLayout := ImageLayout.SHADER_READ } = texture := by
        cases texture; simp_all
      rw [ht]
      simp [CommandBuffer.bindTexture, hl, hsr]
    · refine ⟨vkCall (.vkCmdBindDescriptorSets cb._vkCmdBuffer layout texture.getVKDescSet)
        (vkCall (.vkCmdPipelineBarrier cb._vkCmdBuffer VK_PIPELINE_STAGE_TRANSFER_BIT
          VK_PIPELINE_STAGE_FRAGMENT_SHADER_BIT
          ⟨cfg.cydImageLayoutToVKImageLayout texture.getLayout,
            VK_IMAGE_LAYOUT_SHADER_READ_ONLY_OPTIMAL, texture.getVKImage,
            VK_ACCESS_TRANSFER_WRITE_BIT, VK_ACCESS_SHADER_READ_BIT⟩) d),
        ?_, by simp [vkCall]⟩
      simp [CommandBuffer.bindTexture, hl, hsr]
  · intro vb; simp [CommandBuffer.bindVertexBuffer, vkCall]
  · intro ib; simp [CommandBuffer.bindIndexBuffer16, vkCall]
  · intro ib; simp [CommandBuffer.bindIndexBuffer32, vkCall]
  · intro b
    refine ⟨?_, fun _ => rfl, fun _ => rfl, fun _ => rfl, fun _ => rfl, fun _ => rfl⟩
    intro info
    simp only [CommandBuffer.bindPipeline]
    cases hdev : cb._device
    · simp
    · simp only [Bool.not_true, Bool.false_eq_true, if_false]
      cases h1 : PipelineStash.findOrCreatePipeline cfg info d with
      | none => simp
      | some r1 =>
        obtain ⟨pipeline, d1⟩ := r1
        simp only []
        cases h2 : PipelineStash.findOrCreatePipLayout cfg info.pipLayout d1 with
        | none => simp
        | some r2 =>
          obtain ⟨pipLayout, d2⟩ := r2
          simp only []
          cases h3 : RenderPassStash.findOrCreate cfg info.renderPass d2 with
          | none => simp
          | some r3 =>
            obtain ⟨renderPass, d3⟩ := r3
            simp only []
            split
            · cases hc : CYDASSERT cfg false <;> simp [hdev]
            · simp [hdev]

/-- Witness for C9 (amended): a recording command buffer with a bound pipeline
layout; after `endRecording`, `bindBuffer` and `bindTexture` are rejected. -/
theorem bind_rejected_only_without_layout_witness :
    ∃ cb1 d1,
      CommandBuffer.endRecording demoCfg
          { seizedBuffer with _isRecording := true, _boundPipLayout := some 5 }
          seizedDevice = some (cb1, d1) ∧
        cb1._isRecording = false ∧
        CommandBuffer.bindBuffer demoCfg demoBuffer cb1 d1 = some d1 ∧
        CommandBuffer.bindTexture demoCfg demoTexture cb1 d1 = some (demoTexture, d1) := by
  obtain ⟨cb1, d1, h1, h2, h3, h4⟩ :=
    (bind_rejected_only_without_layout demoCfg
      { seizedBuffer with _isRecording := true, _boundPipLayout := some 5 }
      seizedDevice).2.1 rfl rfl
  exact ⟨cb1, d1, h1, h2, h3 demoBuffer, h4 demoTexture⟩

/-- C10, at the failing input: a command buffer submitted once whose fence is
pending and not signalled.  The wait of the second `submit` has a zero timeout and
returns at once without success; the fence reset and the new queue submission are
issued all the same, with the fence still unsignalled.  `waitForCompletion`, which
waits with `UINT64_MAX`, returns on the same state only with the fence signalled. -/
theorem resubmit_does_not_wait :
    submittedOnce.map (fun r => (r.1._wasSubmitted, decide (r.1._vkFence ∈ r.2.signaled),
      decide (r.1._vkFence ∈ r.2.pending))) = some (true, false, true) ∧
    submittedOnce.bind (fun r => (vkWaitForFences demoCfg r.1._vkFence 0 r.2).map
      (fun w => (w.1, decide (r.1._vkFence ∈ w.2.signaled)))) = some (false, false) ∧
    submittedOnce.bind (fun r => (CommandBuffer.submit demoCfg r.1 r.2).map
      (fun r2 => (r2.2.trace.drop r.2.trace.length, decide (r.1._vkFence ∈ r2.2.signaled)))) =
      some ([.vkWaitForFences 2 0, .vkResetFences 2,
        .vkQueueSubmit 100 ⟨[1], [], [32768], []⟩ 2], false) ∧
    submittedOnce.bind (fun r => (CommandBuffer.waitForCompletion demoCfg r.1 r.2).map
      (fun d1 => (d1.trace.drop r.2.trace.length, decide (r.1._vkFence ∈ d1.signaled)))) =
      some ([.vkWaitForFences 2 18446744073709551615], true) := by
  refine ⟨?_, ?_, ?_, ?_⟩ <;> decide


/-! ## Fences, recording state, release -/

theorem vkWaitForFences_signaled (cfg : Cfg) (fence : Handle) (timeout : Nat) (d d1 : Device)
    (r : Bool) (h : vkWaitForFences cfg fence timeout d = some (r, d1)) (hr : r = true) :
    fence ∈ d1.signaled := by
  unfold vkWaitForFences at h
  by_cases hs : fence ∈ d.signaled
  · simp only [hs, if_true, Option.some.injEq, Prod.mk.injEq] at h
    rw [← h.2]; simpa [vkCall] using hs
  · simp only [hs, if_false] at h
    by_cases ht : timeout = 0
    · simp only [ht, if_true, Option.some.injEq, Prod.mk.injEq] at h
      rw [hr] at h; exact absurd h.1 (by simp)
    · simp only [ht, if_false] at h
      by_cases hp : fence ∈ d.pending
      · simp only [hp, if_true] at h
        split at h
        · simp only [Option.some.injEq, Prod.mk.injEq] at h
          rw [← h.2]
          simp [gpuCompletes, vkCall, hp]
        · simp only [Option.some.injEq, Prod.mk.injEq] at h
          rw [hr] at h; exact absurd h.1 (by simp)
      · simp only [hp, if_false] at h
        split at h
        · cases h
        · simp only [Option.some.injEq, Prod.mk.injEq] at h
          rw [hr] at h; exact absurd h.1 (by simp)

theorem vkWaitForFences_forever (cfg : Cfg) (fence : Handle) (d d1 : Device)
    (r : Bool) (h : vkWaitForFences cfg fence UINT64_MAX d = some (r, d1)) : r = true := by
  unfold vkWaitForFences at h
  by_cases hs : fence ∈ d.signaled
  · simp only [hs, if_true, Option.some.injEq, Prod.mk.injEq] at h
    exact h.1.symm
  · have ht : ¬ (UINT64_MAX = 0) := by decide
    simp only [hs, if_false, ht] at h
    by_cases hp : fence ∈ d.pending
    · simp only [hp, if_true, beq_self_eq_true, Bool.true_or, decide_True, decide_eq_true_eq,
        Option.some.injEq, Prod.mk.injEq] at h
      exact h.1.symm
    · simp [hp] at h

/-- C11: whenever `waitForCompletion` returns, an `isCompleted` that follows it
returns true; `waitForCompletion` does return when the command buffer has a
device and its fence is signalled or pending; and neither call changes a field of
the command buffer. -/
theorem wait_then_completed (cfg : Cfg) (cb : CommandBuffer) (d : Device) :
    (∀ d1, cb.waitForCompletion cfg d = some d1 →
      ∃ d2, cb.isCompleted d1 = some (true, d2)) ∧
    (cb._device = true → (cb._vkFence ∈ d.signaled ∨ cb._vkFence ∈ d.pending) →
      ∃ d1 d2, cb.waitForCompletion cfg d = some d1 ∧
        cb.isCompleted d1 = some (true, d2)) ∧
    (∀ cb1 d1, cb.step cfg .waitForCompletion d = some (cb1, d1) → cb1 = cb) ∧
    (∀ cb1 d1, cb.step cfg .isCompleted d = some (cb1, d1) → cb1 = cb) := by
  have key : ∀ d1, cb.waitForCompletion cfg d = some d1 →
      ∃ d2, cb.isCompleted d1 = some (true, d2) := by
    intro d1 h
    unfold CommandBuffer.waitForCompletion at h
    cases hdev : cb._device
    · simp [hdev] at h
    · simp only [hdev, if_true] at h
      cases hw : vkWaitForFences cfg cb._vkFence UINT64_MAX d with
      | none => simp [hw] at h
      | some r =>
        obtain ⟨r, dw⟩ := r
        simp only [hw, Option.some.injEq] at h
        subst h
        have hr := vkWaitForFences_forever cfg _ _ _ _ hw
        have hs := vkWaitForFences_signaled cfg _ _ _ _ _ hw hr
        exact ⟨vkCall (.vkGetFenceStatus cb._vkFence) dw,
          by simp [CommandBuffer.isCompleted, hdev, vkGetFenceStatus, hs]⟩
  refine ⟨key, ?_, ?_, ?_⟩
  · intro hdev hf
    have hret : ∃ d1, cb.waitForCompletion cfg d = some d1 := by
      unfold CommandBuffer.waitForCompletion vkWaitForFences
      by_cases hs : cb._vkFence ∈ d.signaled
      · simp [hdev, hs]
      · have hp : cb._vkFence ∈ d.pending := hf.resolve_left hs
        have ht : ¬ (UINT64_MAX = 0) := by decide
        simp [hdev, hs, hp, ht]
    obtain ⟨d1, h1⟩ := hret
    obtain ⟨d2, h2⟩ := key d1 h1
    exact ⟨d1, d2, h1, h2⟩
  · intro cb1 d1 h
    simp only [CommandBuffer.step, Option.map_eq_some'] at h
    obtain ⟨_, _, h2⟩ := h
    exact (congrArg Prod.fst h2).symm
  · intro cb1 d1 h
    simp only [CommandBuffer.step, Option.map_eq_some'] at h
    obtain ⟨_, _, h2⟩ := h
    exact (congrArg Prod.fst h2).symm

/-- Witness for C11: the command buffer submitted once, its fence pending. -/
theorem wait_then_completed_witness :
    ∃ d1 d2,
      CommandBuffer.waitForCompletion demoCfg
          { seizedBuffer with _wasSubmitted := true }
          (vkQueueSubmit 100 ⟨[1], [], [32768], []⟩ 2 seizedDevice) = some d1 ∧
        CommandBuffer.isCompleted { seizedBuffer with _wasSubmitted := true } d1 =
          some (true, d2) :=
  (wait_then_completed demoCfg { seizedBuffer with _wasSubmitted := true }
    (vkQueueSubmit 100 ⟨[1], [], [32768], []⟩ 2 seizedDevice)).2.1 rfl
      (Or.inr (by decide))

/-- C16: `startRecording` on a command buffer that is already recording issues no
begin call and leaves the command buffer and the device as they are (release
build; a debug build aborts); on a command buffer that is not recording it
issues the begin call, sets the recording flag and changes no other field. -/
theorem startRecording_guard (cfg : Cfg) (cb : CommandBuffer) (d : Device) :
    (cb._isRecording = true → cfg.debug = false → cb.startRecording cfg d = some (cb, d)) ∧
    (cb._isRecording = true → cfg.debug = true → cb.startRecording cfg d = none) ∧
    (cb._isRecording = false →
      (cfg.debug = false ∨ cfg.recordSucceeds d.trace.length = true) →
      cb.startRecording cfg d =
        some ({ cb with _isRecording := true },
          { d with trace := d.trace ++ [.vkBeginCommandBuffer cb._vkCmdBuffer] })) := by
  refine ⟨?_, ?_, ?_⟩
  · intro hr hd
    simp [CommandBuffer.startRecording, hr, CYDASSERT, hd]
  · intro hr hd
    simp [CommandBuffer.startRecording, hr, CYDASSERT, hd]
  · intro hr hok
    simp [CommandBuffer.startRecording, hr, CYDASSERT_ok cfg _ hok, vkCall]

/-- Witness for C16: the seized command buffer, which is not recording, and the
same buffer once it records. -/
theorem startRecording_guard_witness :
    CommandBuffer.startRecording demoCfg seizedBuffer seizedDevice =
        some ({ seizedBuffer with _isRecording := true },
          { seizedDevice with
            trace := seizedDevice.trace ++ [.vkBeginCommandBuffer seizedBuffer._vkCmdBuffer] }) ∧
      CommandBuffer.startRecording demoCfg { seizedBuffer with _isRecording := true }
          seizedDevice =
        some ({ seizedBuffer with _isRecording := true }, seizedDevice) :=
  ⟨(startRecording_guard demoCfg seizedBuffer seizedDevice).2.2 rfl (Or.inl rfl),
    (startRecording_guard demoCfg { seizedBuffer with _isRecording := true }
      seizedDevice).1 rfl rfl⟩

/-- C17: `endRecording` on a recording command buffer issues the end call, clears
the recording flag, the bound pipeline, the bound pipeline layout, the bound
render pass and the bound pipeline info, and changes no other field; on a command
buffer that is not recording it issues no end call and leaves the command buffer
and the device as they are (release build; a debug build aborts). -/
theorem endRecording_clears (cfg : Cfg) (cb : CommandBuffer) (d : Device) :
    (cb._isRecording = true →
      (cfg.debug = false ∨ cfg.recordSucceeds d.trace.length = true) →
      cb.endRecording cfg d =
        some ({ cb with
            _isRecording := false, _boundPip := none, _boundPipLayout := none,
            _boundRenderPass := none, _boundPipInfo := none },
          { d with trace := d.trace ++ [.vkEndCommandBuffer cb._vkCmdBuffer] })) ∧
    (cb._isRecording = false → cfg.debug = false → cb.endRecording cfg d = some (cb, d)) ∧
    (cb._isRecording = false → cfg.debug = true → cb.endRecording cfg d = none) := by
  refine ⟨?_, ?_, ?_⟩
  · intro hr hok
    simp [CommandBuffer.endRecording, hr, CYDASSERT_ok cfg _ hok, vkCall]
  · intro hr hd
    simp [CommandBuffer.endRecording, hr, CYDASSERT, hd]
  · intro hr hd
    simp [CommandBuffer.endRecording, hr, CYDASSERT, hd]

/-- Witness for C17: a recording command buffer with a pipeline bound. -/
theorem endRecording_clears_witness :
    CommandBuffer.endRecording demoCfg
        { seizedBuffer with
          _isRecording := true, _boundPip := some 6, _boundPipLayout := some 5,
          _boundRenderPass := some 3, _boundPipInfo := some demoInfo }
        seizedDevice =
      some (seizedBuffer,
        { seizedDevice with
          trace := seizedDevice.trace ++ [.vkEndCommandBuffer seizedBuffer._vkCmdBuffer] }) :=
  (endRecording_clears demoCfg
    { seizedBuffer with
      _isRecording := true, _boundPip := some 6, _boundPipLayout := some 5,
      _boundRenderPass := some 3, _boundPipInfo := some demoInfo }
    seizedDevice).1 rfl (Or.inl rfl)

/-- C12: with a pipeline layout bound and a texture whose tracked layout is not
`SHADER_READ`, `bindTexture` records exactly one barrier, from the conversion of
the tracked layout to shader-read-only, before the descriptor-set bind, and sets
the tracked layout to `SHADER_READ`; a `bindTexture` of the same texture right
after records the bind alone and leaves the texture as it is. -/
theorem bindTexture_converges (cfg : Cfg) (cb : CommandBuffer) (d : Device)
    (texture : Texture) (layout : Handle) (hl : cb._boundPipLayout = some layout)
    (hne : texture.getLayout ≠ ImageLayout.SHADER_READ) :
    ∃ t1 d1 d2,
      cb.bindTexture cfg texture d = some (t1, d1) ∧
      t1 = { texture with getLayout := ImageLayout.SHADER_READ } ∧
      d1.trace = d.trace ++
        [.vkCmdPipelineBarrier cb._vkCmdBuffer VK_PIPELINE_STAGE_TRANSFER_BIT
            VK_PIPELINE_STAGE_FRAGMENT_SHADER_BIT
            ⟨cfg.cydImageLayoutToVKImageLayout texture.getLayout,
              VK_IMAGE_LAYOUT_SHADER_READ_ONLY_OPTIMAL, texture.getVKImage,
              VK_ACCESS_TRANSFER_WRITE_BIT, VK_ACCESS_SHADER_READ_BIT⟩,
          .vkCmdBindDescriptorSets cb._vkCmdBuffer layout texture.getVKDescSet] ∧
      countCalls VkCall.isPipelineBarrier d1.trace =
        countCalls VkCall.isPipelineBarrier d.trace + 1 ∧
      cb.bindTexture cfg t1 d1 = some (t1, d2) ∧
      d2.trace = d1.trace ++
        [.vkCmdBindDescriptorSets cb._vkCmdBuffer layout texture.getVKDescSet] ∧
      countCalls VkCall.isPipelineBarrier d2.trace =
        countCalls VkCall.isPipelineBarrier d1.trace := by
  refine ⟨{ texture with getLayout := ImageLayout.SHADER_READ },
    vkCall (.vkCmdBindDescriptorSets cb._vkCmdBuffer layout texture.getVKDescSet)
      (vkCall (.vkCmdPipelineBarrier cb._vkCmdBuffer VK_PIPELINE_STAGE_TRANSFER_BIT
        VK_PIPELINE_STAGE_FRAGMENT_SHADER_BIT
        ⟨cfg.cydImageLayoutToVKImageLayout texture.getLayout,
          VK_IMAGE_LAYOUT_SHADER_READ_ONLY_OPTIMAL, texture.getVKImage,
          VK_ACCESS_TRANSFER_WRITE_BIT, VK_ACCESS_SHADER_READ_BIT⟩) d),
    vkCall (.vkCmdBindDescriptorSets cb._vkCmdBuffer layout texture.getVKDescSet)
      (vkCall (.vkCmdBindDescriptorSets cb._vkCmdBuffer layout texture.getVKDescSet)
        (vkCall (.vkCmdPipelineBarrier cb._vkCmdBuffer VK_PIPELINE_STAGE_TRANSFER_BIT
          VK_PIPELINE_STAGE_FRAGMENT_SHADER_BIT
          ⟨cfg.cydImageLayoutToVKImageLayout texture.getLayout,
            VK_IMAGE_LAYOUT_SHADER_READ_ONLY_OPTIMAL, texture.getVKImage,
            VK_ACCESS_TRANSFER_WRITE_BIT, VK_ACCESS_SHADER_READ_BIT⟩) d)),
    ?_, rfl, ?_, ?_, ?_, rfl, ?_⟩
  · simp [CommandBuffer.bindTexture, hl, hne]
  · simp [vkCall]
  · simp [vkCall, countCalls, List.countP_append, VkCall.isPipelineBarrier, List.countP_cons]
  · simp [CommandBuffer.bindTexture, hl]
  · simp [vkCall, countCalls, List.countP_append, VkCall.isPipelineBarrier, List.countP_cons]

/-- Witness for C12: the example texture, last written by a transfer, on a command
buffer with pipeline layout 5 bound. -/
theorem bindTexture_converges_witness :
    ∃ t1 d1 d2,
      CommandBuffer.bindTexture demoCfg demoTexture
          { seizedBuffer with _boundPipLayout := some 5 } seizedDevice = some (t1, d1) ∧
        t1.getLayout = ImageLayout.SHADER_READ ∧
        countCalls VkCall.isPipelineBarrier d1.trace =
          countCalls VkCall.isPipelineBarrier seizedDevice.trace + 1 ∧
        CommandBuffer.bindTexture demoCfg t1
          { seizedBuffer with _boundPipLayout := some 5 } d1 = some (t1, d2) ∧
        countCalls VkCall.isPipelineBarrier d2.trace =
          countCalls VkCall.isPipelineBarrier d1.trace := by
  obtain ⟨t1, d1, d2, h1, h2, _, h4, h5, _, h7⟩ :=
    bindTexture_converges demoCfg { seizedBuffer with _boundPipLayout := some 5 }
      seizedDevice demoTexture 5 rfl (by decide)
  exact ⟨t1, d1, d2, h1, by rw [h2], h4, h5, h7⟩


/-! ## What each call may change of the command buffer -/

theorem seize_shape (cfg : Cfg) (pool : CommandPool) (usage : Nat) (cb cb1 : CommandBuffer)
    (d d1 : Device) (h : cb.seize cfg pool usage d = some (cb1, d1)) :
    ∃ x y, cb1 = { cb with
      _device := true, _pool := some pool, _usage := usage, _vkCmdBuffer := x, _vkFence := y } := by
  unfold CommandBuffer.seize at h
  simp only [vkCreate_eq] at h
  cases ha : CYDASSERT cfg (cfg.succeeds d.issued) with
  | none => simp [ha] at h
  | some u =>
    simp only [ha] at h
    cases hb : CYDASSERT cfg (cfg.succeeds (d.issued + 1)) with
    | none => simp [hb] at h
    | some v =>
      simp only [hb, Option.some.injEq, Prod.mk.injEq] at h
      obtain ⟨h1, _⟩ := h
      subst h1
      cases cfg.succeeds d.issued <;> cases cfg.succeeds (d.issued + 1) <;>
        exact ⟨_, _, rfl⟩

theorem release_shape (cb cb1 : CommandBuffer) (d d1 : Device)
    (h : cb.release d = some (cb1, d1)) :
    (cb._device = false ∧ cb1 = cb ∧ d1 = d) ∨
    (cb._device = true ∧ cb1 = CommandBuffer.unallocated ∧
      ∃ pool, cb._pool = some pool ∧
        d1 = { d with trace := d.trace ++
          [.vkDestroyFence cb._vkFence,
            .vkFreeCommandBuffers pool.getVKCommandPool cb._vkCmdBuffer] }) := by
  unfold CommandBuffer.release at h
  cases hdev : cb._device
  · simp only [hdev, Bool.false_eq_true, if_false, Option.some.injEq, Prod.mk.injEq] at h
    exact Or.inl ⟨rfl, h.1.symm, h.2.symm⟩
  · simp only [hdev, if_true] at h
    cases hp : cb._pool with
    | none => simp [hp] at h
    | some pool =>
      simp only [hp, Option.some.injEq, Prod.mk.injEq] at h
      refine Or.inr ⟨rfl, ?_, pool, rfl, ?_⟩
      · rw [← h.1]; rfl
      · rw [← h.2]; simp [vkCall]

theorem startRecording_shape (cfg : Cfg) (cb cb1 : CommandBuffer) (d d1 : Device)
    (h : cb.startRecording cfg d = some (cb1, d1)) :
    cb1 = cb ∨ cb1 = { cb with _isRecording := true } := by
  unfold CommandBuffer.startRecording at h
  split at h
  · cases hc : CYDASSERT cfg false with
    | none => simp [hc] at h
    | some u => simp only [hc, Option.some.injEq, Prod.mk.injEq] at h; exact Or.inl h.1.symm
  · cases hc : CYDASSERT cfg (cfg.recordSucceeds d.trace.length) with
    | none => simp [hc] at h
    | some u => simp only [hc, Option.some.injEq, Prod.mk.injEq] at h; exact Or.inr h.1.symm

theorem endRecording_shape (cfg : Cfg) (cb cb1 : CommandBuffer) (d d1 : Device)
    (h : cb.endRecording cfg d = some (cb1, d1)) :
    cb1 = cb ∨ cb1 = { cb with
      _boundPip := none, _boundPipLayout := none, _boundRenderPass := none,
      _boundPipInfo := none, _isRecording := false } := by
  unfold CommandBuffer.endRecording at h
  split at h
  · cases hc : CYDASSERT cfg false with
    | none => simp [hc] at h
    | some u => simp only [hc, Option.some.injEq, Prod.mk.injEq] at h; exact Or.inl h.1.symm
  · cases hc : CYDASSERT cfg (cfg.recordSucceeds d.trace.length) with
    | none => simp [hc] at h
    | some u => simp only [hc, Option.some.injEq, Prod.mk.injEq] at h; exact Or.inr h.1.symm

theorem bindPipeline_shape (cfg : Cfg) (info : PipelineInfo) (cb cb1 : CommandBuffer)
    (d d1 : Device) (h : cb.bindPipeline cfg info d = some (cb1, d1)) :
    cb1 = cb ∨ ∃ pipeline pipLayout renderPass, cb1 = { cb with
      _boundPip := some pipeline, _boundPipLayout := some pipLayout,
      _boundRenderPass := some renderPass, _boundPipInfo := some info } := by
  unfold CommandBuffer.bindPipeline at h
  split at h
  · cases h
  · cases h1 : PipelineStash.findOrCreatePipeline cfg info d with
    | none => simp [h1] at h
    | some r1 =>
      obtain ⟨pipeline, e1⟩ := r1
      simp only [h1] at h
      cases h2 : PipelineStash.findOrCreatePipLayout cfg info.pipLayout e1 with
      | none => simp [h2] at h
      | some r2 =>
        obtain ⟨pipLayout, e2⟩ := r2
        simp only [h2] at h
        cases h3 : RenderPassStash.findOrCreate cfg info.renderPass e2 with
        | none => simp [h3] at h
        | some r3 =>
          obtain ⟨renderPass, e3⟩ := r3
          simp only [h3] at h
          split at h
          · cases hc : CYDASSERT cfg false with
            | none => simp [hc] at h
            | some u =>
              simp only [hc, Option.some.injEq, Prod.mk.injEq] at h
              exact Or.inl h.1.symm
          · simp only [Option.some.injEq, Prod.mk.injEq] at h
            exact Or.inr ⟨pipeline, pipLayout, renderPass, h.1.symm⟩

theorem submit_shape (cfg : Cfg) (cb cb1 : CommandBuffer) (d d1 : Device)
    (h : cb.submit cfg d = some (cb1, d1)) :
    cb1 = cb ∨ cb1 = { cb with _wasSubmitted := true, _semsToWait := [], _semsToSignal := [] } := by
  unfold CommandBuffer.submit at h
  simp only [] at h
  split at h
  · cases h
  · cases hp : cb._pool with
    | none => simp [hp] at h
    | some pool =>
      simp only [hp] at h
      cases hq : cfg.getQueueFromFamily pool.getFamilyIndex with
      | none =>
        simp only [hq] at h
        cases hc : CYDASSERT cfg false with
        | none => simp [hc] at h
        | some u =>
          simp only [hc, Option.some.injEq, Prod.mk.injEq] at h
          exact Or.inl h.1.symm
      | some queue =>
        simp only [hq] at h
        split at h
        · cases h
        · simp only [Option.some.injEq, Prod.mk.injEq] at h
          exact Or.inr h.1.symm

theorem beginPass_shape (cfg : Cfg) (swapchain sc1 : Swapchain) (cb cb1 : CommandBuffer)
    (d d1 : Device) (h : cb.beginPass cfg swapchain d = some (cb1, sc1, d1)) :
    (cb.pipelineBound = false ∧ cb1 = cb ∧ sc1 = swapchain ∧ d1 = d) ∨
    (cb.pipelineBound = true ∧ ∃ semToWait semToSignal,
      sc1.getSemToWait = some semToWait ∧ sc1.getSemToSignal = some semToSignal ∧
      cb1 = { cb with
        _semsToWait := cb._semsToWait ++ [semToWait],
        _semsToSignal := cb._semsToSignal ++ [semToSignal] }) := by
  unfold CommandBuffer.beginPass at h
  split at h
  · rename_i p rp pinfo hp hrp hpi
    right
    refine ⟨by simp [CommandBuffer.pipelineBound, hp, hrp, hpi], ?_⟩
    cases hi : swapchain.initFramebuffers cfg pinfo.renderPass rp d with
    | none => simp [hi] at h
    | some r1 =>
      obtain ⟨s1, e1⟩ := r1
      simp only [hi] at h
      cases ha : s1.acquireImage cfg cb._vkCmdBuffer e1 with
      | none => simp [ha] at h
      | some r2 =>
        obtain ⟨s2, e2⟩ := r2
        simp only [ha] at h
        split at h
        · rename_i w sg fb hw hsg hfb
          simp only [Option.some.injEq, Prod.mk.injEq] at h
          obtain ⟨h1, h2, _⟩ := h
          subst h2
          exact ⟨w, sg, hw, hsg, h1.symm⟩
        · cases h
  · rename_i hno
    left
    have hb : cb.pipelineBound = false := by
      unfold CommandBuffer.pipelineBound
      cases hp : cb._boundPip with
      | none => simp
      | some p =>
        cases hrp : cb._boundRenderPass with
        | none => simp
        | some rp =>
          cases hpi : cb._boundPipInfo with
          | none => simp
          | some pinfo => exact absurd hpi (hno p rp pinfo hp hrp)
    cases hc : CYDASSERT cfg false with
    | none => simp [hc] at h
    | some u =>
      simp only [hc, Option.some.injEq, Prod.mk.injEq] at h
      exact ⟨hb, h.1.symm, h.2.1.symm, h.2.2.symm⟩


theorem map_pair_fst {α : Type} (x : Option α) (g : α → Device) (cb cb1 : CommandBuffer)
    (d1 : Device) (h : x.map (fun r => (cb, g r)) = some (cb1, d1)) : cb1 = cb := by
  cases x with
  | none => simp at h
  | some r => simp only [Option.map_some', Option.some.injEq, Prod.mk.injEq] at h; exact h.1.symm

theorem step_beginPass (cfg : Cfg) (swapchain : Swapchain) (cb cb1 : CommandBuffer)
    (d d1 : Device) (h : cb.step cfg (.beginPass swapchain) d = some (cb1, d1)) :
    ∃ sc1, cb.beginPass cfg swapchain d = some (cb1, sc1, d1) := by
  simp only [CommandBuffer.step] at h
  cases hb : cb.beginPass cfg swapchain d with
  | none => simp [hb] at h
  | some r =>
    obtain ⟨c, s, e⟩ := r
    simp only [hb, Option.map_some', Option.some.injEq, Prod.mk.injEq] at h
    exact ⟨s, by rw [h.1, h.2]⟩

/-- Every call other than `bindPipeline`, `endRecording` and `release` leaves the
bound pipeline, pipeline layout, render pass and pipeline description as they
are. -/
theorem step_keeps_bound (cfg : Cfg) (op : CmdOp) (cb cb1 : CommandBuffer) (d d1 : Device)
    (hop : op.rebinds = false) (h : cb.step cfg op d = some (cb1, d1)) :
    cb1._boundPip = cb._boundPip ∧ cb1._boundPipLayout = cb._boundPipLayout ∧
      cb1._boundRenderPass = cb._boundRenderPass ∧ cb1._boundPipInfo = cb._boundPipInfo := by
  cases op
  case seize pool usage =>
    obtain ⟨x, y, e⟩ := seize_shape cfg pool usage cb cb1 d d1 h
    subst e; simp
  case startRecording =>
    rcases startRecording_shape cfg cb cb1 d d1 h with e | e <;> subst e <;> simp
  case beginPass swapchain =>
    obtain ⟨sc1, hb⟩ := step_beginPass cfg swapchain cb cb1 d d1 h
    rcases beginPass_shape cfg swapchain sc1 cb cb1 d d1 hb with ⟨_, e, _⟩ | ⟨_, w, s, _, _, e⟩ <;>
      subst e <;> simp
  case submit =>
    rcases submit_shape cfg cb cb1 d d1 h with e | e <;> subst e <;> simp
  case release => simp [CmdOp.rebinds] at hop
  case endRecording => simp [CmdOp.rebinds] at hop
  case bindPipeline info => simp [CmdOp.rebinds] at hop
  all_goals
    first
    | (have e := map_pair_fst _ _ cb cb1 d1 h; subst e; simp)
    | (simp only [CommandBuffer.step, Option.some.injEq, Prod.mk.injEq] at h
       obtain ⟨e, _⟩ := h
       subst e; simp)

/-- Every call other than `beginPass`, `submit` and `release` leaves the two
semaphore lists as they are. -/
theorem step_keeps_sems (cfg : Cfg) (op : CmdOp) (cb cb1 : CommandBuffer) (d d1 : Device)
    (hop : op.touchesSems = false) (h : cb.step cfg op d = some (cb1, d1)) :
    cb1._semsToWait = cb._semsToWait ∧ cb1._semsToSignal = cb._semsToSignal := by
  cases op
  case seize pool usage =>
    obtain ⟨x, y, e⟩ := seize_shape cfg pool usage cb cb1 d d1 h
    subst e; simp
  case startRecording =>
    rcases startRecording_shape cfg cb cb1 d d1 h with e | e <;> subst e <;> simp
  case endRecording =>
    rcases endRecording_shape cfg cb cb1 d d1 h with e | e <;> subst e <;> simp
  case bindPipeline info =>
    rcases bindPipeline_shape cfg info cb cb1 d d1 h with e | ⟨p, pl, rp, e⟩ <;>
      subst e <;> simp
  case release => simp [CmdOp.touchesSems] at hop
  case beginPass swapchain => simp [CmdOp.touchesSems] at hop
  case submit => simp [CmdOp.touchesSems] at hop
  all_goals
    first
    | (have e := map_pair_fst _ _ cb cb1 d1 h; subst e; simp)
    | (simp only [CommandBuffer.step, Option.some.injEq, Prod.mk.injEq] at h
       obtain ⟨e, _⟩ := h
       subst e; simp)

/-- No call separates the device pointer from the pool pointer: a command buffer
that has a device has a pool. -/
theorem step_keeps_pool (cfg : Cfg) (op : CmdOp) (cb cb1 : CommandBuffer) (d d1 : Device)
    (hinv : cb._device = true → cb._pool.isSome = true)
    (h : cb.step cfg op d = some (cb1, d1)) :
    cb1._device = true → cb1._pool.isSome = true := by
  cases op
  case seize pool usage =>
    obtain ⟨x, y, e⟩ := seize_shape cfg pool usage cb cb1 d d1 h
    subst e; simp
  case startRecording =>
    rcases startRecording_shape cfg cb cb1 d d1 h with e | e <;> subst e <;> simpa using hinv
  case endRecording =>
    rcases endRecording_shape cfg cb cb1 d d1 h with e | e <;> subst e <;> simpa using hinv
  case bindPipeline info =>
    rcases bindPipeline_shape cfg info cb cb1 d d1 h with e | ⟨p, pl, rp, e⟩ <;>
      subst e <;> simpa using hinv
  case release =>
    rcases release_shape cb cb1 d d1 h with ⟨_, e, _⟩ | ⟨_, e, _⟩ <;> subst e
    · exact hinv
    · simp [CommandBuffer.unallocated]
  case beginPass swapchain =>
    obtain ⟨sc1, hb⟩ := step_beginPass cfg swapchain cb cb1 d d1 h
    rcases beginPass_shape cfg swapchain sc1 cb cb1 d d1 hb with ⟨_, e, _⟩ | ⟨_, w, s, _, _, e⟩ <;>
      subst e <;> simpa using hinv
  case submit =>
    rcases submit_shape cfg cb cb1 d d1 h with e | e <;> subst e <;> simpa using hinv
  all_goals
    first
    | (have e := map_pair_fst _ _ cb cb1 d1 h; subst e; exact hinv)
    | (simp only [CommandBuffer.step, Option.some.injEq, Prod.mk.injEq] at h
       obtain ⟨e, _⟩ := h
       subst e; exact hinv)

theorem run_keeps_pool (cfg : Cfg) (ops : List CmdOp) :
    ∀ (cb cb1 : CommandBuffer) (d d1 : Device),
      (cb._device = true → cb._pool.isSome = true) →
      cb.run cfg ops d = some (cb1, d1) →
      (cb1._device = true → cb1._pool.isSome = true) := by
  induction ops with
  | nil =>
    intro cb cb1 d d1 hinv h
    simp only [CommandBuffer.run, Option.some.injEq, Prod.mk.injEq] at h
    rw [← h.1]; exact hinv
  | cons op ops ih =>
    intro cb cb1 d d1 hinv h
    simp only [CommandBuffer.run] at h
    cases hs : cb.step cfg op d with
    | none => simp [hs] at h
    | some r =>
      obtain ⟨cb2, d2⟩ := r
      simp only [hs] at h
      exact ih cb2 cb1 d2 d1 (step_keeps_pool cfg op cb cb2 d d2 hinv hs) h

theorem run_keeps_bound (cfg : Cfg) (ops : List CmdOp) :
    ∀ (cb cb1 : CommandBuffer) (d d1 : Device),
      (∀ op ∈ ops, op.rebinds = false) →
      cb.run cfg ops d = some (cb1, d1) →
      cb1._boundPip = cb._boundPip ∧ cb1._boundPipLayout = cb._boundPipLayout ∧
        cb1._boundRenderPass = cb._boundRenderPass ∧ cb1._boundPipInfo = cb._boundPipInfo := by
  induction ops with
  | nil =>
    intro cb cb1 d d1 _ h
    simp only [CommandBuffer.run, Option.some.injEq, Prod.mk.injEq] at h
    rw [← h.1]; exact ⟨rfl, rfl, rfl, rfl⟩
  | cons op ops ih =>
    intro cb cb1 d d1 hops h
    simp only [CommandBuffer.run] at h
    cases hs : cb.step cfg op d with
    | none => simp [hs] at h
    | some r =>
      obtain ⟨cb2, d2⟩ := r
      simp only [hs] at h
      have h1 := step_keeps_bound cfg op cb cb2 d d2 (hops op (List.mem_cons_self _ _)) hs
      have h2 := ih cb2 cb1 d2 d1 (fun o ho => hops o (List.mem_cons_of_mem _ ho)) h
      exact ⟨h2.1.trans h1.1, h2.2.1.trans h1.2.1, h2.2.2.1.trans h1.2.2.1,
        h2.2.2.2.trans h1.2.2.2⟩


/-- C19: `release` returns in every state that calls of the member functions
reach from the unallocated command buffer, and it is idempotent: a release that
returns leaves a buffer without device, on which a second release changes
neither the buffer nor the device and so issues no native call.  On a buffer
that holds a device and a pool the first release destroys the fence and frees
the command buffer, once each and nothing else, and leaves usage 0, both flags
false, both semaphore lists empty, no bound pipeline, layout, render pass or
pipeline description, null handles and null device and pool pointers; on a
buffer without device it does nothing. -/
theorem release_idempotent (cfg : Cfg) (cb : CommandBuffer) (d : Device) :
    (∀ ops d0, CommandBuffer.unallocated.run cfg ops d0 = some (cb, d) →
      ∃ cb1 d1, cb.release d = some (cb1, d1)) ∧
    (∀ cb1 d1, cb.release d = some (cb1, d1) →
      cb1._device = false ∧ cb1.release d1 = some (cb1, d1)) ∧
    (∀ pool, cb._device = true → cb._pool = some pool →
      cb.release d = some
        (⟨false, none, 0, false, false, none, none, none, none, [], [], 0, 0⟩,
          { d with trace := d.trace ++
            [.vkDestroyFence cb._vkFence,
              .vkFreeCommandBuffers pool.getVKCommandPool cb._vkCmdBuffer] })) ∧
    (cb._device = false → cb.release d = some (cb, d)) := by
  refine ⟨?_, ?_, ?_, ?_⟩
  · intro ops d0 hrun
    have hinv := run_keeps_pool cfg ops CommandBuffer.unallocated cb d0 d
      (by simp [CommandBuffer.unallocated]) hrun
    cases hdev : cb._device
    · exact ⟨cb, d, by simp [CommandBuffer.release, hdev]⟩
    · cases hp : cb._pool with
      | none => simp [hp] at hinv; simp [hinv] at hdev
      | some pool =>
        simp only [CommandBuffer.release, hdev, hp, if_true]
        exact ⟨_, _, rfl⟩
  · intro cb1 d1 h
    rcases release_shape cb cb1 d d1 h with ⟨hdev, e, _⟩ | ⟨_, e, _⟩
    · subst e
      exact ⟨hdev, by simp [CommandBuffer.release, hdev]⟩
    · subst e
      exact ⟨rfl, by simp [CommandBuffer.release, CommandBuffer.unallocated]⟩
  · intro pool hdev hp
    simp [CommandBuffer.release, hdev, hp, vkCall]
  · intro hdev
    simp [CommandBuffer.release, hdev]

/-- Witness for C19: the command buffer that `seize` yields from the unallocated
one is released, fence 2 and command buffer 1 of pool 50 being freed. -/
theorem release_idempotent_witness :
    CommandBuffer.unallocated.run demoCfg [.seize demoPool 1] Device.init =
        some (seizedBuffer, seizedDevice) ∧
      (∃ cb1 d1, seizedBuffer.release seizedDevice = some (cb1, d1)) ∧
      seizedBuffer.release seizedDevice = some
        (⟨false, none, 0, false, false, none, none, none, none, [], [], 0, 0⟩,
          { seizedDevice with trace := seizedDevice.trace ++
            [.vkDestroyFence 2, .vkFreeCommandBuffers 50 1] }) :=
  ⟨by decide,
    (release_idempotent demoCfg seizedBuffer seizedDevice).1 [.seize demoPool 1] Device.init
      (by decide),
    (release_idempotent demoCfg seizedBuffer seizedDevice).2.2.1 demoPool rfl rfl⟩

/-- C20: on a command buffer with a device, when the look-ups of the pipeline,
of its layout and of its render pass return three non-null handles,
`bindPipeline` records the bind command and sets the bound pipeline, layout and
render pass to these handles and the bound description to `info`; when one of
the handles is null it records nothing and leaves the command buffer as it was
(release build; the debug build aborts).  The look-ups return whenever no
assertion aborts.  No call other than `bindPipeline`, `endRecording` and
`release` changes one of the four fields. -/
theorem bindPipeline_binds (cfg : Cfg) (cb : CommandBuffer) (d : Device)
    (info : PipelineInfo) :
    (∀ pipeline d1 pipLayout d2 renderPass d3, cb._device = true →
      PipelineStash.findOrCreatePipeline cfg info d = some (pipeline, d1) →
      PipelineStash.findOrCreatePipLayout cfg info.pipLayout d1 = some (pipLayout, d2) →
      RenderPassStash.findOrCreate cfg info.renderPass d2 = some (renderPass, d3) →
      (pipeline ≠ 0 → pipLayout ≠ 0 → renderPass ≠ 0 →
        cb.bindPipeline cfg info d = some
          ({ cb with
              _boundPip := some pipeline, _boundPipLayout := some pipLayout,
              _boundRenderPass := some renderPass, _boundPipInfo := some info },
            { d3 with trace := d3.trace ++ [.vkCmdBindPipeline cb._vkCmdBuffer pipeline] })) ∧
      (pipeline = 0 ∨ pipLayout = 0 ∨ renderPass = 0 →
        cb.bindPipeline cfg info d = if cfg.debug then none else some (cb, d3))) ∧
    (NoAbort cfg → cb._device = true →
      ∃ pipeline d1 pipLayout d2 renderPass d3,
        PipelineStash.findOrCreatePipeline cfg info d = some (pipeline, d1) ∧
        PipelineStash.findOrCreatePipLayout cfg info.pipLayout d1 = some (pipLayout, d2) ∧
        RenderPassStash.findOrCreate cfg info.renderPass d2 = some (renderPass, d3)) ∧
    (∀ ops cb1 d1, (∀ op ∈ ops, op.rebinds = false) →
      cb.run cfg ops d = some (cb1, d1) →
      cb1._boundPip = cb._boundPip ∧ cb1._boundPipLayout = cb._boundPipLayout ∧
        cb1._boundRenderPass = cb._boundRenderPass ∧ cb1._boundPipInfo = cb._boundPipInfo) := by
  refine ⟨?_, ?_, ?_⟩
  · intro pipeline d1 pipLayout d2 renderPass d3 hdev h1 h2 h3
    constructor
    · intro hp hpl hrp
      simp [CommandBuffer.bindPipeline, hdev, h1, h2, h3, hp, hpl, hrp, vkCall]
    · intro h0
      have hc : (pipeline == 0 || pipLayout == 0 || renderPass == 0) = true := by
        rcases h0 with e | e | e <;> simp [e]
      simp only [CommandBuffer.bindPipeline, hdev, h1, h2, h3, hc, CYDASSERT]
      cases cfg.debug <;> simp
  · intro hna hdev
    obtain ⟨p, d1, h1⟩ := findOrCreatePipeline_total cfg hna info d
    obtain ⟨pl, d2, h2⟩ := findOrCreatePipLayout_total cfg hna info.pipLayout d1
    obtain ⟨rp, d3, h3⟩ := findOrCreateRenderPass_total cfg hna info.renderPass d2
    exact ⟨p, d1, pl, d2, rp, d3, h1, h2, h3⟩
  · intro ops cb1 d1 hops hrun
    exact run_keeps_bound cfg ops cb cb1 d d1 hops hrun

/-- Witness for C20: on the device that holds the example pipeline the seized
command buffer binds pipeline 4 with layout 3 and render pass 1. -/
theorem bindPipeline_binds_witness :
    seizedBuffer.bindPipeline demoCfg demoInfo demoDevice = some
      ({ seizedBuffer with
          _boundPip := some 4, _boundPipLayout := some 3,
          _boundRenderPass := some 1, _boundPipInfo := some demoInfo },
        { demoDevice with trace := demoDevice.trace ++ [.vkCmdBindPipeline 1 4] }) :=
  ((bindPipeline_binds demoCfg seizedBuffer demoDevice demoInfo).1 4 demoDevice 3 demoDevice
    1 demoDevice rfl (by decide) (by decide) (by decide)).1 (by decide) (by decide) (by decide)


/-! ## The swapchain ring -/

theorem vectorResize_length (v : List Handle) (n : Nat) : (vectorResize v n).length = n := by
  unfold vectorResize
  rw [List.length_take, List.length_append, List.length_replicate]
  have h : v.length + (n - v.length) ≥ n := by
    rcases Nat.le_total n v.length with h1 | h1
    · exact Nat.le_trans h1 (Nat.le_add_right _ _)
    · rw [Nat.add_sub_cancel' h1]
  exact Nat.min_eq_left h

theorem foldlM_preserves {α β : Type} (P : β → Prop) (f : β → α → Option β)
    (hf : ∀ b a b1, P b → f b a = some b1 → P b1) :
    ∀ (l : List α) (b b1 : β), P b → l.foldlM f b = some b1 → P b1 := by
  intro l
  induction l with
  | nil =>
    intro b b1 hb h
    simp only [List.foldlM_nil] at h
    cases h
    exact hb
  | cons a l ih =>
    intro b b1 hb h
    simp only [List.foldlM_cons] at h
    cases hfa : f b a with
    | none => simp [hfa] at h
    | some b2 =>
      simp only [hfa] at h
      exact ih b2 b1 (hf b a b2 hb hfa) h

/-- The part of the swapchain that the ring of semaphores consists of. -/
theorem createSyncObject_ring (cfg : Cfg) (i : Nat) (sc sc1 : Swapchain) (d d1 : Device)
    (h : Swapchain.createSyncObject cfg i (sc, d) = some (sc1, d1)) :
    sc1.m_currentFrame = sc.m_currentFrame ∧
      sc1.m_availableSems.length = sc.m_availableSems.length ∧
      sc1.m_renderDoneSems.length = sc.m_renderDoneSems.length := by
  unfold Swapchain.createSyncObject at h
  simp only [vkCreate_eq] at h
  split at h
  · cases hr1 : cfg.succeeds d.issued
    · simp only [hr1, Bool.not_false, if_true, Bool.false_eq_true, if_false] at h
      cases hc : CYDASSERT cfg false with
      | none => simp [hc] at h
      | some u =>
        simp only [hc, Option.some.injEq, Prod.mk.injEq] at h
        rw [← h.1]; exact ⟨rfl, rfl, rfl⟩
    · simp only [hr1, Bool.not_true, Bool.false_eq_true, if_false, if_true] at h
      cases hr2 : cfg.succeeds (d.issued + 1)
      · simp only [hr2, Bool.not_false, if_true, Bool.false_eq_true, if_false] at h
        cases hc : CYDASSERT cfg false with
        | none => simp [hc] at h
        | some u =>
          simp only [hc, Option.some.injEq, Prod.mk.injEq] at h
          rw [← h.1]; simp
      · simp only [hr2, Bool.not_true, Bool.false_eq_true, if_false, if_true,
          Option.some.injEq, Prod.mk.injEq] at h
        rw [← h.1]; simp
  · cases h

theorem createSyncObjects_ring (cfg : Cfg) (sc sc1 : Swapchain) (d d1 : Device)
    (h : Swapchain._createSyncObjects cfg sc d = some (sc1, d1)) :
    sc1.m_currentFrame = sc.m_currentFrame ∧
      sc1.m_availableSems.length = MAX_FRAMES_IN_FLIGHT ∧
      sc1.m_renderDoneSems.length = MAX_FRAMES_IN_FLIGHT := by
  unfold Swapchain._createSyncObjects at h
  exact foldlM_preserves
    (fun acc : Swapchain × Device => acc.1.m_currentFrame = sc.m_currentFrame ∧
      acc.1.m_availableSems.length = MAX_FRAMES_IN_FLIGHT ∧
      acc.1.m_renderDoneSems.length = MAX_FRAMES_IN_FLIGHT)
    (fun acc i => Swapchain.createSyncObject cfg i acc)
    (fun b a b1 hb hf => by
      obtain ⟨s, e⟩ := b
      obtain ⟨s1, e1⟩ := b1
      have hr := createSyncObject_ring cfg a s s1 e e1 hf
      exact ⟨hr.1.trans hb.1, hr.2.1.trans hb.2.1, hr.2.2.trans hb.2.2⟩)
    _ _ _ ⟨rfl, vectorResize_length _ _, vectorResize_length _ _⟩ h

theorem createFramebuffer_ring (cfg : Cfg) (info : RenderPassInfo) (renderPass : Handle)
    (i : Nat) (sc sc1 : Swapchain) (d d1 : Device)
    (h : Swapchain.createFramebuffer cfg info renderPass i (sc, d) = some (sc1, d1)) :
    sc1.m_currentFrame = sc.m_currentFrame ∧
      sc1.m_availableSems = sc.m_availableSems ∧
      sc1.m_renderDoneSems = sc.m_renderDoneSems := by
  unfold Swapchain.createFramebuffer at h
  simp only [vkCreate_eq] at h
  split at h
  · cases h
  · split at h
    · split at h
      · cases h
      · simp only [Option.some.injEq, Prod.mk.injEq] at h
        rw [← h.1]
        split <;> exact ⟨rfl, rfl, rfl⟩
    · cases h

theorem initFramebuffers_ring (cfg : Cfg) (info : RenderPassInfo) (renderPass : Handle)
    (sc sc1 : Swapchain) (d d1 : Device)
    (h : sc.initFramebuffers cfg info renderPass d = some (sc1, d1)) :
    sc1.m_currentFrame = sc.m_currentFrame ∧
      sc1.m_availableSems = sc.m_availableSems ∧
      sc1.m_renderDoneSems = sc.m_renderDoneSems := by
  unfold Swapchain.initFramebuffers at h
  split at h
  · exact foldlM_preserves
      (fun acc : Swapchain × Device => acc.1.m_currentFrame = sc.m_currentFrame ∧
        acc.1.m_availableSems = sc.m_availableSems ∧
        acc.1.m_renderDoneSems = sc.m_renderDoneSems)
      (fun acc i => Swapchain.createFramebuffer cfg info renderPass i acc)
      (fun b a b1 hb hf => by
        obtain ⟨s, e⟩ := b
        obtain ⟨s1, e1⟩ := b1
        have hr := createFramebuffer_ring cfg info renderPass a s s1 e e1 hf
        exact ⟨hr.1.trans hb.1, hr.2.1.trans hb.2.1, hr.2.2.trans hb.2.2⟩)
      _ _ _ ⟨rfl, rfl, rfl⟩ h
  · simp only [Option.some.injEq, Prod.mk.injEq] at h
    rw [← h.1]; exact ⟨rfl, rfl, rfl⟩

theorem acquireImage_ring (cfg : Cfg) (buffer : Handle) (sc sc1 : Swapchain) (d d1 : Device)
    (h : sc.acquireImage cfg buffer d = some (sc1, d1)) :
    sc1.m_currentFrame = sc.m_currentFrame ∧
      sc1.m_availableSems = sc.m_availableSems ∧
      sc1.m_renderDoneSems = sc.m_renderDoneSems := by
  unfold Swapchain.acquireImage at h
  split at h
  · cases h
  · simp only [Option.some.injEq, Prod.mk.injEq] at h
    rw [← h.1]; exact ⟨rfl, rfl, rfl⟩

theorem present_ring (cfg : Cfg) (sc sc1 : Swapchain) (d d1 : Device)
    (h : sc.present cfg d = some (sc1, d1)) :
    (sc1.m_currentFrame = sc.m_currentFrame ∨
        sc1.m_currentFrame = (sc.m_currentFrame + 1) % MAX_FRAMES_IN_FLIGHT) ∧
      sc1.m_availableSems = sc.m_availableSems ∧
      sc1.m_renderDoneSems = sc.m_renderDoneSems := by
  unfold Swapchain.present at h
  split at h
  · split at h
    · cases h
    · simp only [Option.some.injEq, Prod.mk.injEq] at h
      rw [← h.1]; exact ⟨Or.inr rfl, rfl, rfl⟩
  · cases hc : CYDASSERT cfg false with
    | none => simp [hc] at h
    | some u =>
      simp only [hc, Option.some.injEq, Prod.mk.injEq] at h
      rw [← h.1]; exact ⟨Or.inl rfl, rfl, rfl⟩

theorem reachable_ring (cfg : Cfg) (base sc : Swapchain)
    (hb : Swapchain.Constructed cfg base) (hr : Swapchain.ReachableFrom cfg base sc) :
    sc.m_currentFrame < MAX_FRAMES_IN_FLIGHT ∧
      sc.m_availableSems.length = MAX_FRAMES_IN_FLIGHT ∧
      sc.m_renderDoneSems.length = MAX_FRAMES_IN_FLIGHT ∧
      sc.m_availableSems = base.m_availableSems ∧
      sc.m_renderDoneSems = base.m_renderDoneSems := by
  induction hr with
  | base =>
    obtain ⟨sc0, d0, d, h0, hc⟩ := hb
    have hr := createSyncObjects_ring cfg sc0 base d0 d hc
    refine ⟨?_, hr.2.1, hr.2.2, rfl, rfl⟩
    rw [hr.1, h0]; decide
  | initFramebuffers info renderPass _ hstep ih =>
    have hr := initFramebuffers_ring cfg info renderPass _ _ _ _ hstep
    rw [hr.1, hr.2.1, hr.2.2]; exact ih
  | acquireImage buffer _ hstep ih =>
    have hr := acquireImage_ring cfg buffer _ _ _ _ hstep
    rw [hr.1, hr.2.1, hr.2.2]; exact ih
  | present _ hstep ih =>
    have hr := present_ring cfg _ _ _ _ hstep
    rw [hr.2.1, hr.2.2]
    refine ⟨?_, ih.2⟩
    rcases hr.1 with e | e
    · rw [e]; exact ih.1
    · rw [e]; exact Nat.mod_lt _ (by decide)


/-- C14: with a present queue available, every `present` that returns takes the
frame index `i` to `(i + 1) mod 2`; from a state whose index is below 2 = the
size of the render-done array (as in every reachable state) a present returns,
a second present, whatever happened to the device in between, returns too, and
after the two the index is the starting value again. -/
theorem present_cycles (cfg : Cfg) (sc : Swapchain) (d : Device) (queue : Handle)
    (hq : cfg.getQueueFromUsage QueueUsage.GRAPHICS true = some queue) :
    (∀ sc1 d1, sc.present cfg d = some (sc1, d1) →
      sc1.m_currentFrame = (sc.m_currentFrame + 1) % 2) ∧
    (sc.m_currentFrame < 2 → sc.m_renderDoneSems.length = 2 →
      ∃ sc1 d1, sc.present cfg d = some (sc1, d1) ∧
        sc1.m_currentFrame = (sc.m_currentFrame + 1) % 2 ∧
        ∀ d2, ∃ sc2 d3, sc1.present cfg d2 = some (sc2, d3) ∧
          sc2.m_currentFrame = sc.m_currentFrame) := by
  constructor
  · intro sc1 d1 h
    unfold Swapchain.present at h
    simp only [hq] at h
    split at h
    · cases h
    · simp only [Option.some.injEq, Prod.mk.injEq] at h
      rw [← h.1]; rfl
  · intro hi hlen
    have hlt : sc.m_currentFrame < sc.m_renderDoneSems.length := by rw [hlen]; exact hi
    have hlt2 : (sc.m_currentFrame + 1) % 2 < sc.m_renderDoneSems.length := by
      rw [hlen]; exact Nat.mod_lt _ (by decide)
    refine ⟨_, _, by
      simp only [Swapchain.present, hq, List.getElem?_eq_getElem hlt]; rfl, rfl, ?_⟩
    intro d2
    refine ⟨_, _, by
      simp only [Swapchain.present, hq, MAX_FRAMES_IN_FLIGHT, List.getElem?_eq_getElem hlt2]
      rfl, ?_⟩
    simp only [MAX_FRAMES_IN_FLIGHT]
    have h2 : sc.m_currentFrame = 0 ∨ sc.m_currentFrame = 1 := by
      rcases Nat.lt_or_ge sc.m_currentFrame 1 with h | h
      · exact Or.inl (Nat.lt_one_iff.mp h)
      · exact Or.inr (Nat.le_antisymm (Nat.lt_succ_iff.mp hi) h)
    rcases h2 with e | e <;> rw [e]

/-- Witness for C14: the example swapchain, at index 0, goes to index 1 and back
to 0. -/
theorem present_cycles_witness :
    ∃ sc1 d1, demoSwapchain.present demoCfg Device.init = some (sc1, d1) ∧
      sc1.m_currentFrame = (demoSwapchain.m_currentFrame + 1) % 2 ∧
      ∀ d2, ∃ sc2 d3, sc1.present demoCfg d2 = some (sc2, d3) ∧
        sc2.m_currentFrame = demoSwapchain.m_currentFrame :=
  (present_cycles demoCfg demoSwapchain Device.init 100 rfl).2 (by decide) (by decide)

/-- C15: in every state that `initFramebuffers`, `acquireImage` and `present`
reach from the constructed swapchain, the frame index is below 2, which is the
size of both semaphore arrays, and the arrays are those of the constructor;
`acquireImage` returns and its only native call passes the image-available
semaphore at the current index; `present`, with a present queue, returns and its
only native call waits on exactly the render-done semaphore at the current
index. -/
theorem ring_index_in_range (cfg : Cfg) (base sc : Swapchain)
    (hb : Swapchain.Constructed cfg base) (hr : Swapchain.ReachableFrom cfg base sc) :
    sc.m_currentFrame < MAX_FRAMES_IN_FLIGHT ∧ MAX_FRAMES_IN_FLIGHT = 2 ∧
    sc.m_availableSems.length = 2 ∧ sc.m_renderDoneSems.length = 2 ∧
    sc.m_availableSems = base.m_availableSems ∧
    sc.m_renderDoneSems = base.m_renderDoneSems ∧
    (∀ buffer d, ∃ available sc1,
      sc.m_availableSems[sc.m_currentFrame]? = some available ∧
      sc.acquireImage cfg buffer d = some (sc1, { d with trace := d.trace ++
        [.vkAcquireNextImageKHR sc.m_vkSwapchain UINT64_MAX available 0] })) ∧
    (∀ queue d, cfg.getQueueFromUsage QueueUsage.GRAPHICS true = some queue →
      ∃ renderDone sc1,
        sc.m_renderDoneSems[sc.m_currentFrame]? = some renderDone ∧
        sc.present cfg d = some (sc1, { d with trace := d.trace ++
          [.vkQueuePresentKHR queue
            ⟨[renderDone], [sc.m_vkSwapchain], [sc.m_imageIndex]⟩] })) := by
  obtain ⟨hi, hla, hlr, hea, her⟩ := reachable_ring cfg base sc hb hr
  have hlta : sc.m_currentFrame < sc.m_availableSems.length := by rw [hla]; exact hi
  have hltr : sc.m_currentFrame < sc.m_renderDoneSems.length := by rw [hlr]; exact hi
  refine ⟨hi, rfl, hla, hlr, hea, her, ?_, ?_⟩
  · intro buffer d
    simp only [Swapchain.acquireImage, List.getElem?_eq_getElem hlta, vkCall]
    exact ⟨_, _, rfl, rfl⟩
  · intro queue d hq
    simp only [Swapchain.present, hq, List.getElem?_eq_getElem hltr, vkCall]
    exact ⟨_, _, rfl, rfl⟩

/-- Witness for C15: the example swapchain is the constructed one after an
`acquireImage` and a `present`; it is at index 1 and its `present` waits on
semaphore 4. -/
theorem ring_index_in_range_witness :
    ∃ sc, Swapchain.ReachableFrom demoCfg demoSwapchain sc ∧ sc.m_currentFrame = 1 ∧
      ∃ sc1, sc.present demoCfg Device.init = some (sc1, { Device.init with
        trace := [.vkQueuePresentKHR 100 ⟨[4], [60], [0]⟩] }) := by
  have hb : Swapchain.Constructed demoCfg demoSwapchain :=
    ⟨{ demoSwapchain with m_availableSems := [], m_renderDoneSems := [] }, Device.init,
      { Device.init with issued := 4, trace := List.replicate 4 .vkCreateSemaphore },
      rfl, by decide⟩
  have hr : Swapchain.ReachableFrom demoCfg demoSwapchain
      { demoSwapchain with m_currentFrame := 1, m_inFlightCmdBuffer := some 1 } :=
    @Swapchain.ReachableFrom.present demoCfg demoSwapchain
      { demoSwapchain with m_inFlightCmdBuffer := some 1 } _
      { Device.init with trace := [.vkAcquireNextImageKHR 60 UINT64_MAX 1 0] }
      { Device.init with trace := [.vkAcquireNextImageKHR 60 UINT64_MAX 1 0,
          .vkQueuePresentKHR 100 ⟨[2], [60], [0]⟩] }
      (@Swapchain.ReachableFrom.acquireImage demoCfg demoSwapchain demoSwapchain _
        Device.init { Device.init with trace := [.vkAcquireNextImageKHR 60 UINT64_MAX 1 0] }
        1 Swapchain.ReachableFrom.base (by decide))
      (by decide)
  obtain ⟨renderDone, sc1, hs, hp⟩ :=
    (ring_index_in_range demoCfg demoSwapchain _ hb hr).2.2.2.2.2.2.2 100 Device.init rfl
  have e : renderDone = 4 := by
    have h4 : (demoSwapchain.m_renderDoneSems)[1]? = some 4 := by decide
    exact Option.some.inj (hs.symm.trans h4)
  subst e
  exact ⟨_, hr, rfl, sc1, hp⟩


/-! ## Layout barriers on one texture -/

theorem barriersIn_append (a b : List VkCall) :
    barriersIn (a ++ b) = barriersIn a ++ barriersIn b := by
  simp [barriersIn, List.filterMap_append]

theorem chainEnd_append (l1 l2 : List VkImageMemoryBarrier) :
    ∀ (start mid : Nat), chainEnd start l1 = some mid →
      chainEnd start (l1 ++ l2) = chainEnd mid l2 := by
  induction l1 with
  | nil =>
    intro start mid h
    simp only [chainEnd, Option.some.injEq] at h
    rw [List.nil_append, h]
  | cons b l ih =>
    intro start mid h
    simp only [chainEnd] at h
    split at h
    · rename_i hb
      simp only [List.cons_append, chainEnd, hb, if_true]
      exact ih _ _ h
    · cases h

/-- What one call on a texture adds to the trace: no barrier, the texture being
left as it is, or one barrier on the image of the texture, from the conversion of
the tracked layout to the layout that the call also stores as tracked layout. -/
theorem texStep_barriers (cfg : Cfg) (op : TexOp) (t t1 : Texture) (d d1 : Device)
    (h : op.step cfg t d = some (t1, d1)) :
    ∃ ext, d1.trace = d.trace ++ ext ∧
      ((barriersIn ext = [] ∧ t1 = t) ∨
        ∃ b, barriersIn ext = [b] ∧
          b.oldLayout = cfg.cydImageLayoutToVKImageLayout t.getLayout ∧
          b.image = t.getVKImage ∧
          match op with
          | .bindTexture _ =>
            b.newLayout = VK_IMAGE_LAYOUT_SHADER_READ_ONLY_OPTIMAL ∧
              t1 = { t with getLayout := ImageLayout.SHADER_READ }
          | .uploadBufferToTex _ _ =>
            b.newLayout = VK_IMAGE_LAYOUT_TRANSFER_DST_OPTIMAL ∧
              t1 = { t with getLayout := ImageLayout.TRANSFER_DST }) := by
  cases op with
  | bindTexture cb =>
    simp only [TexOp.step, CommandBuffer.bindTexture] at h
    cases hl : cb._boundPipLayout with
    | none =>
      simp only [hl] at h
      cases hc : CYDASSERT cfg false with
      | none => simp [hc] at h
      | some u =>
        simp only [hc, Option.some.injEq, Prod.mk.injEq] at h
        exact ⟨[], by rw [← h.2]; simp, Or.inl ⟨rfl, h.1.symm⟩⟩
    | some layout =>
      simp only [hl] at h
      by_cases hne : t.getLayout = ImageLayout.SHADER_READ
      · simp only [hne, bne_self_eq_false, Bool.false_eq_true, if_false, Option.some.injEq,
          Prod.mk.injEq] at h
        refine ⟨[.vkCmdBindDescriptorSets cb._vkCmdBuffer layout t.getVKDescSet],
          by rw [← h.2]; simp [vkCall], Or.inl ⟨by simp [barriersIn], h.1.symm⟩⟩
      · have hb : (t.getLayout != ImageLayout.SHADER_READ) = true := by
          simpa using hne
        simp only [hb, if_true, Option.some.injEq, Prod.mk.injEq] at h
        refine ⟨[.vkCmdPipelineBarrier cb._vkCmdBuffer VK_PIPELINE_STAGE_TRANSFER_BIT
            VK_PIPELINE_STAGE_FRAGMENT_SHADER_BIT
            ⟨cfg.cydImageLayoutToVKImageLayout t.getLayout,
              VK_IMAGE_LAYOUT_SHADER_READ_ONLY_OPTIMAL, t.getVKImage,
              VK_ACCESS_TRANSFER_WRITE_BIT, VK_ACCESS_SHADER_READ_BIT⟩,
          .vkCmdBindDescriptorSets cb._vkCmdBuffer layout t.getVKDescSet],
          by rw [← h.2]; simp [vkCall], Or.inr ⟨_, by simp [barriersIn]; rfl, rfl, rfl, rfl, h.1.symm⟩⟩
  | uploadBufferToTex src cb =>
    simp only [TexOp.step, CommandBuffer.uploadBufferToTex] at h
    cases hc : CYDASSERT cfg (src.getSize == t.getSize) with
    | none => simp [hc] at h
    | some u =>
      simp only [hc, Option.some.injEq, Prod.mk.injEq] at h
      refine ⟨[.vkCmdPipelineBarrier cb._vkCmdBuffer VK_PIPELINE_STAGE_TOP_OF_PIPE_BIT
          VK_PIPELINE_STAGE_TRANSFER_BIT
          ⟨cfg.cydImageLayoutToVKImageLayout t.getLayout,
            VK_IMAGE_LAYOUT_TRANSFER_DST_OPTIMAL, t.getVKImage, 0,
            VK_ACCESS_TRANSFER_WRITE_BIT⟩,
        .vkCmdCopyBufferToImage cb._vkCmdBuffer src.getVKBuffer t.getVKImage
          VK_IMAGE_LAYOUT_TRANSFER_DST_OPTIMAL t.getWidth t.getHeight],
        by rw [← h.2]; simp [vkCall], Or.inr ⟨_, by simp [barriersIn]; rfl, rfl, rfl, rfl, h.1.symm⟩⟩

theorem texStep_image (cfg : Cfg) (op : TexOp) (t t1 : Texture) (d d1 : Device)
    (h : op.step cfg t d = some (t1, d1)) : t1.getVKImage = t.getVKImage := by
  obtain ⟨ext, _, hb⟩ := texStep_barriers cfg op t t1 d d1 h
  rcases hb with ⟨_, e⟩ | ⟨b, _, _, _, hm⟩
  · rw [e]
  · cases op with
    | bindTexture cb => rw [hm.2]
    | uploadBufferToTex src cb => rw [hm.2]

theorem texStep_total (cfg : Cfg) (hdbg : cfg.debug = false) (op : TexOp) (t : Texture)
    (d : Device) : ∃ t1 d1, op.step cfg t d = some (t1, d1) := by
  cases op with
  | bindTexture cb =>
    simp only [TexOp.step, CommandBuffer.bindTexture, CYDASSERT, hdbg]
    cases cb._boundPipLayout with
    | none => exact ⟨_, _, by simp; exact ⟨rfl, rfl⟩⟩
    | some layout => exact ⟨_, _, rfl⟩
  | uploadBufferToTex src cb =>
    simp only [TexOp.step, CommandBuffer.uploadBufferToTex, CYDASSERT, hdbg]
    exact ⟨_, _, by simp; exact ⟨rfl, rfl⟩⟩


/-- C13: for every sequence of `bindTexture` and `uploadBufferToTex` calls on one
texture, on any command buffers.  Each call that returns adds to the trace either
no barrier, and then leaves the tracked layout unchanged, or exactly one barrier,
on the image of the texture, whose old layout is the conversion of the layout
tracked before the call and whose new layout is the one the call stores as
tracked layout: shader-read-only with `SHADER_READ` after `bindTexture`,
transfer-destination with `TRANSFER_DST` after `uploadBufferToTex`.  When the
conversion table maps these two layouts to these two Vulkan layouts, the barriers
of the whole sequence form a chain: the first starts at the conversion of the
initial tracked layout, each next one at the new layout of the one before, and
the last ends at the conversion of the final tracked layout.  In a release build
every sequence returns. -/
theorem barrier_chain (cfg : Cfg) :
    (∀ (op : TexOp) (t t1 : Texture) (d d1 : Device), op.step cfg t d = some (t1, d1) →
      ∃ ext, d1.trace = d.trace ++ ext ∧
        ((barriersIn ext = [] ∧ t1.getLayout = t.getLayout) ∨
          ∃ b, barriersIn ext = [b] ∧
            b.oldLayout = cfg.cydImageLayoutToVKImageLayout t.getLayout ∧
            b.image = t.getVKImage ∧
            match op with
            | .bindTexture _ =>
              b.newLayout = VK_IMAGE_LAYOUT_SHADER_READ_ONLY_OPTIMAL ∧
                t1.getLayout = ImageLayout.SHADER_READ
            | .uploadBufferToTex _ _ =>
              b.newLayout = VK_IMAGE_LAYOUT_TRANSFER_DST_OPTIMAL ∧
                t1.getLayout = ImageLayout.TRANSFER_DST)) ∧
    (cfg.cydImageLayoutToVKImageLayout ImageLayout.SHADER_READ =
        VK_IMAGE_LAYOUT_SHADER_READ_ONLY_OPTIMAL →
      cfg.cydImageLayoutToVKImageLayout ImageLayout.TRANSFER_DST =
        VK_IMAGE_LAYOUT_TRANSFER_DST_OPTIMAL →
      ∀ (ops : List TexOp) (t t1 : Texture) (d d1 : Device),
        TexOp.run cfg ops t d = some (t1, d1) →
        ∃ ext, d1.trace = d.trace ++ ext ∧
          chainEnd (cfg.cydImageLayoutToVKImageLayout t.getLayout) (barriersIn ext) =
            some (cfg.cydImageLayoutToVKImageLayout t1.getLayout) ∧
          ∀ b ∈ barriersIn ext, b.image = t.getVKImage) ∧
    (cfg.debug = false → ∀ (ops : List TexOp) (t : Texture) (d : Device),
      ∃ t1 d1, TexOp.run cfg ops t d = some (t1, d1)) := by
  refine ⟨?_, ?_, ?_⟩
  · intro op t t1 d d1 h
    obtain ⟨ext, he, hb⟩ := texStep_barriers cfg op t t1 d d1 h
    refine ⟨ext, he, ?_⟩
    rcases hb with ⟨h0, e⟩ | ⟨b, h1, ho, hi, hm⟩
    · exact Or.inl ⟨h0, by rw [e]⟩
    · refine Or.inr ⟨b, h1, ho, hi, ?_⟩
      cases op with
      | bindTexture cb => exact ⟨hm.1, by rw [hm.2]⟩
      | uploadBufferToTex src cb => exact ⟨hm.1, by rw [hm.2]⟩
  · intro hsr htd ops
    induction ops with
    | nil =>
      intro t t1 d d1 h
      simp only [TexOp.run, Option.some.injEq, Prod.mk.injEq] at h
      refine ⟨[], by rw [← h.2]; simp, ?_, ?_⟩
      · rw [← h.1]; rfl
      · intro b hb; simp [barriersIn] at hb
    | cons op ops ih =>
      intro t t1 d d1 h
      simp only [TexOp.run] at h
      cases hs : op.step cfg t d with
      | none => simp [hs] at h
      | some r =>
        obtain ⟨t2, d2⟩ := r
        simp only [hs] at h
        obtain ⟨ext1, he1, hb1⟩ := texStep_barriers cfg op t t2 d d2 hs
        have him := texStep_image cfg op t t2 d d2 hs
        obtain ⟨ext2, he2, hc2, hi2⟩ := ih t2 t1 d2 d1 h
        refine ⟨ext1 ++ ext2, by rw [he2, he1, List.append_assoc], ?_, ?_⟩
        · rw [barriersIn_append]
          have hc1 : chainEnd (cfg.cydImageLayoutToVKImageLayout t.getLayout)
              (barriersIn ext1) = some (cfg.cydImageLayoutToVKImageLayout t2.getLayout) := by
            rcases hb1 with ⟨h0, e⟩ | ⟨b, h1, ho, _, hm⟩
            · rw [h0, e]; rfl
            · rw [h1]
              simp only [chainEnd, ho, if_true]
              cases op with
              | bindTexture cb => rw [hm.1, hm.2, hsr]
              | uploadBufferToTex src cb => rw [hm.1, hm.2, htd]
          rw [chainEnd_append _ _ _ _ hc1]
          exact hc2
        · intro b hb
          rw [barriersIn_append, List.mem_append] at hb
          rcases hb with hb | hb
          · rcases hb1 with ⟨h0, _⟩ | ⟨b1, h1, _, hi, _⟩
            · rw [h0] at hb; cases hb
            · rw [h1, List.mem_singleton] at hb
              rw [hb]; exact hi
          · rw [hi2 b hb, him]
  · intro hdbg ops
    induction ops with
    | nil => intro t d; exact ⟨t, d, rfl⟩
    | cons op ops ih =>
      intro t d
      obtain ⟨t2, d2, hs⟩ := texStep_total cfg hdbg op t d
      obtain ⟨t1, d1, hr⟩ := ih t2 d2
      exact ⟨t1, d1, by simp only [TexOp.run, hs]; exact hr⟩

/-- Witness for C13: an upload, two binds and another upload on the example
texture record three barriers, 7 to 7, 7 to 5 and 5 to 7, and leave the texture
in `TRANSFER_DST`. -/
theorem barrier_chain_witness :
    ∃ d1, TexOp.run demoCfg
        [.uploadBufferToTex ⟨1024, 70, 71⟩ seizedBuffer,
          .bindTexture { seizedBuffer with _boundPipLayout := some 3 },
          .bindTexture { seizedBuffer with _boundPipLayout := some 3 },
          .uploadBufferToTex ⟨1024, 70, 71⟩ seizedBuffer] demoTexture seizedDevice =
        some (demoTexture, d1) ∧
      (barriersIn d1.trace).map (fun b => (b.oldLayout, b.newLayout)) =
        [(7, 7), (7, 5), (5, 7)] ∧
      ∃ ext, d1.trace = seizedDevice.trace ++ ext ∧
        chainEnd 7 (barriersIn ext) = some 7 := by
  obtain ⟨t1, d1, hr⟩ := (barrier_chain demoCfg).2.2 rfl
    [.uploadBufferToTex ⟨1024, 70, 71⟩ seizedBuffer,
      .bindTexture { seizedBuffer with _boundPipLayout := some 3 },
      .bindTexture { seizedBuffer with _boundPipLayout := some 3 },
      .uploadBufferToTex ⟨1024, 70, 71⟩ seizedBuffer] demoTexture seizedDevice
  obtain ⟨ext, he, hc, _⟩ := (barrier_chain demoCfg).2.1 rfl rfl _ _ _ _ _ hr
  have hv : TexOp.run demoCfg
      [.uploadBufferToTex ⟨1024, 70, 71⟩ seizedBuffer,
        .bindTexture { seizedBuffer with _boundPipLayout := some 3 },
        .bindTexture { seizedBuffer with _boundPipLayout := some 3 },
        .uploadBufferToTex ⟨1024, 70, 71⟩ seizedBuffer] demoTexture seizedDevice =
      some (demoTexture,
        { seizedDevice with trace := seizedDevice.trace ++
          [.vkCmdPipelineBarrier 1 VK_PIPELINE_STAGE_TOP_OF_PIPE_BIT
              VK_PIPELINE_STAGE_TRANSFER_BIT ⟨7, 7, 80, 0, VK_ACCESS_TRANSFER_WRITE_BIT⟩,
            .vkCmdCopyBufferToImage 1 70 80 7 16 16,
            .vkCmdPipelineBarrier 1 VK_PIPELINE_STAGE_TRANSFER_BIT
              VK_PIPELINE_STAGE_FRAGMENT_SHADER_BIT
              ⟨7, 5, 80, VK_ACCESS_TRANSFER_WRITE_BIT, VK_ACCESS_SHADER_READ_BIT⟩,
            .vkCmdBindDescriptorSets 1 3 81,
            .vkCmdBindDescriptorSets 1 3 81,
            .vkCmdPipelineBarrier 1 VK_PIPELINE_STAGE_TOP_OF_PIPE_BIT
              VK_PIPELINE_STAGE_TRANSFER_BIT ⟨5, 7, 80, 0, VK_ACCESS_TRANSFER_WRITE_BIT⟩,
            .vkCmdCopyBufferToImage 1 70 80 7 16 16] }) := by decide
  rw [hv] at hr
  simp only [Option.some.injEq, Prod.mk.injEq] at hr
  obtain ⟨ht, hd⟩ := hr
  subst ht
  subst hd
  exact ⟨_, hv, by decide, ext, he, hc⟩


/-! ## The semaphores of a submission -/

theorem beginPass_ring (cfg : Cfg) (swapchain sc1 : Swapchain) (cb cb1 : CommandBuffer)
    (d d1 : Device) (h : cb.beginPass cfg swapchain d = some (cb1, sc1, d1)) :
    sc1.m_currentFrame = swapchain.m_currentFrame ∧
      sc1.m_availableSems = swapchain.m_availableSems ∧
      sc1.m_renderDoneSems = swapchain.m_renderDoneSems := by
  unfold CommandBuffer.beginPass at h
  split at h
  · rename_i p rp pinfo hp hrp hpi
    cases hi : swapchain.initFramebuffers cfg pinfo.renderPass rp d with
    | none => simp [hi] at h
    | some r1 =>
      obtain ⟨s1, e1⟩ := r1
      simp only [hi] at h
      cases ha : s1.acquireImage cfg cb._vkCmdBuffer e1 with
      | none => simp [ha] at h
      | some r2 =>
        obtain ⟨s2, e2⟩ := r2
        simp only [ha] at h
        split at h
        · simp only [Option.some.injEq, Prod.mk.injEq] at h
          obtain ⟨_, h2, _⟩ := h
          subst h2
          have r1 := initFramebuffers_ring cfg _ _ _ _ _ _ hi
          have r2 := acquireImage_ring cfg _ _ _ _ _ ha
          exact ⟨r2.1.trans r1.1, r2.2.1.trans r1.2.1, r2.2.2.trans r1.2.2⟩
        · cases h
  · cases hc : CYDASSERT cfg false with
    | none => simp [hc] at h
    | some u =>
      simp only [hc, Option.some.injEq, Prod.mk.injEq] at h
      rw [← h.2.1]; exact ⟨rfl, rfl, rfl⟩

/-- What a returning `beginPass` does to the semaphore lists. -/
theorem beginPass_sems (cfg : Cfg) (swapchain sc1 : Swapchain) (cb cb1 : CommandBuffer)
    (d d1 : Device) (h : cb.beginPass cfg swapchain d = some (cb1, sc1, d1)) :
    (cb.pipelineBound = false ∧ cb1 = cb ∧ d1 = d) ∨
    (cb.pipelineBound = true ∧ ∃ available renderDone,
      swapchain.m_availableSems[swapchain.m_currentFrame]? = some available ∧
      swapchain.m_renderDoneSems[swapchain.m_currentFrame]? = some renderDone ∧
      cb1._semsToWait = cb._semsToWait ++ [available] ∧
      cb1._semsToSignal = cb._semsToSignal ++ [renderDone]) := by
  have hr := beginPass_ring cfg swapchain sc1 cb cb1 d d1 h
  rcases beginPass_shape cfg swapchain sc1 cb cb1 d d1 h with
    ⟨hb, e, _, ed⟩ | ⟨hb, w, s, hw, hs, e⟩
  · exact Or.inl ⟨hb, e, ed⟩
  · refine Or.inr ⟨hb, w, s, ?_, ?_, by rw [e], by rw [e]⟩
    · rw [← hr.1, ← hr.2.1]; exact hw
    · rw [← hr.1, ← hr.2.2]; exact hs

theorem submit_found (cfg : Cfg) (cb : CommandBuffer) (d : Device) (pool : CommandPool)
    (queue : Handle) (hdev : cb._device = true) (hpool : cb._pool = some pool)
    (hq : cfg.getQueueFromFamily pool.getFamilyIndex = some queue) :
    ∃ d1, cb.submit cfg d =
        some ({ cb with _wasSubmitted := true, _semsToWait := [], _semsToSignal := [] }, d1) ∧
      d1.trace = d.trace ++
        (if cb._wasSubmitted then
          [.vkWaitForFences cb._vkFence 0, .vkResetFences cb._vkFence] else []) ++
        [.vkQueueSubmit queue
          ⟨[cb._vkCmdBuffer], cb._semsToWait, [VK_PIPELINE_STAGE_ALL_GRAPHICS_BIT],
            cb._semsToSignal⟩ cb._vkFence] := by
  cases hws : cb._wasSubmitted
  · refine ⟨_, by simp [CommandBuffer.submit, hdev, hpool, hq, hws]; rfl, ?_⟩
    simp only [vkQueueSubmit, vkCall]
    split <;> simp
  · have hw : ∃ r dw, vkWaitForFences cfg cb._vkFence 0 d = some (r, dw) ∧
        dw.trace = d.trace ++ [.vkWaitForFences cb._vkFence 0] := by
      unfold vkWaitForFences
      by_cases hs : cb._vkFence ∈ d.signaled
      · exact ⟨true, _, by simp [hs]; rfl, by simp [vkCall]⟩
      · exact ⟨false, _, by simp [hs]; rfl, by simp [vkCall]⟩
    obtain ⟨r, dw, hwe, hwt⟩ := hw
    refine ⟨_, by simp [CommandBuffer.submit, hdev, hpool, hq, hws, hwe]; rfl, ?_⟩
    simp only [vkQueueSubmit, vkResetFences, vkCall, hwt]
    split <;> simp

theorem touchesSems_of_not_beginPass (op : CmdOp) (h1 : op.clearsSems = false)
    (h2 : ∀ swapchain, op ≠ .beginPass swapchain) : op.touchesSems = false := by
  cases op with
  | beginPass swapchain => exact absurd rfl (h2 swapchain)
  | submit => simp [CmdOp.clearsSems] at h1
  | release => simp [CmdOp.clearsSems] at h1
  | _ => rfl

theorem semPair_of_not_beginPass (op : CmdOp)
    (h2 : ∀ swapchain, op ≠ .beginPass swapchain) : op.semPair = none := by
  cases op with
  | beginPass swapchain => exact absurd rfl (h2 swapchain)
  | _ => rfl

theorem run_accumulates (cfg : Cfg) (ops : List CmdOp) :
    ∀ (cb cb1 : CommandBuffer) (d d1 : Device),
      (∀ op ∈ ops, op.clearsSems = false) →
      cb.run cfg ops d = some (cb1, d1) →
      cb1._semsToWait = cb._semsToWait ++ (cb.passes cfg ops d).map Prod.fst ∧
        cb1._semsToSignal = cb._semsToSignal ++ (cb.passes cfg ops d).map Prod.snd := by
  induction ops with
  | nil =>
    intro cb cb1 d d1 _ h
    simp only [CommandBuffer.run, Option.some.injEq, Prod.mk.injEq] at h
    rw [← h.1]; simp [CommandBuffer.passes]
  | cons op ops ih =>
    intro cb cb1 d d1 hops h
    simp only [CommandBuffer.run] at h
    cases hs : cb.step cfg op d with
    | none => simp [hs] at h
    | some r =>
      obtain ⟨cb2, d2⟩ := r
      simp only [hs] at h
      have h2 := ih cb2 cb1 d2 d1 (fun o ho => hops o (List.mem_cons_of_mem _ ho)) h
      have hop := hops op (List.mem_cons_self _ _)
      simp only [CommandBuffer.passes, hs]
      have key : cb2._semsToWait = cb._semsToWait ++
            ((if cb.pipelineBound then op.semPair.toList else []).map Prod.fst) ∧
          cb2._semsToSignal = cb._semsToSignal ++
            ((if cb.pipelineBound then op.semPair.toList else []).map Prod.snd) := by
        by_cases hbp : ∃ swapchain, op = .beginPass swapchain
        · obtain ⟨swapchain, e⟩ := hbp
          subst e
          obtain ⟨sc1, hb⟩ := step_beginPass cfg swapchain cb cb2 d d2 hs
          rcases beginPass_sems cfg swapchain sc1 cb cb2 d d2 hb with
            ⟨hb0, e, _⟩ | ⟨hb1, w, s, hw, hsg, e1, e2⟩
          · rw [e, hb0]; simp
          · rw [e1, e2, hb1]
            simp [CmdOp.semPair, List.getD_eq_getElem?_getD, hw, hsg]
        · have hnb : ∀ swapchain, op ≠ .beginPass swapchain := fun swapchain e => hbp ⟨swapchain, e⟩
          have hk := step_keeps_sems cfg op cb cb2 d d2 (touchesSems_of_not_beginPass op hop hnb) hs
          have hn := semPair_of_not_beginPass op hnb
          rw [hk.1, hk.2, hn]; simp
      rw [h2.1, h2.2, key.1, key.2]
      simp [List.append_assoc]


/-- C18: when the queue is found, `submit` returns and its `vkQueueSubmit` passes
exactly the accumulated wait and signal semaphore lists; afterwards both lists
are empty and the was-submitted flag is set.  A `beginPass` that returns with a
pipeline bound appends the image-available semaphore of the current ring slot to
the wait list and the render-done semaphore of that slot to the signal list, a
rejected one changes nothing, and no call other than `beginPass`, `submit` and
`release` changes the lists.  So after any calls other than `submit` and
`release` on a buffer whose lists are empty, as a submit leaves them, the
submission carries one pair per successful `beginPass`, in call order. -/
theorem submit_passes_accumulated (cfg : Cfg) (cb : CommandBuffer) (d : Device) :
    (∀ pool queue, cb._device = true → cb._pool = some pool →
      cfg.getQueueFromFamily pool.getFamilyIndex = some queue →
      ∃ d1, cb.submit cfg d =
          some ({ cb with _wasSubmitted := true, _semsToWait := [], _semsToSignal := [] },
            d1) ∧
        d1.trace = d.trace ++
          (if cb._wasSubmitted then
            [.vkWaitForFences cb._vkFence 0, .vkResetFences cb._vkFence] else []) ++
          [.vkQueueSubmit queue
            ⟨[cb._vkCmdBuffer], cb._semsToWait, [VK_PIPELINE_STAGE_ALL_GRAPHICS_BIT],
              cb._semsToSignal⟩ cb._vkFence]) ∧
    (∀ swapchain cb1 sc1 d1, cb.beginPass cfg swapchain d = some (cb1, sc1, d1) →
      (cb.pipelineBound = false ∧ cb1 = cb ∧ d1 = d) ∨
      (cb.pipelineBound = true ∧ ∃ available renderDone,
        swapchain.m_availableSems[swapchain.m_currentFrame]? = some available ∧
        swapchain.m_renderDoneSems[swapchain.m_currentFrame]? = some renderDone ∧
        cb1._semsToWait = cb._semsToWait ++ [available] ∧
        cb1._semsToSignal = cb._semsToSignal ++ [renderDone])) ∧
    (∀ op cb1 d1, op.touchesSems = false → cb.step cfg op d = some (cb1, d1) →
      cb1._semsToWait = cb._semsToWait ∧ cb1._semsToSignal = cb._semsToSignal) ∧
    (∀ ops cb1 d1 pool queue, cb._semsToWait = [] → cb._semsToSignal = [] →
      (∀ op ∈ ops, op.clearsSems = false) →
      cb.run cfg ops d = some (cb1, d1) →
      cb1._device = true → cb1._pool = some pool →
      cfg.getQueueFromFamily pool.getFamilyIndex = some queue →
      cb1._semsToWait = (cb.passes cfg ops d).map Prod.fst ∧
      cb1._semsToSignal = (cb.passes cfg ops d).map Prod.snd ∧
      ∃ d2, cb1.submit cfg d1 =
          some ({ cb1 with _wasSubmitted := true, _semsToWait := [], _semsToSignal := [] },
            d2) ∧
        d2.trace = d1.trace ++
          (if cb1._wasSubmitted then
            [.vkWaitForFences cb1._vkFence 0, .vkResetFences cb1._vkFence] else []) ++
          [.vkQueueSubmit queue
            ⟨[cb1._vkCmdBuffer], (cb.passes cfg ops d).map Prod.fst,
              [VK_PIPELINE_STAGE_ALL_GRAPHICS_BIT], (cb.passes cfg ops d).map Prod.snd⟩
            cb1._vkFence]) := by
  refine ⟨?_, ?_, ?_, ?_⟩
  · intro pool queue hdev hpool hq
    exact submit_found cfg cb d pool queue hdev hpool hq
  · intro swapchain cb1 sc1 d1 h
    exact beginPass_sems cfg swapchain sc1 cb cb1 d d1 h
  · intro op cb1 d1 hop h
    exact step_keeps_sems cfg op cb cb1 d d1 hop h
  · intro ops cb1 d1 pool queue hw hs hops hrun hdev hpool hq
    have ha := run_accumulates cfg ops cb cb1 d d1 hops hrun
    rw [hw, List.nil_append] at ha
    rw [hs, List.nil_append] at ha
    obtain ⟨d2, h1, h2⟩ := submit_found cfg cb1 d1 pool queue hdev hpool hq
    refine ⟨ha.1, ha.2, d2, h1, ?_⟩
    rw [h2, ha.1, ha.2]

/-- Witness for C18: a frame with two render passes, on the example swapchain at
ring slot 0 and at ring slot 1, recorded with the example pipeline on the seized
command buffer; its submission waits on semaphores 1 and 3 and signals 2 and
4. -/
theorem submit_passes_accumulated_witness :
    ∃ cb1 d1 d2,
      seizedBuffer.run demoCfg
        [.startRecording, .bindPipeline demoInfo, .beginPass demoSwapchain, .draw 3, .endPass,
          .beginPass { demoSwapchain with m_currentFrame := 1 }, .draw 3, .endPass,
          .endRecording] demoDevice = some (cb1, d1) ∧
      seizedBuffer.passes demoCfg
        [.startRecording, .bindPipeline demoInfo, .beginPass demoSwapchain, .draw 3, .endPass,
          .beginPass { demoSwapchain with m_currentFrame := 1 }, .draw 3, .endPass,
          .endRecording] demoDevice = [(1, 2), (3, 4)] ∧
      cb1.submit demoCfg d1 =
        some ({ cb1 with _wasSubmitted := true, _semsToWait := [], _semsToSignal := [] }, d2) ∧
      d2.trace = d1.trace ++ [.vkQueueSubmit 100 ⟨[1], [1, 3], [32768], [2, 4]⟩ 2] := by
  have hsome : (seizedBuffer.run demoCfg
      [.startRecording, .bindPipeline demoInfo, .beginPass demoSwapchain, .draw 3, .endPass,
        .beginPass { demoSwapchain with m_currentFrame := 1 }, .draw 3, .endPass,
        .endRecording] demoDevice).map
      (fun r => (r.1._device, r.1._pool, r.1._wasSubmitted, r.1._vkCmdBuffer, r.1._vkFence)) =
      some (true, some demoPool, false, 1, 2) := by decide
  have hp : seizedBuffer.passes demoCfg
      [.startRecording, .bindPipeline demoInfo, .beginPass demoSwapchain, .draw 3, .endPass,
        .beginPass { demoSwapchain with m_currentFrame := 1 }, .draw 3, .endPass,
        .endRecording] demoDevice = [(1, 2), (3, 4)] := by decide
  cases hr : seizedBuffer.run demoCfg
      [.startRecording, .bindPipeline demoInfo, .beginPass demoSwapchain, .draw 3, .endPass,
        .beginPass { demoSwapchain with m_currentFrame := 1 }, .draw 3, .endPass,
        .endRecording] demoDevice with
  | none => rw [hr] at hsome; cases hsome
  | some r =>
    obtain ⟨cb1, d1⟩ := r
    rw [hr] at hsome
    simp only [Option.map_some', Option.some.injEq, Prod.mk.injEq] at hsome
    obtain ⟨hdev, hpool, hws, hcmd, hf⟩ := hsome
    obtain ⟨_, _, d2, h1, h2⟩ :=
      (submit_passes_accumulated demoCfg seizedBuffer demoDevice).2.2.2 _ cb1 d1 demoPool 100
        rfl rfl (by decide) hr hdev hpool rfl
    rw [hp, hws, hcmd, hf] at h2
    exact ⟨cb1, d1, d2, rfl, hp, h1, by
      simpa [VK_PIPELINE_STAGE_ALL_GRAPHICS_BIT] using h2⟩


/-! ## The choices made when the swapchain is created -/

theorem stdClamp_mem (v lo hi : Nat) (h : lo ≤ hi) :
    lo ≤ stdClamp v lo hi ∧ stdClamp v lo hi ≤ hi := by
  unfold stdClamp
  split
  · exact ⟨Nat.le_refl _, h⟩
  · rename_i h1
    split
    · exact ⟨h, Nat.le_refl _⟩
    · rename_i h2
      exact ⟨Nat.le_of_not_lt h1, Nat.le_of_not_lt h2⟩

theorem stdClamp_id (v lo hi : Nat) (h1 : lo ≤ v) (h2 : v ≤ hi) : stdClamp v lo hi = v := by
  unfold stdClamp
  rw [if_neg (Nat.not_lt.mpr h1), if_neg (Nat.not_lt.mpr h2)]

/-- C29: `chooseExtent` returns the current extent of the surface whenever the
width of that extent is not `UINT32_MAX`; otherwise it returns the requested
width and height, each clamped by `std::clamp` to the limits of the surface.
When the minimum is at most the maximum in both dimensions, the result then lies
between them in both dimensions, and it is the requested extent whenever that
lies between them. -/
theorem chooseExtent_clamps (extent : Extent) (caps : VkSurfaceCapabilitiesKHR) :
    (caps.currentExtent.width ≠ UINT32_MAX → chooseExtent extent caps = caps.currentExtent) ∧
    (caps.currentExtent.width = UINT32_MAX →
      chooseExtent extent caps =
        ⟨stdClamp extent.width caps.minImageExtent.width caps.maxImageExtent.width,
          stdClamp extent.height caps.minImageExtent.height caps.maxImageExtent.height⟩ ∧
      (caps.minImageExtent.width ≤ caps.maxImageExtent.width →
        caps.minImageExtent.height ≤ caps.maxImageExtent.height →
        (caps.minImageExtent.width ≤ (chooseExtent extent caps).width ∧
          (chooseExtent extent caps).width ≤ caps.maxImageExtent.width ∧
          caps.minImageExtent.height ≤ (chooseExtent extent caps).height ∧
          (chooseExtent extent caps).height ≤ caps.maxImageExtent.height) ∧
        (caps.minImageExtent.width ≤ extent.width →
          extent.width ≤ caps.maxImageExtent.width →
          caps.minImageExtent.height ≤ extent.height →
          extent.height ≤ caps.maxImageExtent.height →
          chooseExtent extent caps = ⟨extent.width, extent.height⟩))) := by
  constructor
  · intro h
    simp [chooseExtent, h]
  · intro h
    have he : chooseExtent extent caps =
        ⟨stdClamp extent.width caps.minImageExtent.width caps.maxImageExtent.width,
          stdClamp extent.height caps.minImageExtent.height caps.maxImageExtent.height⟩ := by
      simp [chooseExtent, h]
    refine ⟨he, ?_⟩
    intro hw hh
    rw [he]
    refine ⟨⟨(stdClamp_mem _ _ _ hw).1, (stdClamp_mem _ _ _ hw).2,
      (stdClamp_mem _ _ _ hh).1, (stdClamp_mem _ _ _ hh).2⟩, ?_⟩
    intro a b c e
    rw [stdClamp_id _ _ _ a b, stdClamp_id _ _ _ c e]

/-- Witness for C29: a surface that leaves the extent to the swapchain, with
limits 1 x 1 to 4096 x 4096; a request of 8000 x 600 is clamped to 4096 x 600 and
a request of 1280 x 720 is kept. -/
theorem chooseExtent_clamps_witness :
    chooseExtent ⟨8000, 600⟩ ⟨2, 3, ⟨UINT32_MAX, UINT32_MAX⟩, ⟨1, 1⟩, ⟨4096, 4096⟩⟩ =
        ⟨4096, 600⟩ ∧
      chooseExtent ⟨1280, 720⟩ ⟨2, 3, ⟨UINT32_MAX, UINT32_MAX⟩, ⟨1, 1⟩, ⟨4096, 4096⟩⟩ =
        ⟨1280, 720⟩ ∧
      chooseExtent ⟨1280, 720⟩ ⟨2, 3, ⟨800, 600⟩, ⟨1, 1⟩, ⟨4096, 4096⟩⟩ = ⟨800, 600⟩ :=
  ⟨((chooseExtent_clamps ⟨8000, 600⟩
      ⟨2, 3, ⟨UINT32_MAX, UINT32_MAX⟩, ⟨1, 1⟩, ⟨4096, 4096⟩⟩).2 rfl).1,
    ((chooseExtent_clamps ⟨1280, 720⟩
      ⟨2, 3, ⟨UINT32_MAX, UINT32_MAX⟩, ⟨1, 1⟩, ⟨4096, 4096⟩⟩).2 rfl).2
      (by decide) (by decide) |>.2 (by decide) (by decide) (by decide) (by decide),
    (chooseExtent_clamps ⟨1280, 720⟩ ⟨2, 3, ⟨800, 600⟩, ⟨1, 1⟩, ⟨4096, 4096⟩⟩).1
      (by decide)⟩

theorem find_or_first {α : Type} (p : α → Bool) (l : List α) (hne : l ≠ []) :
    ∃ x, (l.find? p = some x ∨ (l.find? p = none ∧ l[0]? = some x)) ∧ x ∈ l ∧
      ((∃ y ∈ l, p y = true) → p x = true) ∧
      ((∀ y ∈ l, p y = false) → l.head? = some x) := by
  cases hf : l.find? p with
  | some it =>
    refine ⟨it, Or.inl rfl, List.mem_of_find?_eq_some hf, fun _ => List.find?_some hf, ?_⟩
    intro hall
    have h1 := List.find?_some hf
    rw [hall it (List.mem_of_find?_eq_some hf)] at h1
    cases h1
  | none =>
    cases l with
    | nil => exact absurd rfl hne
    | cons a t =>
      refine ⟨a, Or.inr ⟨rfl, by simp⟩, List.mem_cons_self _ _, ?_, fun _ => rfl⟩
      rintro ⟨y, hy, hp⟩
      have := List.find?_eq_none.mp hf y hy
      simp [hp] at this

/-- C30: for every non-empty list of supported surface formats, `chooseFormat`
returns an element of the list: one with the requested format and colour space,
and so that very pair, when the list holds one, and the first element of the list
otherwise.  The same holds of `choosePresentMode` and the requested present
mode. -/
theorem choose_from_supported (cfg : Cfg) (format : PixelFormat) (space : ColorSpace)
    (mode : PresentMode) :
    (∀ formats : List VkSurfaceFormatKHR, formats ≠ [] →
      ∃ chosen, chooseFormat cfg format space formats = some chosen ∧ chosen ∈ formats ∧
        ((⟨cfg.cydFormatToVkFormat format, cfg.cydSpaceToVkSpace space⟩ :
            VkSurfaceFormatKHR) ∈ formats →
          chosen = ⟨cfg.cydFormatToVkFormat format, cfg.cydSpaceToVkSpace space⟩) ∧
        ((⟨cfg.cydFormatToVkFormat format, cfg.cydSpaceToVkSpace space⟩ :
            VkSurfaceFormatKHR) ∉ formats → formats.head? = some chosen)) ∧
    (∀ presentModes : List Nat, presentModes ≠ [] →
      ∃ chosen, choosePresentMode mode presentModes = some chosen ∧ chosen ∈ presentModes ∧
        ((match mode with
            | .FIFO => VK_PRESENT_MODE_FIFO_KHR
            | .FIFO_RELAXED => VK_PRESENT_MODE_FIFO_RELAXED_KHR
            | .IMMEDIATE => VK_PRESENT_MODE_IMMEDIATE_KHR
            | .MAILBOX => VK_PRESENT_MODE_MAILBOX_KHR) ∈ presentModes →
          chosen = (match mode with
            | .FIFO => VK_PRESENT_MODE_FIFO_KHR
            | .FIFO_RELAXED => VK_PRESENT_MODE_FIFO_RELAXED_KHR
            | .IMMEDIATE => VK_PRESENT_MODE_IMMEDIATE_KHR
            | .MAILBOX => VK_PRESENT_MODE_MAILBOX_KHR)) ∧
        ((match mode with
            | .FIFO => VK_PRESENT_MODE_FIFO_KHR
            | .FIFO_RELAXED => VK_PRESENT_MODE_FIFO_RELAXED_KHR
            | .IMMEDIATE => VK_PRESENT_MODE_IMMEDIATE_KHR
            | .MAILBOX => VK_PRESENT_MODE_MAILBOX_KHR) ∉ presentModes →
          presentModes.head? = some chosen)) := by
  constructor
  · intro formats hne
    obtain ⟨x, hx, hmem, hyes, hno⟩ := find_or_first
      (fun f : VkSurfaceFormatKHR =>
        f.format == cfg.cydFormatToVkFormat format &&
          f.colorSpace == cfg.cydSpaceToVkSpace space) formats hne
    refine ⟨x, ?_, hmem, ?_, ?_⟩
    · rcases hx with h | ⟨h, h0⟩
      · simp only [chooseFormat, h]
      · simp only [chooseFormat, h, h0]
    · intro hin
      have hp := hyes ⟨_, hin, by simp⟩
      simp only [Bool.and_eq_true, beq_iff_eq] at hp
      cases x
      simp only at hp
      simp [hp.1, hp.2]
    · intro hnin
      apply hno
      intro y hy
      apply Bool.eq_false_iff.mpr
      intro hb
      simp only [Bool.and_eq_true, beq_iff_eq] at hb
      apply hnin
      cases y
      simp only at hb
      rw [← hb.1, ← hb.2]
      exact hy
  · intro presentModes hne
    obtain ⟨x, hx, hmem, hyes, hno⟩ := find_or_first
      (fun presentMode : Nat => presentMode ==
        (match mode with
          | .FIFO => VK_PRESENT_MODE_FIFO_KHR
          | .FIFO_RELAXED => VK_PRESENT_MODE_FIFO_RELAXED_KHR
          | .IMMEDIATE => VK_PRESENT_MODE_IMMEDIATE_KHR
          | .MAILBOX => VK_PRESENT_MODE_MAILBOX_KHR)) presentModes hne
    refine ⟨x, ?_, hmem, ?_, ?_⟩
    · rcases hx with h | ⟨h, h0⟩
      · simp only [choosePresentMode, h]
      · simp only [choosePresentMode, h, h0]
    · intro hin
      have hp := hyes ⟨_, hin, by simp⟩
      simpa using hp
    · intro hnin
      apply hno
      intro y hy
      apply Bool.eq_false_iff.mpr
      intro hb
      simp only [beq_iff_eq] at hb
      exact hnin (hb ▸ hy)

/-- Witness for C30: of two supported formats the requested one, which is the
second, is chosen; the mailbox mode, which is not supported, gives way to the
first supported mode. -/
theorem choose_from_supported_witness :
    chooseFormat demoCfg .BGRA8_UNORM .SRGB_NONLINEAR [⟨37, 0⟩, ⟨44, 0⟩] = some ⟨44, 0⟩ ∧
      choosePresentMode .MAILBOX [2, 3] = some 2 := by
  obtain ⟨c1, h1, _, h1y, _⟩ :=
    (choose_from_supported demoCfg .BGRA8_UNORM .SRGB_NONLINEAR .MAILBOX).1
      [⟨37, 0⟩, ⟨44, 0⟩] (by decide)
  obtain ⟨c2, h2, _, _, h2n⟩ :=
    (choose_from_supported demoCfg .BGRA8_UNORM .SRGB_NONLINEAR .MAILBOX).2
      [2, 3] (by decide)
  have e1 := h1y (by decide)
  have e2 := h2n (by decide)
  simp only [List.head?_cons, Option.some.injEq] at e2
  rw [h1, h2, e1, ← e2]
  exact ⟨rfl, rfl⟩


/-! ## The creation parameters of pipelines and pipeline layouts -/

/-- C24: for every pipeline description, with any render pass and pipeline
layout, the creation parameters hold exactly 4 vertex attribute descriptions, all
on binding 0, with pairwise distinct shader locations: location 0 at the offset
of `pos`, location 1 at the offset of `col`, location 2 at the offset of `uv` and
location 3 at the offset of `normal` in `cyd::Vertex` (in the array the
description of the normal, at index 2, comes before that of the UV, at index 3).
A pipeline look-up that misses passes these parameters to its one creation
call. -/
theorem vertex_attributes_fixed (cfg : Cfg) (info : PipelineInfo)
    (renderPass pipLayout : Handle) :
    (pipelineInfoOf cfg info renderPass pipLayout).attributeDescs.length = 4 ∧
    (∀ a ∈ (pipelineInfoOf cfg info renderPass pipLayout).attributeDescs, a.binding = 0) ∧
    ((pipelineInfoOf cfg info renderPass pipLayout).attributeDescs.map
      (fun a => a.location)).Nodup ∧
    (pipelineInfoOf cfg info renderPass pipLayout).attributeDescs =
      [⟨0, 0, .R32G32B32_SFLOAT, offsetof .pos⟩,
        ⟨0, 1, .R32G32B32A32_SFLOAT, offsetof .col⟩,
        ⟨0, 3, .R32G32B32_SFLOAT, offsetof .normal⟩,
        ⟨0, 2, .R32G32B32_SFLOAT, offsetof .uv⟩] ∧
    ((pipelineInfoOf cfg info renderPass pipLayout).attributeDescs.filterMap
      (fun a => if a.location = 2 then some a.offset else none) = [offsetof .uv] ∧
     (pipelineInfoOf cfg info renderPass pipLayout).attributeDescs.filterMap
      (fun a => if a.location = 3 then some a.offset else none) = [offsetof .normal]) ∧
    (pipelineInfoOf cfg info renderPass pipLayout).vertexBindingDesc.stride =
      (VertexField.declared.map VertexField.sizeof).sum ∧
    (∀ (d d3 : Device) (h : Handle),
      cacheFind PipelineInfo.opEq d.pipelineStash._pipelines info = none →
      PipelineStash.findOrCreatePipeline cfg info d = some (h, d3) →
      ∃ (rp pl : Handle) (d2 : Device), d3.trace = d2.trace ++
          [.vkCreateGraphicsPipelines (pipelineInfoOf cfg info rp pl)] ∧
        (pipelineInfoOf cfg info rp pl).attributeDescs =
          (pipelineInfoOf cfg info renderPass pipLayout).attributeDescs) := by
  have ha : (pipelineInfoOf cfg info renderPass pipLayout).attributeDescs = attributeDescs :=
    rfl
  rw [ha]
  refine ⟨by decide, by decide, by decide, by decide, ⟨by decide, by decide⟩,
    (by decide : (52 : Nat) = (VertexField.declared.map VertexField.sizeof).sum), ?_⟩
  intro d d3 h hmiss hc
  rcases findOrCreatePipeline_cases cfg info d d3 h hc with ⟨hf, _⟩ | ⟨_, rp, d1, pl, d2, _, _, _, e⟩
  · rw [hmiss] at hf; cases hf
  · exact ⟨rp, pl, d2, by rw [e]; rfl, rfl⟩

/-- Witness for C24: the look-up of the example pipeline on the freshly built
device misses and creates the pipeline with the four attribute descriptions. -/
theorem vertex_attributes_fixed_witness :
    ∃ (rp pl : Handle) (d2 : Device) (h : Handle) (d3 : Device),
      PipelineStash.findOrCreatePipeline demoCfg demoInfo Device.init = some (h, d3) ∧
      d3.trace = d2.trace ++ [.vkCreateGraphicsPipelines (pipelineInfoOf demoCfg demoInfo rp pl)] ∧
      (pipelineInfoOf demoCfg demoInfo rp pl).attributeDescs.map
          (fun a => (a.location, a.offset)) = [(0, 0), (1, 12), (3, 40), (2, 28)] := by
  obtain ⟨h, d3, hc⟩ := findOrCreatePipeline_total demoCfg (Or.inl rfl) demoInfo Device.init
  obtain ⟨rp, pl, d2, ht, _⟩ :=
    (vertex_attributes_fixed demoCfg demoInfo 0 0).2.2.2.2.2.2 Device.init d3 h (by decide) hc
  exact ⟨rp, pl, d2, h, d3, hc, ht,
    (by decide : attributeDescs.map (fun a => (a.location, a.offset)) =
      [(0, 0), (1, 12), (3, 40), (2, 28)])⟩

/-- C25: on a miss of the pipeline-layout cache, a look-up that returns has
resolved the descriptor-set layout of the description to one handle and has
then issued one `vkCreatePipelineLayout`, whose set layouts are that handle
repeated N times, N being the number of shader objects of the description.  With
N = 0 the pipeline layout is created with no set layouts, while the
descriptor-set layout of the empty description is looked up all the same: it is
cached afterwards, and created when it was not cached before.  The look-up
returns whenever no assertion aborts. -/
theorem pipeline_layout_repeats_set_layout (cfg : Cfg) (info : PipelineLayoutInfo)
    (d : Device)
    (hmiss : cacheFind PipelineLayoutInfo.opEq d.pipelineStash._pipLayouts info = none) :
    (∀ h d2, PipelineStash.findOrCreatePipLayout cfg info d = some (h, d2) →
      ∃ descSetLayout d1 setLayouts,
        PipelineStash.findOrCreateDescSetLayout cfg info.descSetLayout d =
          some (descSetLayout, d1) ∧
        d2.trace = d1.trace ++
          [.vkCreatePipelineLayout ⟨setLayouts, info.ranges.map (vkRangeOf cfg)⟩] ∧
        setLayouts.length = info.descSetLayout.shaderObjects.length ∧
        (∀ x ∈ setLayouts, x = descSetLayout) ∧
        (info.descSetLayout.shaderObjects = [] → setLayouts = []) ∧
        cacheFind DescriptorSetLayoutInfo.opEq d2.pipelineStash._descSetLayouts
          info.descSetLayout = some descSetLayout ∧
        (cacheFind DescriptorSetLayoutInfo.opEq d.pipelineStash._descSetLayouts
            info.descSetLayout = none →
          d1.trace = d.trace ++ [.vkCreateDescriptorSetLayout
            ⟨info.descSetLayout.shaderObjects.map (descSetLayoutBindingOf cfg)⟩]) ∧
        (∀ cached, cacheFind DescriptorSetLayoutInfo.opEq d.pipelineStash._descSetLayouts
            info.descSetLayout = some cached → descSetLayout = cached ∧ d1 = d)) ∧
    (NoAbort cfg → ∃ h d2, PipelineStash.findOrCreatePipLayout cfg info d = some (h, d2)) := by
  constructor
  · intro h d2 hc
    rcases findOrCreatePipLayout_cases cfg info d d2 h hc with ⟨hf, _⟩ | ⟨_, dsl, d1, hd, _, e⟩
    · rw [hmiss] at hf; cases hf
    · have hfound := findOrCreateDescSetLayout_found cfg info.descSetLayout d d1 dsl hd
      refine ⟨dsl, d1, List.replicate info.descSetLayout.shaderObjects.length dsl, hd,
        by rw [e]; rfl, List.length_replicate _ _, fun x hx => List.eq_of_mem_replicate hx,
        ?_, ?_, ?_, ?_⟩
      · intro h0; rw [h0]; rfl
      · rw [e]; exact hfound
      · intro hn
        rcases findOrCreateDescSetLayout_cases cfg info.descSetLayout d d1 dsl hd with
          ⟨hf, _⟩ | ⟨_, _, e1⟩
        · rw [hn] at hf; cases hf
        · rw [e1]; rfl
      · intro cached hs
        rcases findOrCreateDescSetLayout_cases cfg info.descSetLayout d d1 dsl hd with
          ⟨hf, e1⟩ | ⟨hf, _, _⟩
        · rw [hs] at hf
          exact ⟨(Option.some.inj hf).symm, e1⟩
        · rw [hs] at hf; cases hf
  · intro hna
    exact findOrCreatePipLayout_total cfg hna info d

/-- Witness for C25: a pipeline layout without shader objects, looked up on the
freshly built device: the empty descriptor-set layout is created, then the
pipeline layout with no set layouts. -/
theorem pipeline_layout_repeats_set_layout_witness :
    ∃ h d2, PipelineStash.findOrCreatePipLayout demoCfg ⟨[⟨1, 0, 64⟩], ⟨[]⟩⟩ Device.init =
        some (h, d2) ∧
      d2.trace = [.vkCreateDescriptorSetLayout ⟨[]⟩,
        .vkCreatePipelineLayout ⟨[], [⟨1, 0, 64⟩]⟩] := by
  obtain ⟨h, d2, hc⟩ :=
    (pipeline_layout_repeats_set_layout demoCfg ⟨[⟨1, 0, 64⟩], ⟨[]⟩⟩ Device.init
      (by decide)).2 (Or.inl rfl)
  obtain ⟨dsl, d1, sl, _, ht, _, _, h0, _, hn, _⟩ :=
    (pipeline_layout_repeats_set_layout demoCfg ⟨[⟨1, 0, 64⟩], ⟨[]⟩⟩ Device.init
      (by decide)).1 h d2 hc
  refine ⟨h, d2, hc, ?_⟩
  rw [ht, hn (by decide), h0 rfl]
  rfl


/-! ## Calls without a bound pipeline -/

/-- The four bound fields are set and cleared together. -/
theorem step_keeps_together (cfg : Cfg) (op : CmdOp) (cb cb1 : CommandBuffer) (d d1 : Device)
    (hinv : cb._boundPip.isSome = cb._boundPipLayout.isSome ∧
      cb._boundRenderPass.isSome = cb._boundPipLayout.isSome ∧
      cb._boundPipInfo.isSome = cb._boundPipLayout.isSome)
    (h : cb.step cfg op d = some (cb1, d1)) :
    cb1._boundPip.isSome = cb1._boundPipLayout.isSome ∧
      cb1._boundRenderPass.isSome = cb1._boundPipLayout.isSome ∧
      cb1._boundPipInfo.isSome = cb1._boundPipLayout.isSome := by
  cases op
  case seize pool usage =>
    obtain ⟨x, y, e⟩ := seize_shape cfg pool usage cb cb1 d d1 h
    subst e; simpa using hinv
  case startRecording =>
    rcases startRecording_shape cfg cb cb1 d d1 h with e | e <;> subst e <;> simpa using hinv
  case endRecording =>
    rcases endRecording_shape cfg cb cb1 d d1 h with e | e <;> subst e
    · exact hinv
    · simp
  case bindPipeline info =>
    rcases bindPipeline_shape cfg info cb cb1 d d1 h with e | ⟨p, pl, rp, e⟩ <;> subst e
    · exact hinv
    · simp
  case release =>
    rcases release_shape cb cb1 d d1 h with ⟨_, e, _⟩ | ⟨_, e, _⟩ <;> subst e
    · exact hinv
    · simp [CommandBuffer.unallocated]
  case beginPass swapchain =>
    obtain ⟨sc1, hb⟩ := step_beginPass cfg swapchain cb cb1 d d1 h
    rcases beginPass_shape cfg swapchain sc1 cb cb1 d d1 hb with ⟨_, e, _⟩ | ⟨_, w, s, _, _, e⟩ <;>
      subst e <;> simpa using hinv
  case submit =>
    rcases submit_shape cfg cb cb1 d d1 h with e | e <;> subst e <;> simpa using hinv
  all_goals
    first
    | (have e := map_pair_fst _ _ cb cb1 d1 h; subst e; exact hinv)
    | (simp only [CommandBuffer.step, Option.some.injEq, Prod.mk.injEq] at h
       obtain ⟨e, _⟩ := h
       subst e; exact hinv)

theorem run_keeps_together (cfg : Cfg) (ops : List CmdOp) :
    ∀ (cb cb1 : CommandBuffer) (d d1 : Device),
      (cb._boundPip.isSome = cb._boundPipLayout.isSome ∧
        cb._boundRenderPass.isSome = cb._boundPipLayout.isSome ∧
        cb._boundPipInfo.isSome = cb._boundPipLayout.isSome) →
      cb.run cfg ops d = some (cb1, d1) →
      (cb1._boundPip.isSome = cb1._boundPipLayout.isSome ∧
        cb1._boundRenderPass.isSome = cb1._boundPipLayout.isSome ∧
        cb1._boundPipInfo.isSome = cb1._boundPipLayout.isSome) := by
  induction ops with
  | nil =>
    intro cb cb1 d d1 hinv h
    simp only [CommandBuffer.run, Option.some.injEq, Prod.mk.injEq] at h
    rw [← h.1]; exact hinv
  | cons op ops ih =>
    intro cb cb1 d d1 hinv h
    simp only [CommandBuffer.run] at h
    cases hs : cb.step cfg op d with
    | none => simp [hs] at h
    | some r =>
      obtain ⟨cb2, d2⟩ := r
      simp only [hs] at h
      exact ih cb2 cb1 d2 d1 (step_keeps_together cfg op cb cb2 d d2 hinv hs) h

/-- C21: in every state that calls of the member functions reach from the
unallocated command buffer, the bound pipeline, pipeline layout, render pass and
pipeline description are all set or all empty, so "no pipeline is bound" is one
condition.  In that condition (release build) `bindBuffer`, `bindTexture` and
`updatePushConstants` return with the device, the command buffer and the texture
unchanged, and `beginPass` returns with the device, the command buffer and the
swapchain unchanged: no native call, no image acquired, no framebuffer built, no
semaphore appended.  In a debug build the assertion of each guard aborts. -/
theorem unbound_calls_rejected (cfg : Cfg) (cb : CommandBuffer) (d : Device) :
    (∀ ops d0, CommandBuffer.unallocated.run cfg ops d0 = some (cb, d) →
      (cb.pipelineBound = false ↔ cb._boundPipLayout = none)) ∧
    (cb._boundPipLayout = none →
      (∀ buffer, cb.step cfg (.bindBuffer buffer) d =
        if cfg.debug then none else some (cb, d)) ∧
      (∀ texture, cb.bindTexture cfg texture d =
        if cfg.debug then none else some (texture, d)) ∧
      (∀ texture, cb.step cfg (.bindTexture texture) d =
        if cfg.debug then none else some (cb, d)) ∧
      (∀ range data, cb.step cfg (.updatePushConstants range data) d =
        if cfg.debug then none else some (cb, d))) ∧
    (cb.pipelineBound = false →
      ∀ swapchain, cb.beginPass cfg swapchain d =
        if cfg.debug then none else some (cb, swapchain, d)) := by
  refine ⟨?_, ?_, ?_⟩
  · intro ops d0 hrun
    have ht := run_keeps_together cfg ops CommandBuffer.unallocated cb d0 d
      (by simp [CommandBuffer.unallocated]) hrun
    unfold CommandBuffer.pipelineBound
    rw [ht.1, ht.2.1, ht.2.2]
    cases cb._boundPipLayout <;> simp
  · intro hl
    refine ⟨?_, ?_, ?_, ?_⟩
    · intro buffer
      simp only [CommandBuffer.step, CommandBuffer.bindBuffer, hl, CYDASSERT]
      cases cfg.debug <;> rfl
    · intro texture
      simp only [CommandBuffer.bindTexture, hl, CYDASSERT]
      cases cfg.debug <;> rfl
    · intro texture
      simp only [CommandBuffer.step, CommandBuffer.bindTexture, hl, CYDASSERT]
      cases cfg.debug <;> rfl
    · intro range data
      simp only [CommandBuffer.step, CommandBuffer.updatePushConstants, hl, CYDASSERT]
      cases cfg.debug <;> rfl
  · intro hb swapchain
    unfold CommandBuffer.pipelineBound at hb
    unfold CommandBuffer.beginPass
    cases hp : cb._boundPip with
    | none => simp only [CYDASSERT]; cases cfg.debug <;> rfl
    | some p =>
      cases hrp : cb._boundRenderPass with
      | none => simp only [CYDASSERT]; cases cfg.debug <;> rfl
      | some rp =>
        cases hpi : cb._boundPipInfo with
        | none => simp only [CYDASSERT]; cases cfg.debug <;> rfl
        | some pinfo => simp [hp, hrp, hpi] at hb

/-- Witness for C21: the seized command buffer, on which no pipeline was bound;
`beginPass` on the example swapchain changes nothing. -/
theorem unbound_calls_rejected_witness :
    seizedBuffer.pipelineBound = false ∧
      seizedBuffer.beginPass demoCfg demoSwapchain seizedDevice =
        some (seizedBuffer, demoSwapchain, seizedDevice) ∧
      seizedBuffer.bindTexture demoCfg demoTexture seizedDevice =
        some (demoTexture, seizedDevice) ∧
      seizedBuffer.beginPass failDebugCfg demoSwapchain seizedDevice = none :=
  ⟨rfl,
    (unbound_calls_rejected demoCfg seizedBuffer seizedDevice).2.2 rfl demoSwapchain,
    ((unbound_calls_rejected demoCfg seizedBuffer seizedDevice).2.1 rfl).2.1 demoTexture,
    (unbound_calls_rejected failDebugCfg seizedBuffer seizedDevice).2.2 rfl demoSwapchain⟩

/-- C22, counterexample: on the seized graphics command buffer, on which no
pipeline is bound, `draw` and `drawIndexed` record their draw command. -/
theorem draw_without_pipeline_draws :
    seizedBuffer.pipelineBound = false ∧ seizedBuffer._boundPipLayout = none ∧
      seizedBuffer.draw demoCfg 3 seizedDevice =
        some { seizedDevice with trace := seizedDevice.trace ++ [.vkCmdDraw 1 3] } ∧
      seizedBuffer.drawIndexed demoCfg 6 seizedDevice =
        some { seizedDevice with trace := seizedDevice.trace ++ [.vkCmdDrawIndexed 1 6] } := by
  decide

/-- C22, amended: `draw` and `drawIndexed` do not consult the bound pipeline.
They are rejected, recording no draw command (release build; the assertion aborts
in a debug build), exactly when the usage of the command buffer lacks the
graphics bit; with the graphics bit they record the draw command, the count cut
to 32 bits, whether or not a pipeline is bound.  They leave the command buffer
unchanged in every case. -/
theorem draw_rejected_only_without_graphics (cfg : Cfg) (cb : CommandBuffer) (d : Device)
    (count : Nat) :
    cb.draw cfg count d =
      (if cb._usage &&& QueueUsage.GRAPHICS != 0 then
        some { d with trace := d.trace ++ [.vkCmdDraw cb._vkCmdBuffer (count % 4294967296)] }
      else if cfg.debug then none else some d) ∧
    cb.drawIndexed cfg count d =
      (if cb._usage &&& QueueUsage.GRAPHICS != 0 then
        some { d with
          trace := d.trace ++ [.vkCmdDrawIndexed cb._vkCmdBuffer (count % 4294967296)] }
      else if cfg.debug then none else some d) ∧
    (∀ cb1 d1, cb.step cfg (.draw count) d = some (cb1, d1) → cb1 = cb) ∧
    (∀ cb1 d1, cb.step cfg (.drawIndexed count) d = some (cb1, d1) → cb1 = cb) ∧
    (∀ pip layout renderPass pipInfo,
      CommandBuffer.draw cfg count { cb with
          _boundPip := pip, _boundPipLayout := layout, _boundRenderPass := renderPass,
          _boundPipInfo := pipInfo } d = cb.draw cfg count d ∧
      CommandBuffer.drawIndexed cfg count { cb with
          _boundPip := pip, _boundPipLayout := layout, _boundRenderPass := renderPass,
          _boundPipInfo := pipInfo } d = cb.drawIndexed cfg count d) := by
  refine ⟨?_, ?_, ?_, ?_, ?_⟩
  · unfold CommandBuffer.draw
    split
    · rfl
    · simp only [CYDASSERT]; cases cfg.debug <;> rfl
  · unfold CommandBuffer.drawIndexed
    split
    · rfl
    · simp only [CYDASSERT]; cases cfg.debug <;> rfl
  · intro cb1 d1 h
    exact map_pair_fst _ _ cb cb1 d1 h
  · intro cb1 d1 h
    exact map_pair_fst _ _ cb cb1 d1 h
  · intro pip layout renderPass pipInfo
    exact ⟨rfl, rfl⟩

/-- Witness for C22 (amended): a command buffer seized for transfer only records
no draw; the seized graphics buffer records it and stays as it is. -/
theorem draw_rejected_only_without_graphics_witness :
    CommandBuffer.draw demoCfg 3 { seizedBuffer with _usage := 4 } seizedDevice =
        some seizedDevice ∧
      ∀ cb1 d1, seizedBuffer.step demoCfg (.draw 3) seizedDevice = some (cb1, d1) →
        cb1 = seizedBuffer :=
  ⟨(draw_rejected_only_without_graphics demoCfg { seizedBuffer with _usage := 4 }
      seizedDevice 3).1.trans (by decide),
    (draw_rejected_only_without_graphics demoCfg seizedBuffer seizedDevice 3).2.2.1⟩


/-! ## The framebuffers of the swapchain -/

/-- The creation parameters of the framebuffer of image `i`. -/
theorem createFramebuffer_eq (cfg : Cfg) (hna : NoAbort cfg) (info : RenderPassInfo)
    (renderPass : Handle) (i : Nat) (sc : Swapchain) (d : Device)
    (hv : i < sc.m_imageViews.length) (hf : i < sc.m_frameBuffers.length) :
    ∃ fbs : List Handle, fbs.length = sc.m_frameBuffers.length ∧
      (cfg.succeeds d.issued = true → fbs = sc.m_frameBuffers.set i (d.issued + 1)) ∧
      Swapchain.createFramebuffer cfg info renderPass i (sc, d) =
        some ({ sc with m_frameBuffers := fbs },
          { d with
            issued := d.issued + 1
            trace := d.trace ++ [.vkCreateFramebuffer
              ⟨renderPass,
                if info.attachments.any (fun attachment =>
                    attachment.type == AttachmentType.DEPTH_STENCIL ||
                      attachment.type == AttachmentType.DEPTH)
                then [sc.m_imageViews.getD i 0, sc.m_depthImageView]
                else [sc.m_imageViews.getD i 0],
                sc.m_extent.width, sc.m_extent.height, 1⟩] }) := by
  have hg : sc.m_imageViews.getD i 0 = sc.m_imageViews[i] := by
    rw [List.getD_eq_getElem?_getD, List.getElem?_eq_getElem hv]; rfl
  cases hs : cfg.succeeds d.issued
  · refine ⟨sc.m_frameBuffers, rfl, (fun h => by cases h), ?_⟩
    have hok : CYDASSERT cfg false = some () :=
      CYDASSERT_ok cfg false ((hna.at d.issued).imp id (fun h => by rw [hs] at h; cases h))
    simp only [Swapchain.createFramebuffer, List.getElem?_eq_getElem hv, hf, if_true,
      vkCreate_eq, hs, hok, hg]
    rfl
  · refine ⟨sc.m_frameBuffers.set i (d.issued + 1), by simp, fun _ => rfl, ?_⟩
    have hok : CYDASSERT cfg true = some () := CYDASSERT_ok cfg true (Or.inr rfl)
    simp only [Swapchain.createFramebuffer, List.getElem?_eq_getElem hv, hf, if_true,
      vkCreate_eq, hs, hok, hg, createdHandle]

theorem createFramebuffers_eq (cfg : Cfg) (hna : NoAbort cfg) (info : RenderPassInfo)
    (renderPass : Handle) (l : List Nat) :
    ∀ (sc : Swapchain) (d : Device),
      (∀ i ∈ l, i < sc.m_imageViews.length ∧ i < sc.m_frameBuffers.length) →
      ∃ fbs : List Handle, fbs.length = sc.m_frameBuffers.length ∧
        l.foldlM (fun acc i => Swapchain.createFramebuffer cfg info renderPass i acc) (sc, d) =
          some ({ sc with m_frameBuffers := fbs },
            { d with
              issued := d.issued + l.length
              trace := d.trace ++ l.map (fun i => .vkCreateFramebuffer
                ⟨renderPass,
                  if info.attachments.any (fun attachment =>
                      attachment.type == AttachmentType.DEPTH_STENCIL ||
                        attachment.type == AttachmentType.DEPTH)
                  then [sc.m_imageViews.getD i 0, sc.m_depthImageView]
                  else [sc.m_imageViews.getD i 0],
                  sc.m_extent.width, sc.m_extent.height, 1⟩) }) := by
  induction l with
  | nil =>
    intro sc d _
    exact ⟨sc.m_frameBuffers, rfl, by simp [List.foldlM_nil]⟩
  | cons i l ih =>
    intro sc d hl
    obtain ⟨hv, hf⟩ := hl i (List.mem_cons_self _ _)
    obtain ⟨fbs1, hlen1, _, h1⟩ := createFramebuffer_eq cfg hna info renderPass i sc d hv hf
    obtain ⟨fbs2, hlen2, h2⟩ := ih { sc with m_frameBuffers := fbs1 }
      { d with
        issued := d.issued + 1
        trace := d.trace ++ [.vkCreateFramebuffer
          ⟨renderPass,
            if info.attachments.any (fun attachment =>
                attachment.type == AttachmentType.DEPTH_STENCIL ||
                  attachment.type == AttachmentType.DEPTH)
            then [sc.m_imageViews.getD i 0, sc.m_depthImageView]
            else [sc.m_imageViews.getD i 0],
            sc.m_extent.width, sc.m_extent.height, 1⟩] }
      (fun j hj => by
        have := hl j (List.mem_cons_of_mem _ hj)
        exact ⟨this.1, by simp only [hlen1]; exact this.2⟩)
    refine ⟨fbs2, by rw [hlen2]; exact hlen1, ?_⟩
    simp only [List.foldlM_cons, h1, Option.bind_eq_bind, Option.some_bind]
    rw [h2]
    simp [Nat.add_assoc, Nat.add_comm 1]


/-- C23: `initFramebuffers` called with the render-pass handle of the previous
call returns with the swapchain and the device unchanged, whatever description
is passed.  Called with another handle, on a swapchain with one image view per
image and when no assertion aborts, it returns having issued exactly one
`vkCreateFramebuffer` per image, in image order, each for the new render pass
with the extent of the swapchain and with the image view of that image as first
attachment, followed by the depth view exactly when the description has a
`DEPTH` or `DEPTH_STENCIL` attachment; it stores the handle as previous render
pass, sizes the framebuffer array to the image count and changes no other
member. -/
theorem initFramebuffers_lazy (cfg : Cfg) (sc : Swapchain) (d : Device)
    (info : RenderPassInfo) (renderPass : Handle) :
    (renderPass = sc.m_prevRenderPass →
      sc.initFramebuffers cfg info renderPass d = some (sc, d)) ∧
    (renderPass ≠ sc.m_prevRenderPass → NoAbort cfg →
      sc.m_imageViews.length = sc.m_imageCount →
      ∃ fbs : List Handle, fbs.length = sc.m_imageCount ∧
        sc.initFramebuffers cfg info renderPass d =
          some ({ sc with m_prevRenderPass := renderPass, m_frameBuffers := fbs },
            { d with
              issued := d.issued + sc.m_imageCount
              trace := d.trace ++ (List.range sc.m_imageCount).map
                (fun i => .vkCreateFramebuffer
                  ⟨renderPass,
                    if info.attachments.any (fun attachment =>
                        attachment.type == AttachmentType.DEPTH_STENCIL ||
                          attachment.type == AttachmentType.DEPTH)
                    then [sc.m_imageViews.getD i 0, sc.m_depthImageView]
                    else [sc.m_imageViews.getD i 0],
                    sc.m_extent.width, sc.m_extent.height, 1⟩) })) := by
  constructor
  · intro h
    simp [Swapchain.initFramebuffers, h]
  · intro hne hna hlen
    obtain ⟨fbs, hl, hf⟩ := createFramebuffers_eq cfg hna info renderPass
      (List.range sc.m_imageCount)
      { sc with
        m_prevRenderPass := renderPass
        m_frameBuffers := vectorResize sc.m_frameBuffers sc.m_imageCount } d
      (fun i hi => by
        have hi2 := List.mem_range.mp hi
        exact ⟨by rw [hlen]; exact hi2, by simp only [vectorResize_length]; exact hi2⟩)
    refine ⟨fbs, by rw [hl]; exact vectorResize_length _ _, ?_⟩
    have hb : (renderPass != sc.m_prevRenderPass) = true := by simpa using hne
    simp only [Swapchain.initFramebuffers, hb, if_true]
    rw [hf]
    simp

/-- Witness for C23: the example swapchain, whose previous render pass is null,
builds its three framebuffers for render pass 1, without depth view; asked again
for render pass 1 it builds nothing. -/
theorem initFramebuffers_lazy_witness :
    (∃ fbs : List Handle, fbs.length = 3 ∧
      demoSwapchain.initFramebuffers demoCfg demoInfo.renderPass 1 Device.init =
        some ({ demoSwapchain with m_prevRenderPass := 1, m_frameBuffers := fbs },
          { Device.init with
            issued := 3
            trace := [.vkCreateFramebuffer ⟨1, [61], 1280, 720, 1⟩,
              .vkCreateFramebuffer ⟨1, [62], 1280, 720, 1⟩,
              .vkCreateFramebuffer ⟨1, [63], 1280, 720, 1⟩] })) ∧
      Swapchain.initFramebuffers demoCfg ⟨[]⟩ 1 { demoSwapchain with m_prevRenderPass := 1 }
        Device.init = some ({ demoSwapchain with m_prevRenderPass := 1 }, Device.init) := by
  constructor
  · obtain ⟨fbs, hl, hf⟩ :=
      (initFramebuffers_lazy demoCfg demoSwapchain Device.init demoInfo.renderPass 1).2
        (by decide) (Or.inl rfl) rfl
    exact ⟨fbs, hl, hf⟩
  · exact (initFramebuffers_lazy demoCfg { demoSwapchain with m_prevRenderPass := 1 }
      Device.init ⟨[]⟩ 1).1 rfl

/-- C27, at the failing inputs.  On the example swapchain of three images, whose
framebuffers 1, 2 and 3 are built from the image views 61, 62 and 63, an
`acquireImage` to which the driver hands image 2 leaves the frame index at 0, and
`getCurrentFramebuffer` returns framebuffer 1, built from the view of image 0.
On a swapchain of one image at frame index 1 the framebuffer array has one
element and `getCurrentFramebuffer` reads outside of it. -/
theorem current_framebuffer_ignores_acquired_image :
    ((demoSwapchain.initFramebuffers demoCfg demoInfo.renderPass 1 Device.init).bind
      (fun r => (r.1.acquireImage { demoCfg with acquireResult := fun _ => some 2 } 1 r.2).map
        (fun r2 => (r.2.trace, r2.1.m_frameBuffers, r2.1.m_imageIndex, r2.1.m_currentFrame,
          r2.1.getCurrentFramebuffer)))) =
      some ([.vkCreateFramebuffer ⟨1, [61], 1280, 720, 1⟩,
          .vkCreateFramebuffer ⟨1, [62], 1280, 720, 1⟩,
          .vkCreateFramebuffer ⟨1, [63], 1280, 720, 1⟩],
        [1, 2, 3], 2, 0, some 1) ∧
    ((Swapchain.initFramebuffers demoCfg demoInfo.renderPass 1
        { demoSwapchain with m_imageCount := 1, m_imageViews := [61], m_currentFrame := 1 }
        Device.init).bind
      (fun r => (r.1.acquireImage demoCfg 1 r.2).map
        (fun r2 => (r2.1.m_frameBuffers, r2.1.m_currentFrame,
          r2.1.getCurrentFramebuffer)))) =
      some ([1], 1, none) := by
  decide

/-! ## Freed descriptor sets, wait stages -/

/-- C26, at the failing input: on the freshly built device, `findOrAllocate` of
the example descriptor-set layout allocates set 2; after `free( 2 )` the same
look-up returns 2 again, issuing no allocation, while 2 is not among the sets
allocated from the pool. -/
theorem freed_set_is_returned_again :
    ((DescriptorPool.findOrAllocate demoCfg demoInfo.pipLayout.descSetLayout
        Device.init).bind
      (fun r =>
        (DescriptorPool.findOrAllocate demoCfg demoInfo.pipLayout.descSetLayout
          (DescriptorPool.free r.1 r.2)).map
          (fun r2 => (r.1, decide (r.1 ∈ r.2.allocatedSets), r2.1,
            decide (r2.1 ∈ r2.2.allocatedSets), r2.2.trace.drop r.2.trace.length)))) =
      some (2, true, 2, false, [.vkFreeDescriptorSets 2]) := by
  decide

/-- C28, at the failing input: after two successful `beginPass` calls in one
recording, the `vkQueueSubmit` of `submit` passes two wait semaphores and one
wait-stage mask; a submission without any `beginPass` passes no wait semaphore
and one wait-stage mask. -/
theorem submit_passes_one_wait_stage :
    ((seizedBuffer.run demoCfg
        [.startRecording, .bindPipeline demoInfo, .beginPass demoSwapchain, .draw 3, .endPass,
          .beginPass { demoSwapchain with m_currentFrame := 1 }, .draw 3, .endPass,
          .endRecording] demoDevice).bind
      (fun r => (r.1.submit demoCfg r.2).map
        (fun r2 => r2.2.trace.getLast?.bind (fun call =>
          match call with
          | .vkQueueSubmit _ submitInfo _ =>
            some (submitInfo.pWaitSemaphores, submitInfo.pWaitDstStageMask)
          | _ => none)))) = some (some ([1, 3], [VK_PIPELINE_STAGE_ALL_GRAPHICS_BIT])) ∧
    ((seizedBuffer.submit demoCfg seizedDevice).map
        (fun r2 => r2.2.trace.getLast?.bind (fun call =>
          match call with
          | .vkQueueSubmit _ submitInfo _ =>
            some (submitInfo.pWaitSemaphores, submitInfo.pWaitDstStageMask)
          | _ => none))) = some (some ([], [VK_PIPELINE_STAGE_ALL_GRAPHICS_BIT])) := by
  decide

end Cydonia
